import Mathlib

/-!
# curfil: pixel features of `random_tree_image.h`

A shallow embedding of `src/curfil/random_tree_image.h` (classes `XY`,
`PixelInstance`, `ImageFeatureFunction`, `ImageFeaturesAndThresholds`) and
theorems about it.

Conventions of the embedding

* C++ `int` is modelled by `Int`; the narrowing conversions that the code
  performs (`int8_t` cells, `uint8_t` parameters, `uint16_t` coordinates, the
  `int32_t` sort key) are explicit wrap-around functions.
* `double` values (`FeatureResponseType`) are modelled by `Option ℚ`: `none`
  is NaN, `some q` is the exact value `q`; their arithmetic is exact.
* the `float` arithmetic of `XY::normalize` is modelled in binary32: the
  conversion of an `int` to `float` and the `float` division round to the
  nearest value with a 24-bit significand, ties to even.
* `assert` statements do not change what a function returns; they are left
  out of the function bodies (the build with `NDEBUG`).  The functions whose
  assertions matter are given a second time, with the suffix `Checked`, as
  the build with assertions: there a failing `assert` aborts the call.
* a thrown `std::runtime_error` is `Except.error` with the message.
-/

set_option linter.dupNamespace false

namespace curfil

deriving instance DecidableEq for Except

/-! ## Machine integers -/

/-- Signed 8-bit cell of the feature matrix (`int8_t`). -/
abbrev int8_t := { v : Int // -128 ≤ v ∧ v ≤ 127 }

/-- Unsigned 8-bit value (`uint8_t`). -/
abbrev uint8_t := Fin 256

/-- Conversion of an `int` to `int8_t` (two's complement wrap-around). -/
def toInt8 (v : Int) : int8_t :=
  ⟨(v + 128) % 256 - 128, by omega, by omega⟩

/-- Conversion of an `int` to `uint8_t` (reduction modulo 256). -/
def toUInt8 (v : Int) : uint8_t :=
  ⟨(v % 256).toNat, by omega⟩

/-- Unsigned 16-bit value (`uint16_t`). -/
abbrev uint16_t := Fin 65536

/-- Conversion of an `int` to `uint16_t` (reduction modulo 65536). -/
def toUInt16 (v : Int) : uint16_t :=
  ⟨(v % 65536).toNat, by omega⟩

/-- Reading of a 32-bit pattern as `int32_t` (two's complement). -/
def toInt32 (n : Nat) : Int :=
  if n % 4294967296 < 2147483648 then (n % 4294967296 : Nat)
  else ((n % 4294967296 : Nat) : Int) - 4294967296

/-! ## Floating point values -/

/-- The type `FeatureResponseType` (`double`; `float` values are converted to
it): `none` is NaN, `some q` the exact value `q`. -/
abbrev FeatureResponseType := Option ℚ

/-- The value `std::numeric_limits<double>::quiet_NaN()`. -/
def NaN : FeatureResponseType := none

/-- The test `isnan`. -/
def isnan (a : FeatureResponseType) : Bool := a.isNone

/-- Floating point subtraction: NaN when an operand is NaN. -/
def fsub (a b : FeatureResponseType) : FeatureResponseType :=
  match a, b with
  | some p, some q => some (p - q)
  | _, _ => none

/-- Floating point addition: NaN when an operand is NaN. -/
def fadd (a b : FeatureResponseType) : FeatureResponseType :=
  match a, b with
  | some p, some q => some (p + q)
  | _, _ => none

/-- Conversion `static_cast<int>` of a floating point value: truncation
toward zero. -/
def truncToInt (q : ℚ) : Int :=
  if 0 ≤ q then Int.floor q else Int.ceil q

/-! ## The type `float` (binary32)

A `float` value is `some q` with `q` the exact value, or `none` when it is not
finite (an infinity or NaN). -/

/-- Rounding to the nearest integer, a tie going to the even one. -/
def roundHalfEven (q : ℚ) : Int :=
  let f := Int.floor q
  let r := q - (f : ℚ)
  if r < 1 / 2 then f
  else if 1 / 2 < r then f + 1
  else if f % 2 = 0 then f else f + 1

/-- The `float` nearest to the exact value `q` (round to nearest, ties to
even): with `e` the exponent of the leading bit of `q`, not below -126, the
result is the multiple of `2 ^ (e - 23)` nearest to `q`; it is not finite when
it reaches `2 ^ 128`. -/
def toFloat32 (q : ℚ) : Option ℚ :=
  if q = 0 then some 0
  else
    let e : Int := max (Int.log 2 |q|) (-126)
    let quantum : ℚ := 2 ^ (e - 23)
    let r : ℚ := (roundHalfEven (q / quantum) : ℚ) * quantum
    if |r| < 2 ^ 128 then some r else none

/-- Conversion of an `int` to `float`. -/
def intToFloat (n : Int) : Option ℚ :=
  toFloat32 (n : ℚ)

/-- Division of two `float` values; a division by zero is not finite. -/
def fdiv32 (a b : Option ℚ) : Option ℚ :=
  match a, b with
  | some x, some y => if y = 0 then none else toFloat32 (x / y)
  | _, _ => none

/-- Conversion `static_cast<int>` of a `float`: truncation toward zero.  The
conversion of a value that is not finite is undefined in C++; the value given
here, `-2 ^ 31`, is the result of the x86 conversion instruction. -/
def floatToInt (v : Option ℚ) : Int :=
  match v with
  | some q => truncToInt q
  | none => -2147483648

/-! ## `class Depth` (of `image.h`) -/

/-- Modelled from the spec: `class Depth` of `image.h`, which is not part of
the sources at hand.  A depth is an integer number of depth units (the "fixed
unit factor" between the integer and the working unit is 1000, the constant of
`averageRegionDepth`); a sentinel invalid depth exists. -/
structure Depth where
  value : Int
deriving DecidableEq, Repr

namespace Depth

/-- The sentinel `Depth::INVALID`. -/
def INVALID : Depth := ⟨-1⟩

def getIntValue (d : Depth) : Int := d.value

/-- A depth is valid when its integer value is not negative; the sentinel is
invalid. -/
def isValid (d : Depth) : Bool := decide (0 ≤ d.value)

/-- The depth in working units, a `float`: the integer value converted to
`float` and divided by `1000.0f`. -/
def getFloatValue (d : Depth) : Option ℚ := fdiv32 (intToFloat d.value) (some 1000)

/-- Sum of two depths (`operator+`). -/
def add (a b : Depth) : Depth := ⟨a.value + b.value⟩

/-- Difference of two depths (`operator-`). -/
def sub (a b : Depth) : Depth := ⟨a.value - b.value⟩

end Depth

/-! ## `class XY` -/

/-- Integer coordinate pair (`class XY`; `Region`, `Offset`, `Point` are
typedefs of it). -/
structure XY where
  x : Int
  y : Int
deriving DecidableEq, Repr

abbrev Region := XY
abbrev Offset := XY
abbrev Point := XY

namespace XY

def getX (p : XY) : Int := p.x

def getY (p : XY) : Int := p.y

/-- Member `normalize`: each component is converted to `float`, divided (in
`float`) by the float value of the depth and converted back to `int`. -/
def normalize (p : XY) (depth : Depth) : XY :=
  let newX := floatToInt (fdiv32 (intToFloat p.x) depth.getFloatValue)
  let newY := floatToInt (fdiv32 (intToFloat p.y) depth.getFloatValue)
  ⟨newX, newY⟩

end XY

/-! ## `class RGBDImage` (of `image.h`) -/

/-- Modelled from the spec: integer class label (`LabelType` of
`random_tree.h`). -/
abbrev LabelType := Nat

/-- Modelled from the spec: the part of `class RGBDImage` (`image.h`, not part
of the sources at hand) that `PixelInstance` reads: the image bounds, the
per-pixel integrated colour channels, the per-pixel integrated depth and the
integrated validity count. -/
structure RGBDImage where
  width : Int
  height : Int
  integratedDepth : Bool
  integratedColor : Bool
  color : Int → Int → uint8_t → ℚ
  depth : Int → Int → Depth
  depthValid : Int → Int → Int

namespace RGBDImage

def getWidth (image : RGBDImage) : Int := image.width

def getHeight (image : RGBDImage) : Int := image.height

def hasIntegratedDepth (image : RGBDImage) : Bool := image.integratedDepth

def hasIntegratedColor (image : RGBDImage) : Bool := image.integratedColor

/-- Bounds test: `0 ≤ x < width` and `0 ≤ y < height`. -/
def inImage (image : RGBDImage) (x y : Int) : Bool :=
  decide (0 ≤ x ∧ x < image.width ∧ 0 ≤ y ∧ y < image.height)

def getColor (image : RGBDImage) (x y : Int) (channel : uint8_t) : ℚ :=
  image.color x y channel

def getDepth (image : RGBDImage) (x y : Int) : Depth := image.depth x y

def getDepthValid (image : RGBDImage) (x y : Int) : Int := image.depthValid x y

end RGBDImage

/-! ## `class PixelInstance` -/

/-- Data members of `class PixelInstance`. -/
structure PixelInstance where
  image : RGBDImage
  label : LabelType
  point : Point
  depth : Depth

namespace PixelInstance

/-- The value `valid` of the four-argument constructor: the validity count at
`(x, y)` minus those of the three neighbours, a missing neighbour counting 0. -/
def validAt (image : RGBDImage) (x y : uint16_t) : Int :=
  let aboveValid : Int := if y.val > 0 then image.getDepthValid x.val (y.val - 1) else 0
  let leftValid : Int := if x.val > 0 then image.getDepthValid (x.val - 1) y.val else 0
  let aboveLeftValid : Int :=
    if x.val > 0 ∧ y.val > 0 then image.getDepthValid (x.val - 1) (y.val - 1) else 0
  image.getDepthValid x.val y.val - (leftValid + aboveValid - aboveLeftValid)

def width (s : PixelInstance) : Int := s.image.getWidth

def height (s : PixelInstance) : Int := s.image.getHeight

def getX (s : PixelInstance) : uint16_t := toUInt16 s.point.getX

def getY (s : PixelInstance) : uint16_t := toUInt16 s.point.getY

def getLabel (s : PixelInstance) : LabelType := s.label

/-- Public member `getDepth()`: the depth of the sample. -/
def getDepth (s : PixelInstance) : Depth := s.depth

def inImage (s : PixelInstance) (x y : Int) : Bool := s.image.inImage x y

/-- Private member `getColor(pos, channel)`. -/
def getColor (s : PixelInstance) (pos : Point) (channel : uint8_t) : FeatureResponseType :=
  if !s.inImage pos.getX pos.getY then
    NaN
  else
    some (s.image.getColor pos.getX pos.getY channel)

/-- Private member `getDepth(pos)`. -/
def getDepthAt (s : PixelInstance) (pos : Point) : Depth :=
  if !s.inImage pos.getX pos.getY then
    Depth.INVALID
  else
    s.image.getDepth pos.getX pos.getY

/-- Private member `getDepthValid(pos)`. -/
def getDepthValid (s : PixelInstance) (pos : Point) : Int :=
  s.image.getDepthValid pos.getX pos.getY

/-- Member `averageRegionColor`. -/
def averageRegionColor (s : PixelInstance) (offset : Offset) (region : Region)
    (channel : uint8_t) : FeatureResponseType :=
  let width : Int := max 1 region.getX
  let height : Int := max 1 region.getY
  let x : Int := (s.getX.val : Int) + offset.getX
  let y : Int := (s.getY.val : Int) + offset.getY
  let leftX := x - width
  let rightX := x + width
  let upperY := y - height
  let lowerY := y + height
  if leftX < 0 ∨ rightX ≥ s.image.getWidth ∨ upperY < 0 ∨ lowerY ≥ s.image.getHeight then
    NaN
  else
    let upperLeft : Point := ⟨leftX, upperY⟩
    let upperRight : Point := ⟨rightX, upperY⟩
    let lowerLeft : Point := ⟨leftX, lowerY⟩
    let lowerRight : Point := ⟨rightX, lowerY⟩
    let lowerRightPixel := s.getColor lowerRight channel
    let lowerLeftPixel := s.getColor lowerLeft channel
    let upperRightPixel := s.getColor upperRight channel
    let upperLeftPixel := s.getColor upperLeft channel
    let sum := fadd (fsub lowerRightPixel upperRightPixel) (fsub upperLeftPixel lowerLeftPixel)
    sum

/-- The value `numValid` of `averageRegionDepth`: the four-corner query of the
integrated validity at the corners `(x ± w, y ± h)`. -/
def numValid (s : PixelInstance) (leftX rightX upperY lowerY : Int) : Int :=
  let upperLeftValid := s.getDepthValid ⟨leftX, upperY⟩
  let upperRightValid := s.getDepthValid ⟨rightX, upperY⟩
  let lowerRightValid := s.getDepthValid ⟨rightX, lowerY⟩
  let lowerLeftValid := s.getDepthValid ⟨leftX, lowerY⟩
  (lowerRightValid - upperRightValid) + (upperLeftValid - lowerLeftValid)

/-- Member `averageRegionDepth`. -/
def averageRegionDepth (s : PixelInstance) (offset : Offset) (region : Region) :
    FeatureResponseType :=
  let width : Int := max 1 region.getX
  let height : Int := max 1 region.getY
  let x : Int := (s.getX.val : Int) + offset.getX
  let y : Int := (s.getY.val : Int) + offset.getY
  let leftX := x - width
  let rightX := x + width
  let upperY := y - height
  let lowerY := y + height
  if leftX < 0 ∨ rightX ≥ s.image.getWidth ∨ upperY < 0 ∨ lowerY ≥ s.image.getHeight then
    NaN
  else
    let upperLeft : Point := ⟨leftX, upperY⟩
    let upperRight : Point := ⟨rightX, upperY⟩
    let lowerLeft : Point := ⟨leftX, lowerY⟩
    let lowerRight : Point := ⟨rightX, lowerY⟩
    let numValid := s.numValid leftX rightX upperY lowerY
    if numValid == 0 then
      NaN
    else
      let lowerRightDepth := (s.getDepthAt lowerRight).getIntValue
      let lowerLeftDepth := (s.getDepthAt lowerLeft).getIntValue
      let upperRightDepth := (s.getDepthAt upperRight).getIntValue
      let upperLeftDepth := (s.getDepthAt upperLeft).getIntValue
      let sum : Int := (lowerRightDepth - upperRightDepth) + (upperLeftDepth - lowerLeftDepth)
      let feat : ℚ := (sum : ℚ) / 1000
      some (feat / (numValid : ℚ))

/-- The four-argument constructor `PixelInstance(image, label, x, y)`. -/
def PixelInstance (image : RGBDImage) (label : LabelType) (x y : uint16_t) :
    Except String curfil.PixelInstance :=
  if !image.hasIntegratedDepth then
    Except.error "image is not integrated"
  else
    let valid := validAt image x y
    if valid == 1 then
      let above : Depth := if y.val > 0 then image.getDepth x.val (y.val - 1) else ⟨0⟩
      let left : Depth := if x.val > 0 then image.getDepth (x.val - 1) y.val else ⟨0⟩
      let aboveLeft : Depth :=
        if x.val > 0 ∧ y.val > 0 then image.getDepth (x.val - 1) (y.val - 1) else ⟨0⟩
      let depth := (image.getDepth x.val y.val).sub ((left.add above).sub aboveLeft)
      Except.ok ⟨image, label, ⟨x.val, y.val⟩, depth⟩
    else
      Except.ok ⟨image, label, ⟨x.val, y.val⟩, Depth.INVALID⟩

/-- The five-argument constructor `PixelInstance(image, label, depth, x, y)`. -/
def withDepth (image : RGBDImage) (label : LabelType) (depth : Depth) (x y : uint16_t) :
    curfil.PixelInstance :=
  ⟨image, label, ⟨x.val, y.val⟩, depth⟩

end PixelInstance

/-! ## `enum FeatureType` and `class ImageFeatureFunction` -/

/-- Value of `enum FeatureType { DEPTH = 0, COLOR = 1 }`, carried as its
underlying integer: `getFeatureFunction` casts a stored cell to the enum. -/
structure FeatureType where
  val : Int
deriving DecidableEq, Repr

def DEPTH : FeatureType := ⟨0⟩

def COLOR : FeatureType := ⟨1⟩

/-- Data members of `class ImageFeatureFunction`. -/
structure ImageFeatureFunction where
  featureType : FeatureType
  offset1 : Offset
  region1 : Region
  channel1 : uint8_t
  offset2 : Offset
  region2 : Region
  channel2 : uint8_t
deriving DecidableEq, Repr

namespace ImageFeatureFunction

def getType (f : ImageFeatureFunction) : FeatureType := f.featureType

def getOffset1 (f : ImageFeatureFunction) : Offset := f.offset1

def getRegion1 (f : ImageFeatureFunction) : Region := f.region1

def getChannel1 (f : ImageFeatureFunction) : uint8_t := f.channel1

def getOffset2 (f : ImageFeatureFunction) : Offset := f.offset2

def getRegion2 (f : ImageFeatureFunction) : Region := f.region2

def getChannel2 (f : ImageFeatureFunction) : uint8_t := f.channel2

/-- Member `isValid`: `offset1 != offset2`. -/
def isValid (f : ImageFeatureFunction) : Bool :=
  f.offset1 != f.offset2

/-- Member `getSortKey`.  The key is accumulated as a 32-bit pattern (each
`|=` operand is a `uint8_t` value shifted left) and read as `int32_t`. -/
def getSortKey (f : ImageFeatureFunction) : Int :=
  let sortKey : Nat := 0
  let sortKey := sortKey ||| ((toUInt8 (Int.land f.getType.val 0x03)).val <<< 30)
  let sortKey := sortKey ||| ((toUInt8 (Int.land (f.getChannel1.val : Int) 0x0F)).val <<< 26)
  let sortKey := sortKey ||| ((toUInt8 (Int.land (f.getChannel2.val : Int) 0x0F)).val <<< 22)
  let sortKey := sortKey ||| ((toUInt8 (Int.land (f.getOffset1.getY + 127) 0xFF)).val <<< 14)
  let sortKey := sortKey ||| ((toUInt8 (Int.land (f.getOffset1.getX + 127) 0xFF)).val <<< 6)
  toInt32 sortKey

/-- Private member `calculateColorFeature`. -/
def calculateColorFeature (f : ImageFeatureFunction) (inst : PixelInstance) :
    FeatureResponseType :=
  let depth := inst.getDepth
  if !depth.isValid then
    NaN
  else
    let a := inst.averageRegionColor (f.offset1.normalize depth) (f.region1.normalize depth)
      f.channel1
    if isnan a then
      a
    else
      let b := inst.averageRegionColor (f.offset2.normalize depth) (f.region2.normalize depth)
        f.channel2
      if isnan b then
        b
      else
        fsub a b

/-- Private member `calculateDepthFeature`. -/
def calculateDepthFeature (f : ImageFeatureFunction) (inst : PixelInstance) :
    FeatureResponseType :=
  let depth := inst.getDepth
  if !depth.isValid then
    NaN
  else
    let a := inst.averageRegionDepth (f.offset1.normalize depth) (f.region1.normalize depth)
    if isnan a then
      a
    else
      let b := inst.averageRegionDepth (f.offset2.normalize depth) (f.region2.normalize depth)
      if isnan b then
        b
      else
        fsub a b

/-- Member `calculateFeatureResponse`: dispatch on the kind; a kind that is
neither DEPTH nor COLOR falls through the `switch` to `return 0`. -/
def calculateFeatureResponse (f : ImageFeatureFunction) (inst : PixelInstance) :
    FeatureResponseType :=
  if f.featureType = DEPTH then
    f.calculateDepthFeature inst
  else if f.featureType = COLOR then
    f.calculateColorFeature inst
  else
    some 0

/-- The seven-argument constructor: throws when `offset1 == offset2`. -/
def ImageFeatureFunction (featureType : FeatureType)
    (offset1 : Offset) (region1 : Region) (channel1 : uint8_t)
    (offset2 : Offset) (region2 : Region) (channel2 : uint8_t) :
    Except String curfil.ImageFeatureFunction :=
  if offset1 == offset2 then
    Except.error "illegal feature: offset1 equals offset2"
  else
    Except.ok ⟨featureType, offset1, region1, channel1, offset2, region2, channel2⟩

/-- The default constructor: every member value-initialised. -/
def default : curfil.ImageFeatureFunction :=
  ⟨⟨0⟩, ⟨0, 0⟩, ⟨0, 0⟩, 0, ⟨0, 0⟩, ⟨0, 0⟩, 0⟩

end ImageFeatureFunction

/-! ## `class ImageFeaturesAndThresholds` -/

/-- The batch: `m_features` is the `11 × numFeatures` matrix of `int8_t`
cells, `m_thresholds` the `numThresholds × numFeatures` matrix of `float`. -/
structure ImageFeaturesAndThresholds (numFeatures numThresholds : Nat) where
  m_features : Fin 11 → Fin numFeatures → int8_t
  m_thresholds : Fin numThresholds → Fin numFeatures → ℚ

namespace ImageFeaturesAndThresholds

variable {numFeatures numThresholds : Nat}

/-- The constructor `ImageFeaturesAndThresholds(numFeatures, numThresholds,
allocator)`; cells start as zero. -/
def create (numFeatures numThresholds : Nat) :
    ImageFeaturesAndThresholds numFeatures numThresholds :=
  ⟨fun _ _ => toInt8 0, fun _ _ => 0⟩

def types (b : ImageFeaturesAndThresholds numFeatures numThresholds) :
    Fin numFeatures → int8_t := b.m_features 0

def offset1X (b : ImageFeaturesAndThresholds numFeatures numThresholds) :
    Fin numFeatures → int8_t := b.m_features 1

def offset1Y (b : ImageFeaturesAndThresholds numFeatures numThresholds) :
    Fin numFeatures → int8_t := b.m_features 2

def offset2X (b : ImageFeaturesAndThresholds numFeatures numThresholds) :
    Fin numFeatures → int8_t := b.m_features 3

def offset2Y (b : ImageFeaturesAndThresholds numFeatures numThresholds) :
    Fin numFeatures → int8_t := b.m_features 4

def region1X (b : ImageFeaturesAndThresholds numFeatures numThresholds) :
    Fin numFeatures → int8_t := b.m_features 5

def region1Y (b : ImageFeaturesAndThresholds numFeatures numThresholds) :
    Fin numFeatures → int8_t := b.m_features 6

def region2X (b : ImageFeaturesAndThresholds numFeatures numThresholds) :
    Fin numFeatures → int8_t := b.m_features 7

def region2Y (b : ImageFeaturesAndThresholds numFeatures numThresholds) :
    Fin numFeatures → int8_t := b.m_features 8

def channel1 (b : ImageFeaturesAndThresholds numFeatures numThresholds) :
    Fin numFeatures → int8_t := b.m_features 9

def channel2 (b : ImageFeaturesAndThresholds numFeatures numThresholds) :
    Fin numFeatures → int8_t := b.m_features 10

/-- Assignment `m_features[row](feat) = v`. -/
def setCell (b : ImageFeaturesAndThresholds numFeatures numThresholds)
    (row : Fin 11) (feat : Fin numFeatures) (v : int8_t) :
    ImageFeaturesAndThresholds numFeatures numThresholds :=
  { b with m_features := fun r c => if r = row ∧ c = feat then v else b.m_features r c }

/-- Member `setFeatureFunction`: eleven cell assignments into column `feat`. -/
def setFeatureFunction (b : ImageFeaturesAndThresholds numFeatures numThresholds)
    (feat : Fin numFeatures) (feature : ImageFeatureFunction) :
    ImageFeaturesAndThresholds numFeatures numThresholds :=
  let b := b.setCell 0 feat (toInt8 feature.getType.val)
  let b := b.setCell 1 feat (toInt8 feature.getOffset1.getX)
  let b := b.setCell 2 feat (toInt8 feature.getOffset1.getY)
  let b := b.setCell 3 feat (toInt8 feature.getOffset2.getX)
  let b := b.setCell 4 feat (toInt8 feature.getOffset2.getY)
  let b := b.setCell 5 feat (toInt8 feature.getRegion1.getX)
  let b := b.setCell 6 feat (toInt8 feature.getRegion1.getY)
  let b := b.setCell 7 feat (toInt8 feature.getRegion2.getX)
  let b := b.setCell 8 feat (toInt8 feature.getRegion2.getY)
  let b := b.setCell 9 feat (toInt8 feature.getChannel1.val)
  let b := b.setCell 10 feat (toInt8 feature.getChannel2.val)
  b

/-- Member `getFeatureFunction`: rebuilds the descriptor of column `feat`
through the seven-argument constructor. -/
def getFeatureFunction (b : ImageFeaturesAndThresholds numFeatures numThresholds)
    (feat : Fin numFeatures) : Except String ImageFeatureFunction :=
  let offset1 : Offset := ⟨(b.offset1X feat).val, (b.offset1Y feat).val⟩
  let offset2 : Offset := ⟨(b.offset2X feat).val, (b.offset2Y feat).val⟩
  let region1 : Offset := ⟨(b.region1X feat).val, (b.region1Y feat).val⟩
  let region2 : Offset := ⟨(b.region2X feat).val, (b.region2Y feat).val⟩
  ImageFeatureFunction.ImageFeatureFunction ⟨(b.types feat).val⟩
    offset1 region1 (toUInt8 (b.channel1 feat).val)
    offset2 region2 (toUInt8 (b.channel2 feat).val)

end ImageFeaturesAndThresholds

/-! ## The build with assertions

In the build with assertions a failing `assert` aborts the program.  The
functions of this section repeat the bodies above with every `assert` of the
source in its place; an abort is `Except.error` with the name of the function
and the asserted expression. -/

/-- The statement `assert(expr)`: `holds` is the value of the expression,
`expr` its text, preceded by the name of the enclosing function. -/
def assert (expr : String) (holds : Bool) : Except String Unit :=
  if holds then Except.ok () else Except.error expr

/-- The comparison `a > 0` on a floating point value (false on NaN). -/
def fpos (a : FeatureResponseType) : Bool :=
  match a with
  | some p => decide (0 < p)
  | none => false

/-- Member `XY::normalize`, with its assertion. -/
def XY.normalizeChecked (p : XY) (depth : Depth) : Except String XY := do
  assert "XY::normalize: depth.isValid()" depth.isValid
  let newX := floatToInt (fdiv32 (intToFloat p.x) depth.getFloatValue)
  let newY := floatToInt (fdiv32 (intToFloat p.y) depth.getFloatValue)
  pure ⟨newX, newY⟩

namespace PixelInstance

/-- Private member `getColor(pos, channel)`, with its assertion. -/
def getColorChecked (s : curfil.PixelInstance) (pos : Point) (channel : uint8_t) :
    Except String FeatureResponseType :=
  if !s.inImage pos.getX pos.getY then
    pure NaN
  else do
    assert "PixelInstance::getColor: image->hasIntegratedColor()" s.image.hasIntegratedColor
    pure (some (s.image.getColor pos.getX pos.getY channel))

/-- Private member `getDepth(pos)`, with its assertions. -/
def getDepthAtChecked (s : curfil.PixelInstance) (pos : Point) : Except String Depth :=
  if !s.inImage pos.getX pos.getY then
    pure Depth.INVALID
  else do
    assert "PixelInstance::getDepth: image->hasIntegratedDepth()" s.image.hasIntegratedDepth
    let depth := s.image.getDepth pos.getX pos.getY
    assert "PixelInstance::getDepth: depth.getIntValue() >= 0" (decide (depth.getIntValue ≥ 0))
    pure depth

/-- Member `averageRegionColor`, with its assertions. -/
def averageRegionColorChecked (s : curfil.PixelInstance) (offset : Offset) (region : Region)
    (channel : uint8_t) : Except String FeatureResponseType := do
  assert "PixelInstance::averageRegionColor: region.getX() >= 0" (decide (region.getX ≥ 0))
  assert "PixelInstance::averageRegionColor: region.getY() >= 0" (decide (region.getY ≥ 0))
  assert "PixelInstance::averageRegionColor: image->hasIntegratedColor()"
    s.image.hasIntegratedColor
  let width : Int := max 1 region.getX
  let height : Int := max 1 region.getY
  let x : Int := (s.getX.val : Int) + offset.getX
  let y : Int := (s.getY.val : Int) + offset.getY
  let leftX := x - width
  let rightX := x + width
  let upperY := y - height
  let lowerY := y + height
  if leftX < 0 ∨ rightX ≥ s.image.getWidth ∨ upperY < 0 ∨ lowerY ≥ s.image.getHeight then
    pure NaN
  else do
    assert "PixelInstance::averageRegionColor: inImage(x, y)" (s.inImage x y)
    let upperLeft : Point := ⟨leftX, upperY⟩
    let upperRight : Point := ⟨rightX, upperY⟩
    let lowerLeft : Point := ⟨leftX, lowerY⟩
    let lowerRight : Point := ⟨rightX, lowerY⟩
    let lowerRightPixel ← s.getColorChecked lowerRight channel
    let lowerLeftPixel ← s.getColorChecked lowerLeft channel
    let upperRightPixel ← s.getColorChecked upperRight channel
    let upperLeftPixel ← s.getColorChecked upperLeft channel
    let sum := fadd (fsub lowerRightPixel upperRightPixel) (fsub upperLeftPixel lowerLeftPixel)
    pure sum

/-- Member `averageRegionDepth`, with its assertions. -/
def averageRegionDepthChecked (s : curfil.PixelInstance) (offset : Offset) (region : Region) :
    Except String FeatureResponseType := do
  assert "PixelInstance::averageRegionDepth: region.getX() >= 0" (decide (region.getX ≥ 0))
  assert "PixelInstance::averageRegionDepth: region.getY() >= 0" (decide (region.getY ≥ 0))
  assert "PixelInstance::averageRegionDepth: image->hasIntegratedDepth()"
    s.image.hasIntegratedDepth
  let width : Int := max 1 region.getX
  let height : Int := max 1 region.getY
  let x : Int := (s.getX.val : Int) + offset.getX
  let y : Int := (s.getY.val : Int) + offset.getY
  let leftX := x - width
  let rightX := x + width
  let upperY := y - height
  let lowerY := y + height
  if leftX < 0 ∨ rightX ≥ s.image.getWidth ∨ upperY < 0 ∨ lowerY ≥ s.image.getHeight then
    pure NaN
  else do
    assert "PixelInstance::averageRegionDepth: inImage(x, y)" (s.inImage x y)
    let upperLeft : Point := ⟨leftX, upperY⟩
    let upperRight : Point := ⟨rightX, upperY⟩
    let lowerLeft : Point := ⟨leftX, lowerY⟩
    let lowerRight : Point := ⟨rightX, lowerY⟩
    let numValid := s.numValid leftX rightX upperY lowerY
    assert "PixelInstance::averageRegionDepth: numValid >= 0" (decide (numValid ≥ 0))
    if numValid == 0 then
      pure NaN
    else do
      let lowerRightDepth := (← s.getDepthAtChecked lowerRight).getIntValue
      let lowerLeftDepth := (← s.getDepthAtChecked lowerLeft).getIntValue
      let upperRightDepth := (← s.getDepthAtChecked upperRight).getIntValue
      let upperLeftDepth := (← s.getDepthAtChecked upperLeft).getIntValue
      let sum : Int := (lowerRightDepth - upperRightDepth) + (upperLeftDepth - lowerLeftDepth)
      let feat : ℚ := (sum : ℚ) / 1000
      pure (some (feat / (numValid : ℚ)))

end PixelInstance

/-- Private member `getColor(pos, channel)` with its out-of-image branch
turned into an abort: a caller that runs as with `getColorChecked` never takes
that branch. -/
def PixelInstance.getColorStrict (s : curfil.PixelInstance) (pos : Point) (channel : uint8_t) :
    Except String FeatureResponseType :=
  if !s.inImage pos.getX pos.getY then
    Except.error "PixelInstance::getColor: out-of-image branch"
  else do
    assert "PixelInstance::getColor: image->hasIntegratedColor()" s.image.hasIntegratedColor
    pure (some (s.image.getColor pos.getX pos.getY channel))

/-- Private member `getDepth(pos)` with its out-of-image branch turned into an
abort. -/
def PixelInstance.getDepthAtStrict (s : curfil.PixelInstance) (pos : Point) : Except String Depth :=
  if !s.inImage pos.getX pos.getY then
    Except.error "PixelInstance::getDepth: out-of-image branch"
  else do
    assert "PixelInstance::getDepth: image->hasIntegratedDepth()" s.image.hasIntegratedDepth
    let depth := s.image.getDepth pos.getX pos.getY
    assert "PixelInstance::getDepth: depth.getIntValue() >= 0" (decide (depth.getIntValue ≥ 0))
    pure depth

/-- Member `averageRegionColor`, with its assertions, the private lookup
`getColor` being the parameter `lookup`. -/
def averageRegionColorWith (lookup : Point → uint8_t → Except String FeatureResponseType)
    (s : PixelInstance) (offset : Offset) (region : Region) (channel : uint8_t) :
    Except String FeatureResponseType := do
  assert "PixelInstance::averageRegionColor: region.getX() >= 0" (decide (region.getX ≥ 0))
  assert "PixelInstance::averageRegionColor: region.getY() >= 0" (decide (region.getY ≥ 0))
  assert "PixelInstance::averageRegionColor: image->hasIntegratedColor()"
    s.image.hasIntegratedColor
  let width : Int := max 1 region.getX
  let height : Int := max 1 region.getY
  let x : Int := (s.getX.val : Int) + offset.getX
  let y : Int := (s.getY.val : Int) + offset.getY
  let leftX := x - width
  let rightX := x + width
  let upperY := y - height
  let lowerY := y + height
  if leftX < 0 ∨ rightX ≥ s.image.getWidth ∨ upperY < 0 ∨ lowerY ≥ s.image.getHeight then
    pure NaN
  else do
    assert "PixelInstance::averageRegionColor: inImage(x, y)" (s.inImage x y)
    let upperLeft : Point := ⟨leftX, upperY⟩
    let upperRight : Point := ⟨rightX, upperY⟩
    let lowerLeft : Point := ⟨leftX, lowerY⟩
    let lowerRight : Point := ⟨rightX, lowerY⟩
    let lowerRightPixel ← lookup lowerRight channel
    let lowerLeftPixel ← lookup lowerLeft channel
    let upperRightPixel ← lookup upperRight channel
    let upperLeftPixel ← lookup upperLeft channel
    let sum := fadd (fsub lowerRightPixel upperRightPixel) (fsub upperLeftPixel lowerLeftPixel)
    pure sum

/-- Member `averageRegionDepth`, with its assertions, the private lookup
`getDepth` being the parameter `lookup`. -/
def averageRegionDepthWith (lookup : Point → Except String Depth)
    (s : PixelInstance) (offset : Offset) (region : Region) :
    Except String FeatureResponseType := do
  assert "PixelInstance::averageRegionDepth: region.getX() >= 0" (decide (region.getX ≥ 0))
  assert "PixelInstance::averageRegionDepth: region.getY() >= 0" (decide (region.getY ≥ 0))
  assert "PixelInstance::averageRegionDepth: image->hasIntegratedDepth()"
    s.image.hasIntegratedDepth
  let width : Int := max 1 region.getX
  let height : Int := max 1 region.getY
  let x : Int := (s.getX.val : Int) + offset.getX
  let y : Int := (s.getY.val : Int) + offset.getY
  let leftX := x - width
  let rightX := x + width
  let upperY := y - height
  let lowerY := y + height
  if leftX < 0 ∨ rightX ≥ s.image.getWidth ∨ upperY < 0 ∨ lowerY ≥ s.image.getHeight then
    pure NaN
  else do
    assert "PixelInstance::averageRegionDepth: inImage(x, y)" (s.inImage x y)
    let upperLeft : Point := ⟨leftX, upperY⟩
    let upperRight : Point := ⟨rightX, upperY⟩
    let lowerLeft : Point := ⟨leftX, lowerY⟩
    let lowerRight : Point := ⟨rightX, lowerY⟩
    let numValid := s.numValid leftX rightX upperY lowerY
    assert "PixelInstance::averageRegionDepth: numValid >= 0" (decide (numValid ≥ 0))
    if numValid == 0 then
      pure NaN
    else do
      let lowerRightDepth := (← lookup lowerRight).getIntValue
      let lowerLeftDepth := (← lookup lowerLeft).getIntValue
      let upperRightDepth := (← lookup upperRight).getIntValue
      let upperLeftDepth := (← lookup upperLeft).getIntValue
      let sum : Int := (lowerRightDepth - upperRightDepth) + (upperLeftDepth - lowerLeftDepth)
      let feat : ℚ := (sum : ℚ) / 1000
      pure (some (feat / (numValid : ℚ)))

namespace ImageFeaturesAndThresholds

/-- Member `setFeatureFunction`, with its assertion
`assert(getFeatureFunction(feat) == feature)`: the eleven assignments, then
the decoding of the column (whose exception leaves the function) and the
comparison of all seven fields. -/
def setFeatureFunctionChecked {numFeatures numThresholds : Nat}
    (b : ImageFeaturesAndThresholds numFeatures numThresholds)
    (feat : Fin numFeatures) (feature : ImageFeatureFunction) :
    Except String (ImageFeaturesAndThresholds numFeatures numThresholds) := do
  let b := b.setFeatureFunction feat feature
  let decoded ← b.getFeatureFunction feat
  assert "ImageFeaturesAndThresholds::setFeatureFunction: getFeatureFunction(feat) == feature"
    (decide (decoded = feature))
  pure b

end ImageFeaturesAndThresholds

namespace ImageFeatureFunction

/-- Private member `calculateColorFeature`, with the assertions of the
functions it calls. -/
def calculateColorFeatureChecked (f : curfil.ImageFeatureFunction) (inst : PixelInstance) :
    Except String FeatureResponseType :=
  let depth := inst.getDepth
  if !depth.isValid then
    pure NaN
  else do
    let a ← inst.averageRegionColorChecked (← f.offset1.normalizeChecked depth)
      (← f.region1.normalizeChecked depth) f.channel1
    if isnan a then
      pure a
    else do
      let b ← inst.averageRegionColorChecked (← f.offset2.normalizeChecked depth)
        (← f.region2.normalizeChecked depth) f.channel2
      if isnan b then
        pure b
      else
        pure (fsub a b)

/-- Private member `calculateDepthFeature`, with its assertions. -/
def calculateDepthFeatureChecked (f : curfil.ImageFeatureFunction) (inst : PixelInstance) :
    Except String FeatureResponseType :=
  let depth := inst.getDepth
  if !depth.isValid then
    pure NaN
  else do
    let a ← inst.averageRegionDepthChecked (← f.offset1.normalizeChecked depth)
      (← f.region1.normalizeChecked depth)
    if isnan a then
      pure a
    else do
      let b ← inst.averageRegionDepthChecked (← f.offset2.normalizeChecked depth)
        (← f.region2.normalizeChecked depth)
      if isnan b then
        pure b
      else do
        assert "ImageFeatureFunction::calculateDepthFeature: a > 0" (fpos a)
        assert "ImageFeatureFunction::calculateDepthFeature: b > 0" (fpos b)
        pure (fsub a b)

/-- Member `calculateFeatureResponse`, with its assertions. -/
def calculateFeatureResponseChecked (f : curfil.ImageFeatureFunction) (inst : PixelInstance) :
    Except String FeatureResponseType := do
  assert "ImageFeatureFunction::calculateFeatureResponse: isValid()" f.isValid
  if f.featureType = DEPTH then
    f.calculateDepthFeatureChecked inst
  else if f.featureType = COLOR then
    f.calculateColorFeatureChecked inst
  else do
    assert "ImageFeatureFunction::calculateFeatureResponse: false" false
    pure (some 0)

end ImageFeatureFunction

/-! ## Summed-area tables and brute-force box statistics

These definitions follow the words of the specification; the code is compared
with them. -/

/-- Summed-area table of a raw map: the sum of `raw i j` over the pixels with
`0 ≤ i ≤ x` and `0 ≤ j ≤ y`. -/
def integral {α : Type} [AddCommMonoid α] (raw : Int → Int → α) (x y : Int) : α :=
  ∑ i in Finset.Icc 0 x, ∑ j in Finset.Icc 0 y, raw i j

/-- Brute-force sum of a raw map over the pixels `(i, j)` of the box with
centre `(x, y)` and half-extents `w`, `h`: `x - w < i ≤ x + w` and
`y - h < j ≤ y + h`. -/
def boxSum {α : Type} [AddCommMonoid α] (raw : Int → Int → α) (x y w h : Int) : α :=
  ∑ i in Finset.Ioc (x - w) (x + w), ∑ j in Finset.Ioc (y - h) (y + h), raw i j

/-- The pixels of the box, as a finite set of coordinate pairs. -/
def boxPixels (x y w h : Int) : Finset (Int × Int) :=
  Finset.Ioc (x - w) (x + w) ×ˢ Finset.Ioc (y - h) (y + h)

/-- Arithmetic mean of a raw channel over the pixels of the box. -/
def boxMean (raw : Int → Int → ℚ) (x y w h : Int) : ℚ :=
  boxSum raw x y w h / ((boxPixels x y w h).card : ℚ)

/-- Number of valid pixels of the box, for a validity flag `v` (1 is valid). -/
def boxValidCount (v : Int → Int → Int) (x y w h : Int) : Nat :=
  ((boxPixels x y w h).filter (fun p => v p.1 p.2 = 1)).card

/-- The integrated colour channel `c` of the image is the summed-area table of
`raw`. -/
def IsIntegralColor (image : RGBDImage) (c : uint8_t) (raw : Int → Int → ℚ) : Prop :=
  ∀ i j, image.inImage i j = true → image.getColor i j c = integral raw i j

/-- The integrated depth of the image is the summed-area table of `raw`. -/
def IsIntegralDepth (image : RGBDImage) (raw : Int → Int → Int) : Prop :=
  ∀ i j, image.inImage i j = true → image.getDepth i j = ⟨integral raw i j⟩

/-- The integrated validity of the image is the summed-area table of the
0/1 flag `v`. -/
def IsIntegralValid (image : RGBDImage) (v : Int → Int → Int) : Prop :=
  (∀ i j, v i j = 0 ∨ v i j = 1) ∧
  ∀ i j, image.inImage i j = true → image.getDepthValid i j = integral v i j

/-- The box average of a descriptor of kind `kind`: `averageRegionColor` with
the channel for COLOR, `averageRegionDepth` for DEPTH. -/
def boxAverage (kind : FeatureType) (s : PixelInstance) (offset : Offset) (region : Region)
    (channel : uint8_t) : FeatureResponseType :=
  if kind = COLOR then s.averageRegionColor offset region channel
  else s.averageRegionDepth offset region

/-- The tuple `(type, channel1, channel2, offset1.y, offset1.x)` of a
descriptor, with the lexicographic order. -/
def sortTuple (f : ImageFeatureFunction) : ℤ ×ₗ ℤ ×ₗ ℤ ×ₗ ℤ ×ₗ ℤ :=
  toLex (f.getType.val, toLex ((f.getChannel1.val : ℤ), toLex ((f.getChannel2.val : ℤ),
    toLex (f.getOffset1.getY, f.getOffset1.getX))))

/-- The descriptors on which the sort key is an order embedding: kind DEPTH or
COLOR, both channels in [0, 15], both components of `offset1` in [-127, 128]. -/
def SortKeyDomain (f : ImageFeatureFunction) : Prop :=
  (f.featureType = DEPTH ∨ f.featureType = COLOR) ∧
  f.channel1.val ≤ 15 ∧ f.channel2.val ≤ 15 ∧
  (-127 ≤ f.offset1.x ∧ f.offset1.x ≤ 128) ∧ (-127 ≤ f.offset1.y ∧ f.offset1.y ≤ 128)

instance (f : ImageFeatureFunction) : Decidable (SortKeyDomain f) := by
  unfold SortKeyDomain; infer_instance

/-- The key written with the operators of the source, on 32-bit patterns:
`((type & 3) << 30) | ((channel1 & 15) << 26) | ((channel2 & 15) << 22) |
(((offset1.y + 127) & 255) << 14) | (((offset1.x + 127) & 255) << 6)`. -/
def sortKeyBits (f : ImageFeatureFunction) : Nat :=
  ((f.featureType.val.toNat &&& 3) <<< 30) ||| ((f.channel1.val &&& 15) <<< 26) |||
    ((f.channel2.val &&& 15) <<< 22) ||| (((f.offset1.y + 127).toNat &&& 255) <<< 14) |||
    (((f.offset1.x + 127).toNat &&& 255) <<< 6)

/-! ## A concrete image

A 4 × 4 image used to evaluate the code: every pixel has raw colour 1 in
every channel; the pixels of the block `{1, 2} × {1, 2}` have no valid depth,
every other pixel has raw depth 2000. -/

def demoRawColor : Int → Int → ℚ := fun _ _ => 1

def demoRawValid : Int → Int → Int :=
  fun i j => if (i = 1 ∨ i = 2) ∧ (j = 1 ∨ j = 2) then 0 else 1

def demoRawDepth : Int → Int → Int :=
  fun i j => if demoRawValid i j = 1 then 2000 else 0

def demoImage : RGBDImage where
  width := 4
  height := 4
  integratedDepth := true
  integratedColor := true
  color := fun x y _ => integral demoRawColor x y
  depth := fun x y => ⟨integral demoRawDepth x y⟩
  depthValid := fun x y => integral demoRawValid x y

/-- The sample at pixel (1, 1) of the concrete image, with depth 1000 (float
value 1). -/
def demoSample : PixelInstance := PixelInstance.withDepth demoImage 0 ⟨1000⟩ 1 1

/-- Every offset and region component fits a signed 8-bit cell. -/
def fitsInt8 (f : ImageFeatureFunction) : Prop :=
  (-128 ≤ f.offset1.x ∧ f.offset1.x ≤ 127) ∧ (-128 ≤ f.offset1.y ∧ f.offset1.y ≤ 127) ∧
  (-128 ≤ f.offset2.x ∧ f.offset2.x ≤ 127) ∧ (-128 ≤ f.offset2.y ∧ f.offset2.y ≤ 127) ∧
  (-128 ≤ f.region1.x ∧ f.region1.x ≤ 127) ∧ (-128 ≤ f.region1.y ∧ f.region1.y ≤ 127) ∧
  (-128 ≤ f.region2.x ∧ f.region2.x ≤ 127) ∧ (-128 ≤ f.region2.y ∧ f.region2.y ≤ 127)

instance (f : ImageFeatureFunction) : Decidable (fitsInt8 f) := by
  unfold fitsInt8; infer_instance

/-- The sample at pixel (1, 1) of the concrete image, with depth 3000 (float
value 3). -/
def demoSampleFar : PixelInstance := PixelInstance.withDepth demoImage 0 ⟨3000⟩ 1 1

/-- A second 4 × 4 image: every integrated colour channel is the summed-area
table `(x + 1)(x + 2)/2 · (y + 1)` of the raw colour `i + 1`; every pixel has
valid raw depth 1000. -/
def rampImage : RGBDImage where
  width := 4
  height := 4
  integratedDepth := true
  integratedColor := true
  color := fun x y _ => ((x : ℚ) + 1) * ((x : ℚ) + 2) / 2 * ((y : ℚ) + 1)
  depth := fun x y => ⟨1000 * ((x + 1) * (y + 1))⟩
  depthValid := fun x y => (x + 1) * (y + 1)

/-- The sample at pixel (1, 1) of the second image, with depth 1000 (float
value 1). -/
def rampSample : PixelInstance := PixelInstance.withDepth rampImage 0 ⟨1000⟩ 1 1

/-- The descriptor with the two (offset, region, channel) triples exchanged. -/
def swapTriples (f : ImageFeatureFunction) : ImageFeatureFunction :=
  ⟨f.featureType, f.offset2, f.region2, f.channel2, f.offset1, f.region1, f.channel1⟩

/-- Negation of a floating point value (NaN stays NaN). -/
def fneg (a : FeatureResponseType) : FeatureResponseType :=
  match a with
  | some p => some (-p)
  | none => none

/-! ## Theorems -/

/-! ### Auxiliary facts on the narrowing conversions -/

theorem toInt8_val_eq_iff (v : Int) : (toInt8 v).val = v ↔ -128 ≤ v ∧ v ≤ 127 := by
  simp only [toInt8]
  omega

theorem toUInt8_toInt8 (c : uint8_t) : toUInt8 (toInt8 (c.val : Int)).val = c := by
  apply Fin.ext
  have h := c.isLt
  simp only [toUInt8, toInt8]
  omega

namespace ImageFeaturesAndThresholds

variable {numFeatures numThresholds : Nat}

/-- Column `feat` after `setFeatureFunction feat f`, row by row. -/
theorem setFeatureFunction_column (b : ImageFeaturesAndThresholds numFeatures numThresholds)
    (feat : Fin numFeatures) (f : ImageFeatureFunction) :
    (b.setFeatureFunction feat f).types feat = toInt8 f.featureType.val ∧
    (b.setFeatureFunction feat f).offset1X feat = toInt8 f.offset1.x ∧
    (b.setFeatureFunction feat f).offset1Y feat = toInt8 f.offset1.y ∧
    (b.setFeatureFunction feat f).offset2X feat = toInt8 f.offset2.x ∧
    (b.setFeatureFunction feat f).offset2Y feat = toInt8 f.offset2.y ∧
    (b.setFeatureFunction feat f).region1X feat = toInt8 f.region1.x ∧
    (b.setFeatureFunction feat f).region1Y feat = toInt8 f.region1.y ∧
    (b.setFeatureFunction feat f).region2X feat = toInt8 f.region2.x ∧
    (b.setFeatureFunction feat f).region2Y feat = toInt8 f.region2.y ∧
    (b.setFeatureFunction feat f).channel1 feat = toInt8 f.channel1.val ∧
    (b.setFeatureFunction feat f).channel2 feat = toInt8 f.channel2.val := by
  refine ⟨?_, ?_, ?_, ?_, ?_, ?_, ?_, ?_, ?_, ?_, ?_⟩ <;>
    simp [setFeatureFunction, setCell, types, offset1X, offset1Y, offset2X, offset2Y,
      region1X, region1Y, region2X, region2Y, channel1, channel2,
      ImageFeatureFunction.getType, ImageFeatureFunction.getOffset1,
      ImageFeatureFunction.getOffset2, ImageFeatureFunction.getRegion1,
      ImageFeatureFunction.getRegion2, ImageFeatureFunction.getChannel1,
      ImageFeatureFunction.getChannel2, XY.getX, XY.getY]

/-- Decoding a freshly written column calls the constructor on the wrapped
fields. -/
theorem getFeatureFunction_setFeatureFunction
    (b : ImageFeaturesAndThresholds numFeatures numThresholds)
    (feat : Fin numFeatures) (f : ImageFeatureFunction) :
    (b.setFeatureFunction feat f).getFeatureFunction feat =
      ImageFeatureFunction.ImageFeatureFunction ⟨(toInt8 f.featureType.val).val⟩
        ⟨(toInt8 f.offset1.x).val, (toInt8 f.offset1.y).val⟩
        ⟨(toInt8 f.region1.x).val, (toInt8 f.region1.y).val⟩ f.channel1
        ⟨(toInt8 f.offset2.x).val, (toInt8 f.offset2.y).val⟩
        ⟨(toInt8 f.region2.x).val, (toInt8 f.region2.y).val⟩ f.channel2 := by
  obtain ⟨h0, h1, h2, h3, h4, h5, h6, h7, h8, h9, h10⟩ := setFeatureFunction_column b feat f
  simp only [getFeatureFunction, h0, h1, h2, h3, h4, h5, h6, h7, h8, h9, h10, toUInt8_toInt8]

end ImageFeaturesAndThresholds

/-! ### C6 -/

/-- C6: the seven-argument constructor raises the illegal-feature error if and
only if both components of `offset1` and `offset2` are equal, whatever the
kind, regions and channels are; otherwise it succeeds and the seven getters
return the seven arguments. -/
theorem constructor_error_iff_offsets_equal (featureType : FeatureType)
    (offset1 : Offset) (region1 : Region) (channel1 : uint8_t)
    (offset2 : Offset) (region2 : Region) (channel2 : uint8_t) :
    (ImageFeatureFunction.ImageFeatureFunction featureType offset1 region1 channel1
        offset2 region2 channel2 = Except.error "illegal feature: offset1 equals offset2"
      ↔ (offset1.x = offset2.x ∧ offset1.y = offset2.y)) ∧
    (¬ (offset1.x = offset2.x ∧ offset1.y = offset2.y) →
      ∃ f, ImageFeatureFunction.ImageFeatureFunction featureType offset1 region1 channel1
          offset2 region2 channel2 = Except.ok f ∧
        f.getType = featureType ∧ f.getOffset1 = offset1 ∧ f.getRegion1 = region1 ∧
        f.getChannel1 = channel1 ∧ f.getOffset2 = offset2 ∧ f.getRegion2 = region2 ∧
        f.getChannel2 = channel2) := by
  have hxy : offset1 = offset2 ↔ (offset1.x = offset2.x ∧ offset1.y = offset2.y) := by
    cases offset1; cases offset2; simp
  constructor
  · rw [← hxy]
    by_cases h : offset1 = offset2
    · simp [ImageFeatureFunction.ImageFeatureFunction, h]
    · simp [ImageFeatureFunction.ImageFeatureFunction, h]
  · intro h
    rw [← hxy] at h
    exact ⟨⟨featureType, offset1, region1, channel1, offset2, region2, channel2⟩,
      by simp [ImageFeatureFunction.ImageFeatureFunction, h], rfl, rfl, rfl, rfl, rfl, rfl, rfl⟩

/-- C6, at a concrete input: a COLOR descriptor with offsets (3, -2) and (3, 5)
is constructed and its getters return the arguments. -/
theorem constructor_error_iff_offsets_equal_witness :
    ¬ ((3 : Int) = 3 ∧ (-2 : Int) = 5) ∧
    ∃ f, ImageFeatureFunction.ImageFeatureFunction COLOR ⟨3, -2⟩ ⟨4, 4⟩ 1 ⟨3, 5⟩ ⟨2, 6⟩ 200
        = Except.ok f ∧
      f.getType = COLOR ∧ f.getOffset1 = ⟨3, -2⟩ ∧ f.getRegion1 = ⟨4, 4⟩ ∧
      f.getChannel1 = 1 ∧ f.getOffset2 = ⟨3, 5⟩ ∧ f.getRegion2 = ⟨2, 6⟩ ∧
      f.getChannel2 = 200 :=
  ⟨by decide,
    (constructor_error_iff_offsets_equal COLOR ⟨3, -2⟩ ⟨4, 4⟩ 1 ⟨3, 5⟩ ⟨2, 6⟩ 200).2 (by decide)⟩

/-! ### C1 -/

/-- C1, evaluated at a failing input: a DEPTH descriptor with
`offset1 = (200, 0)` written to column 0 is read back with
`offset1 = (-56, 0)`, not equal to what was written; in the build with
assertions `setFeatureFunction` aborts there at its own
`assert(getFeatureFunction(feat) == feature)`. -/
theorem roundtrip_fails_outside_int8 :
    ((ImageFeaturesAndThresholds.create 2 1).setFeatureFunction 0
        ⟨DEPTH, ⟨200, 0⟩, ⟨1, 1⟩, 0, ⟨0, 0⟩, ⟨1, 1⟩, 0⟩).getFeatureFunction 0
      = Except.ok ⟨DEPTH, ⟨-56, 0⟩, ⟨1, 1⟩, 0, ⟨0, 0⟩, ⟨1, 1⟩, 0⟩ ∧
    ((ImageFeaturesAndThresholds.create 2 1).setFeatureFunction 0
        ⟨DEPTH, ⟨200, 0⟩, ⟨1, 1⟩, 0, ⟨0, 0⟩, ⟨1, 1⟩, 0⟩).getFeatureFunction 0
      ≠ Except.ok ⟨DEPTH, ⟨200, 0⟩, ⟨1, 1⟩, 0, ⟨0, 0⟩, ⟨1, 1⟩, 0⟩ ∧
    (ImageFeaturesAndThresholds.create 2 1).setFeatureFunctionChecked 0
        ⟨DEPTH, ⟨200, 0⟩, ⟨1, 1⟩, 0, ⟨0, 0⟩, ⟨1, 1⟩, 0⟩
      = Except.error
        "ImageFeaturesAndThresholds::setFeatureFunction: getFeatureFunction(feat) == feature" := by
  have h1 : ((ImageFeaturesAndThresholds.create 2 1).setFeatureFunction 0
        ⟨DEPTH, ⟨200, 0⟩, ⟨1, 1⟩, 0, ⟨0, 0⟩, ⟨1, 1⟩, 0⟩).getFeatureFunction 0
      = Except.ok ⟨DEPTH, ⟨-56, 0⟩, ⟨1, 1⟩, 0, ⟨0, 0⟩, ⟨1, 1⟩, 0⟩ := by decide
  refine ⟨h1, by decide, ?_⟩
  simp only [ImageFeaturesAndThresholds.setFeatureFunctionChecked, h1]
  rfl

/-! ### C4 -/

/-- C4: when the box with half-extents `max 1 region.x`, `max 1 region.y`
around `pixel + offset` leaves the image on any side, `averageRegionColor`
and `averageRegionDepth` both return NaN, whatever the image data is. -/
theorem averageRegion_outside_image_NaN (s : PixelInstance) (offset : Offset)
    (region : Region) (channel : uint8_t)
    (hout : (s.getX.val : Int) + offset.x - max 1 region.x < 0 ∨
      (s.getX.val : Int) + offset.x + max 1 region.x ≥ s.image.width ∨
      (s.getY.val : Int) + offset.y - max 1 region.y < 0 ∨
      (s.getY.val : Int) + offset.y + max 1 region.y ≥ s.image.height) :
    s.averageRegionColor offset region channel = NaN ∧
    s.averageRegionDepth offset region = NaN := by
  constructor
  · simp only [PixelInstance.averageRegionColor, XY.getX, XY.getY, RGBDImage.getWidth,
      RGBDImage.getHeight]
    rw [if_pos hout]
  · simp only [PixelInstance.averageRegionDepth, XY.getX, XY.getY, RGBDImage.getWidth,
      RGBDImage.getHeight]
    rw [if_pos hout]

/-- C4, at a concrete input: at pixel (1, 1) of the 4 × 4 image the box of
offset (2, 0) and region (1, 1) reaches column 4. -/
theorem averageRegion_outside_image_NaN_witness :
    demoSample.averageRegionColor ⟨2, 0⟩ ⟨1, 1⟩ 0 = NaN ∧
    demoSample.averageRegionDepth ⟨2, 0⟩ ⟨1, 1⟩ = NaN :=
  averageRegion_outside_image_NaN demoSample ⟨2, 0⟩ ⟨1, 1⟩ 0 (by decide)

/-! ### C5 -/

/-- C5: for a box that lies fully inside the image, `averageRegionDepth`
returns NaN when the four-corner count
`(V(x+w, y+h) − V(x+w, y−h)) + (V(x−w, y−h) − V(x−w, y+h))` of the integrated
validity `V` is zero, and a value that is not NaN when the count is
positive. -/
theorem averageRegionDepth_NaN_of_no_valid (s : PixelInstance) (offset : Offset)
    (region : Region) (x y w h : Int)
    (hw : w = max 1 region.x) (hh : h = max 1 region.y)
    (hx : x = (s.getX.val : Int) + offset.x) (hy : y = (s.getY.val : Int) + offset.y)
    (hin : 0 ≤ x - w ∧ x + w < s.image.width ∧ 0 ≤ y - h ∧ y + h < s.image.height) :
    ((s.image.getDepthValid (x + w) (y + h) - s.image.getDepthValid (x + w) (y - h))
        + (s.image.getDepthValid (x - w) (y - h) - s.image.getDepthValid (x - w) (y + h)) = 0 →
      s.averageRegionDepth offset region = NaN) ∧
    ((s.image.getDepthValid (x + w) (y + h) - s.image.getDepthValid (x + w) (y - h))
        + (s.image.getDepthValid (x - w) (y - h) - s.image.getDepthValid (x - w) (y + h)) > 0 →
      isnan (s.averageRegionDepth offset region) = false) := by
  subst hw hh hx hy
  have hbox : ¬ ((s.getX.val : Int) + offset.x - max 1 region.x < 0 ∨
      (s.getX.val : Int) + offset.x + max 1 region.x ≥ s.image.width ∨
      (s.getY.val : Int) + offset.y - max 1 region.y < 0 ∨
      (s.getY.val : Int) + offset.y + max 1 region.y ≥ s.image.height) := by
    omega
  constructor
  · intro h0
    simp only [PixelInstance.averageRegionDepth, XY.getX, XY.getY, RGBDImage.getWidth,
      RGBDImage.getHeight, PixelInstance.numValid, PixelInstance.getDepthValid]
    rw [if_neg hbox]
    simp [h0, NaN]
  · intro hpos
    simp only [PixelInstance.averageRegionDepth, XY.getX, XY.getY, RGBDImage.getWidth,
      RGBDImage.getHeight, PixelInstance.numValid, PixelInstance.getDepthValid]
    rw [if_neg hbox]
    have hne : ¬ ((s.image.getDepthValid ((s.getX.val : Int) + offset.x + max 1 region.x)
          ((s.getY.val : Int) + offset.y + max 1 region.y)
        - s.image.getDepthValid ((s.getX.val : Int) + offset.x + max 1 region.x)
          ((s.getY.val : Int) + offset.y - max 1 region.y))
        + (s.image.getDepthValid ((s.getX.val : Int) + offset.x - max 1 region.x)
          ((s.getY.val : Int) + offset.y - max 1 region.y)
        - s.image.getDepthValid ((s.getX.val : Int) + offset.x - max 1 region.x)
          ((s.getY.val : Int) + offset.y + max 1 region.y)) = 0) := by
      omega
    simp [hne, isnan]

/-- C5, at concrete inputs: the box of offset (0, 0) and region (1, 1) around
pixel (1, 1) of the 4 × 4 image covers the block without valid depth, and
`averageRegionDepth` is NaN; the box of offset (1, 0) holds two valid pixels
and the result is not NaN. -/
theorem averageRegionDepth_NaN_of_no_valid_witness :
    demoSample.averageRegionDepth ⟨0, 0⟩ ⟨1, 1⟩ = NaN ∧
    isnan (demoSample.averageRegionDepth ⟨1, 0⟩ ⟨1, 1⟩) = false :=
  ⟨(averageRegionDepth_NaN_of_no_valid demoSample ⟨0, 0⟩ ⟨1, 1⟩ 1 1 1 1
      (by decide) (by decide) (by decide) (by decide) (by decide)).1 (by decide),
    (averageRegionDepth_NaN_of_no_valid demoSample ⟨1, 0⟩ ⟨1, 1⟩ 2 1 1 1
      (by decide) (by decide) (by decide) (by decide) (by decide)).2 (by decide)⟩

/-! ### C7 -/

/-- C7: for a descriptor `f` of kind DEPTH or COLOR and a sample `s` of depth
`d`, `calculateFeatureResponse` is NaN when `d` is invalid; otherwise, with
`a` and `b` the box averages (of the kind of `f`) at the two offset/region
pairs normalized by `d`, it is NaN when `a` or `b` is NaN and `a − b`
otherwise. -/
theorem calculateFeatureResponse_eq (f : ImageFeatureFunction) (s : PixelInstance)
    (hkind : f.featureType = DEPTH ∨ f.featureType = COLOR) :
    (s.getDepth.isValid = false → f.calculateFeatureResponse s = NaN) ∧
    (s.getDepth.isValid = true →
      ((boxAverage f.featureType s (f.offset1.normalize s.getDepth)
            (f.region1.normalize s.getDepth) f.channel1 = NaN ∨
          boxAverage f.featureType s (f.offset2.normalize s.getDepth)
            (f.region2.normalize s.getDepth) f.channel2 = NaN) →
        f.calculateFeatureResponse s = NaN) ∧
      (∀ a b : ℚ,
        boxAverage f.featureType s (f.offset1.normalize s.getDepth)
            (f.region1.normalize s.getDepth) f.channel1 = some a →
        boxAverage f.featureType s (f.offset2.normalize s.getDepth)
            (f.region2.normalize s.getDepth) f.channel2 = some b →
        f.calculateFeatureResponse s = some (a - b))) := by
  have hDC : DEPTH ≠ COLOR := by decide
  rcases hkind with hk | hk
  · simp only [ImageFeatureFunction.calculateFeatureResponse, hk, if_true, boxAverage,
      if_neg hDC, ImageFeatureFunction.calculateDepthFeature]
    refine ⟨fun hd => by simp [hd], fun hd => ⟨?_, ?_⟩⟩
    · rintro (ha | hb)
      · simp [hd, ha, NaN, isnan]
      · simp only [hd, hb]
        cases s.averageRegionDepth (f.offset1.normalize s.getDepth)
          (f.region1.normalize s.getDepth) <;> simp [NaN, isnan]
    · intro a b ha hb
      simp [hd, ha, hb, isnan, fsub]
  · simp only [ImageFeatureFunction.calculateFeatureResponse, hk, if_neg hDC.symm, if_true,
      boxAverage, ImageFeatureFunction.calculateColorFeature]
    refine ⟨fun hd => by simp [hd], fun hd => ⟨?_, ?_⟩⟩
    · rintro (ha | hb)
      · simp [hd, ha, NaN, isnan]
      · simp only [hd, hb]
        cases s.averageRegionColor (f.offset1.normalize s.getDepth)
          (f.region1.normalize s.getDepth) f.channel1 <;> simp [NaN, isnan]
    · intro a b ha hb
      simp [hd, ha, hb, isnan, fsub]

/-! ### C9 -/

theorem land_mask_of_lt (k : Nat) (v : Int) (h0 : 0 ≤ v) (h : v < 2 ^ k) :
    Int.land v (((2 ^ k - 1 : Nat) : Int)) = v := by
  obtain ⟨n, rfl⟩ := Int.eq_ofNat_of_zero_le h0
  show ((n &&& (2 ^ k - 1) : Nat) : Int) = n
  rw [Nat.and_pow_two_sub_one_eq_mod n k, Nat.mod_eq_of_lt (by exact_mod_cast h)]

theorem toUInt8_land_val (k : Nat) (hk : k ≤ 8) (v : Int) (h0 : 0 ≤ v) (h : v < 2 ^ k) :
    (toUInt8 (Int.land v (((2 ^ k - 1 : Nat) : Int)))).val = v.toNat := by
  rw [land_mask_of_lt k v h0 h]
  have : (2:Int) ^ k ≤ 2 ^ 8 := pow_le_pow_right₀ (by norm_num) hk
  simp only [toUInt8]
  omega

theorem or_shiftLeft_eq_add (a c : Nat) (i k : Nat) (hc : c < 2 ^ k) :
    (2 ^ (i + k) * a) ||| (c <<< i) = 2 ^ (i + k) * a + 2 ^ i * c := by
  rw [Nat.shiftLeft_eq, Nat.mul_comm c]
  refine (Nat.mul_add_lt_is_or ?_ a).symm
  rw [pow_add]
  exact (Nat.mul_lt_mul_left (by positivity)).mpr hc

theorem or_chain_eq_sum (t c1 c2 Y X : Nat) (hc1 : c1 < 16) (hc2 : c2 < 16)
    (hY : Y < 256) (hX : X < 256) :
    0 ||| t <<< 30 ||| c1 <<< 26 ||| c2 <<< 22 ||| Y <<< 14 ||| X <<< 6
      = 1073741824 * t + 67108864 * c1 + 4194304 * c2 + 16384 * Y + 64 * X := by
  have s0 : 0 ||| t <<< 30 = 1073741824 * t := by
    rw [Nat.zero_or, Nat.shiftLeft_eq]; omega
  have s1 := or_shiftLeft_eq_add t c1 26 4 (by norm_num; exact hc1)
  have s2 := or_shiftLeft_eq_add (16 * t + c1) c2 22 4 (by norm_num; exact hc2)
  have s3 := or_shiftLeft_eq_add (16 * (16 * t + c1) + c2) Y 14 8 (by norm_num; exact hY)
  have s4 := or_shiftLeft_eq_add (256 * (16 * (16 * t + c1) + c2) + Y) X 6 8
    (by norm_num; exact hX)
  norm_num at s1 s2 s3 s4
  rw [s0, s1, show 1073741824 * t + 67108864 * c1 = 67108864 * (16 * t + c1) by omega, s2,
    show 67108864 * (16 * t + c1) + 4194304 * c2 = 4194304 * (16 * (16 * t + c1) + c2) by omega,
    s3, show 4194304 * (16 * (16 * t + c1) + c2) + 16384 * Y
      = 16384 * (256 * (16 * (16 * t + c1) + c2) + Y) by omega, s4]

/-- On the domain, the key is the weighted sum of its five fields. -/
theorem getSortKey_eq_sum (f : ImageFeatureFunction) (hf : SortKeyDomain f) :
    f.getSortKey = 1073741824 * f.featureType.val + 67108864 * (f.channel1.val : Int)
      + 4194304 * (f.channel2.val : Int) + 16384 * (f.offset1.y + 127)
      + 64 * (f.offset1.x + 127) := by
  obtain ⟨hk, hc1, hc2, ⟨hx0, hx1⟩, ⟨hy0, hy1⟩⟩ := hf
  have ht : 0 ≤ f.featureType.val ∧ f.featureType.val ≤ 1 := by
    rcases hk with h | h <;> rw [h] <;> decide
  have e1 := toUInt8_land_val 2 (by norm_num) f.featureType.val ht.1 (by norm_num; omega)
  have e2 := toUInt8_land_val 4 (by norm_num) (f.channel1.val : Int) (by omega)
    (by norm_num; omega)
  have e3 := toUInt8_land_val 4 (by norm_num) (f.channel2.val : Int) (by omega)
    (by norm_num; omega)
  have e4 := toUInt8_land_val 8 (by norm_num) (f.offset1.y + 127) (by omega)
    (by norm_num; omega)
  have e5 := toUInt8_land_val 8 (by norm_num) (f.offset1.x + 127) (by omega)
    (by norm_num; omega)
  norm_num at e1 e2 e3 e4 e5
  simp only [ImageFeatureFunction.getSortKey, ImageFeatureFunction.getType,
    ImageFeatureFunction.getChannel1, ImageFeatureFunction.getChannel2,
    ImageFeatureFunction.getOffset1, XY.getX, XY.getY, e1, e2, e3, e4, e5]
  rw [or_chain_eq_sum _ _ _ _ _ (by omega) (by omega) (by omega) (by omega)]
  simp only [toInt32]
  split <;> omega

/-- On the domain, the operators of the source give the same weighted sum. -/
theorem sortKeyBits_eq_sum (f : ImageFeatureFunction) (hf : SortKeyDomain f) :
    (sortKeyBits f : Int) = 1073741824 * f.featureType.val + 67108864 * (f.channel1.val : Int)
      + 4194304 * (f.channel2.val : Int) + 16384 * (f.offset1.y + 127)
      + 64 * (f.offset1.x + 127) := by
  obtain ⟨hk, hc1, hc2, ⟨hx0, hx1⟩, ⟨hy0, hy1⟩⟩ := hf
  have ht : 0 ≤ f.featureType.val ∧ f.featureType.val ≤ 1 := by
    rcases hk with h | h <;> rw [h] <;> decide
  have m1 := Nat.and_pow_two_sub_one_eq_mod f.featureType.val.toNat 2
  have m2 := Nat.and_pow_two_sub_one_eq_mod f.channel1.val 4
  have m3 := Nat.and_pow_two_sub_one_eq_mod f.channel2.val 4
  have m4 := Nat.and_pow_two_sub_one_eq_mod (f.offset1.y + 127).toNat 8
  have m5 := Nat.and_pow_two_sub_one_eq_mod (f.offset1.x + 127).toNat 8
  norm_num at m1 m2 m3 m4 m5
  have h := or_chain_eq_sum (f.featureType.val.toNat % 4) (f.channel1.val % 16)
    (f.channel2.val % 16) ((f.offset1.y + 127).toNat % 256) ((f.offset1.x + 127).toNat % 256)
    (by omega) (by omega) (by omega) (by omega)
  rw [Nat.zero_or] at h
  simp only [sortKeyBits, m1, m2, m3, m4, m5, h]
  omega

/-- C9: on descriptors of kind DEPTH or COLOR with both channels in [0, 15]
and both components of `offset1` in [-127, 128], the sort key (a signed 32-bit
integer) of `f` is smaller than that of `g` if and only if the tuple
`(type, channel1, channel2, offset1.y, offset1.x)` of `f` is lexicographically
smaller than that of `g`; the keys are equal if and only if the tuples are; and
the key is `((type & 3) << 30) | ((channel1 & 15) << 26) |
((channel2 & 15) << 22) | (((offset1.y + 127) & 255) << 14) |
(((offset1.x + 127) & 255) << 6)`. -/
theorem getSortKey_lt_iff_sortTuple_lt (f g : ImageFeatureFunction)
    (hf : SortKeyDomain f) (hg : SortKeyDomain g) :
    (f.getSortKey < g.getSortKey ↔ sortTuple f < sortTuple g) ∧
    (f.getSortKey = g.getSortKey ↔ sortTuple f = sortTuple g) ∧
    f.getSortKey = (sortKeyBits f : Int) := by
  refine ⟨?_, ?_, ?_⟩
  · rw [getSortKey_eq_sum f hf, getSortKey_eq_sum g hg]
    obtain ⟨hk, hc1, hc2, ⟨hx0, hx1⟩, ⟨hy0, hy1⟩⟩ := hf
    obtain ⟨hk', hc1', hc2', ⟨hx0', hx1'⟩, ⟨hy0', hy1'⟩⟩ := hg
    simp only [sortTuple, Prod.Lex.lt_iff, ImageFeatureFunction.getType,
      ImageFeatureFunction.getChannel1, ImageFeatureFunction.getChannel2,
      ImageFeatureFunction.getOffset1, XY.getX, XY.getY]
    omega
  · rw [getSortKey_eq_sum f hf, getSortKey_eq_sum g hg]
    obtain ⟨hk, hc1, hc2, ⟨hx0, hx1⟩, ⟨hy0, hy1⟩⟩ := hf
    obtain ⟨hk', hc1', hc2', ⟨hx0', hx1'⟩, ⟨hy0', hy1'⟩⟩ := hg
    simp only [sortTuple, ImageFeatureFunction.getType,
      ImageFeatureFunction.getChannel1, ImageFeatureFunction.getChannel2,
      ImageFeatureFunction.getOffset1, XY.getX, XY.getY, EmbeddingLike.apply_eq_iff_eq,
      Prod.mk.injEq]
    omega
  · rw [getSortKey_eq_sum f hf, sortKeyBits_eq_sum f hf]

/-! ### C10 -/

/-- C10, as stated, fails: two COLOR descriptors that agree on the kind,
`channel1` and `offset1` (and on everything but `channel2`, 0 and 1) have the
sort keys 1075830784 and 1080025088. -/
theorem getSortKey_depends_on_channel2 :
    (⟨COLOR, ⟨1, 0⟩, ⟨1, 1⟩, 0, ⟨0, 0⟩, ⟨1, 1⟩, 0⟩ : ImageFeatureFunction).getSortKey
        = 1075830784 ∧
    (⟨COLOR, ⟨1, 0⟩, ⟨1, 1⟩, 0, ⟨0, 0⟩, ⟨1, 1⟩, 1⟩ : ImageFeatureFunction).getSortKey
        = 1080025088 ∧
    (⟨COLOR, ⟨1, 0⟩, ⟨1, 1⟩, 0, ⟨0, 0⟩, ⟨1, 1⟩, 0⟩ : ImageFeatureFunction).getSortKey
      ≠ (⟨COLOR, ⟨1, 0⟩, ⟨1, 1⟩, 0, ⟨0, 0⟩, ⟨1, 1⟩, 1⟩ : ImageFeatureFunction).getSortKey := by
  decide

/-- C10, amended: two descriptors that agree on the kind, `channel1`,
`channel2` and `offset1` have the same sort key, whatever their `region1`,
`region2` and `offset2` are. -/
theorem getSortKey_ignores_regions_offset2 (f g : ImageFeatureFunction)
    (htype : f.getType = g.getType) (hch1 : f.getChannel1 = g.getChannel1)
    (hch2 : f.getChannel2 = g.getChannel2) (hoff1 : f.getOffset1 = g.getOffset1) :
    f.getSortKey = g.getSortKey := by
  simp only [ImageFeatureFunction.getSortKey, htype, hch1, hch2, hoff1]

/-- C10, amended, at a concrete input: descriptors that differ in both regions
and in `offset2` only. -/
theorem getSortKey_ignores_regions_offset2_witness :
    (⟨COLOR, ⟨1, 0⟩, ⟨1, 1⟩, 2, ⟨0, 0⟩, ⟨1, 1⟩, 1⟩ : ImageFeatureFunction).getSortKey
      = (⟨COLOR, ⟨1, 0⟩, ⟨5, 7⟩, 2, ⟨-9, 4⟩, ⟨3, 2⟩, 1⟩ : ImageFeatureFunction).getSortKey :=
  getSortKey_ignores_regions_offset2 _ _ rfl rfl rfl rfl

/-! ### C9, at a concrete input -/

/-- C9, at a concrete input: a DEPTH descriptor with `offset1 = (128, -127)`
and a COLOR descriptor with `offset1 = (-127, 128)`. -/
theorem getSortKey_lt_iff_sortTuple_lt_witness :
    ((⟨DEPTH, ⟨128, -127⟩, ⟨1, 1⟩, 15, ⟨0, 0⟩, ⟨1, 1⟩, 3⟩ : ImageFeatureFunction).getSortKey
        < (⟨COLOR, ⟨-127, 128⟩, ⟨1, 1⟩, 0, ⟨0, 0⟩, ⟨1, 1⟩, 0⟩ : ImageFeatureFunction).getSortKey
      ↔ sortTuple ⟨DEPTH, ⟨128, -127⟩, ⟨1, 1⟩, 15, ⟨0, 0⟩, ⟨1, 1⟩, 3⟩
        < sortTuple ⟨COLOR, ⟨-127, 128⟩, ⟨1, 1⟩, 0, ⟨0, 0⟩, ⟨1, 1⟩, 0⟩) ∧
    ((⟨DEPTH, ⟨128, -127⟩, ⟨1, 1⟩, 15, ⟨0, 0⟩, ⟨1, 1⟩, 3⟩ : ImageFeatureFunction).getSortKey
        = (⟨COLOR, ⟨-127, 128⟩, ⟨1, 1⟩, 0, ⟨0, 0⟩, ⟨1, 1⟩, 0⟩ : ImageFeatureFunction).getSortKey
      ↔ sortTuple ⟨DEPTH, ⟨128, -127⟩, ⟨1, 1⟩, 15, ⟨0, 0⟩, ⟨1, 1⟩, 3⟩
        = sortTuple ⟨COLOR, ⟨-127, 128⟩, ⟨1, 1⟩, 0, ⟨0, 0⟩, ⟨1, 1⟩, 0⟩) ∧
    (⟨DEPTH, ⟨128, -127⟩, ⟨1, 1⟩, 15, ⟨0, 0⟩, ⟨1, 1⟩, 3⟩ : ImageFeatureFunction).getSortKey
      = (sortKeyBits ⟨DEPTH, ⟨128, -127⟩, ⟨1, 1⟩, 15, ⟨0, 0⟩, ⟨1, 1⟩, 3⟩ : Int) :=
  getSortKey_lt_iff_sortTuple_lt _ _ (by decide) (by decide)

/-! ### Summed-area tables -/

theorem Icc_zero_eq_Ioc (b : Int) : Finset.Icc 0 b = Finset.Ioc (-1) b := by
  ext i
  simp only [Finset.mem_Icc, Finset.mem_Ioc]
  omega

/-- Prefix sums: the difference of two prefix sums is the sum over the
half-open interval between the two ends. -/
theorem sum_Icc_sub_sum_Icc {α : Type} [AddCommGroup α] (f : Int → α) (a b : Int)
    (ha : -1 ≤ a) (hab : a ≤ b) :
    ∑ i in Finset.Icc 0 b, f i - ∑ i in Finset.Icc 0 a, f i = ∑ i in Finset.Ioc a b, f i := by
  rw [Icc_zero_eq_Ioc, Icc_zero_eq_Ioc, ← Finset.Ioc_union_Ioc_eq_Ioc ha hab,
    Finset.sum_union (Finset.disjoint_left.mpr (fun i h1 h2 => by
      simp only [Finset.mem_Ioc] at h1 h2; omega))]
  abel

theorem integral_four_corners {α : Type} [AddCommGroup α] (raw : Int → Int → α)
    (l r u b : Int) (hl : -1 ≤ l) (hlr : l ≤ r) (hu : -1 ≤ u) (hub : u ≤ b) :
    (integral raw r b - integral raw r u) + (integral raw l u - integral raw l b)
      = ∑ i in Finset.Ioc l r, ∑ j in Finset.Ioc u b, raw i j := by
  have hrow : ∀ c : Int, integral raw c b - integral raw c u
      = ∑ i in Finset.Icc 0 c, ∑ j in Finset.Ioc u b, raw i j := by
    intro c
    simp only [integral]
    rw [← Finset.sum_sub_distrib]
    exact Finset.sum_congr rfl (fun i _ => sum_Icc_sub_sum_Icc (raw i) u b hu hub)
  have h2 : integral raw l u - integral raw l b = -(integral raw l b - integral raw l u) := by
    abel
  rw [h2, hrow r, hrow l, ← sub_eq_add_neg]
  exact sum_Icc_sub_sum_Icc (fun i => ∑ j in Finset.Ioc u b, raw i j) l r hl hlr

theorem integral_neg_one_left {α : Type} [AddCommMonoid α] (raw : Int → Int → α) (y : Int) :
    integral raw (-1) y = 0 := by
  simp [integral]

theorem integral_neg_one_right {α : Type} [AddCommMonoid α] (raw : Int → Int → α) (x : Int) :
    integral raw x (-1) = 0 := by
  simp [integral]

theorem boxSum_flag_eq_count (v : Int → Int → Int) (hv : ∀ i j, v i j = 0 ∨ v i j = 1)
    (x y w h : Int) : boxSum v x y w h = (boxValidCount v x y w h : Int) := by
  simp only [boxSum, boxValidCount, boxPixels]
  rw [← Finset.sum_product', Finset.card_filter]
  push_cast
  refine Finset.sum_congr rfl (fun p _ => ?_)
  rcases hv p.1 p.2 with h0 | h1
  · simp [h0]
  · simp [h1]

/-! ### The two region queries inside the image -/

theorem inImage_of_bounds (image : RGBDImage) (i j : Int)
    (h : 0 ≤ i ∧ i < image.width ∧ 0 ≤ j ∧ j < image.height) : image.inImage i j = true := by
  simp only [RGBDImage.inImage, decide_eq_true_eq]
  exact h

/-- Inside the image, `averageRegionColor` is the four-corner query of the
integrated channel. -/
theorem averageRegionColor_inside (s : PixelInstance) (offset : Offset) (region : Region)
    (channel : uint8_t) (x y w h : Int)
    (hw : w = max 1 region.x) (hh : h = max 1 region.y)
    (hx : x = (s.getX.val : Int) + offset.x) (hy : y = (s.getY.val : Int) + offset.y)
    (hin : 0 ≤ x - w ∧ x + w < s.image.width ∧ 0 ≤ y - h ∧ y + h < s.image.height) :
    s.averageRegionColor offset region channel =
      some ((s.image.getColor (x + w) (y + h) channel - s.image.getColor (x + w) (y - h) channel)
        + (s.image.getColor (x - w) (y - h) channel
          - s.image.getColor (x - w) (y + h) channel)) := by
  have hw1 : 1 ≤ w := by omega
  have hh1 : 1 ≤ h := by omega
  have c1 := inImage_of_bounds s.image (x + w) (y + h) (by omega)
  have c2 := inImage_of_bounds s.image (x + w) (y - h) (by omega)
  have c3 := inImage_of_bounds s.image (x - w) (y - h) (by omega)
  have c4 := inImage_of_bounds s.image (x - w) (y + h) (by omega)
  subst hw hh hx hy
  have hbox : ¬ ((s.getX.val : Int) + offset.x - max 1 region.x < 0 ∨
      (s.getX.val : Int) + offset.x + max 1 region.x ≥ s.image.width ∨
      (s.getY.val : Int) + offset.y - max 1 region.y < 0 ∨
      (s.getY.val : Int) + offset.y + max 1 region.y ≥ s.image.height) := by
    omega
  simp only [PixelInstance.averageRegionColor, XY.getX, XY.getY, RGBDImage.getWidth,
    RGBDImage.getHeight, PixelInstance.getColor, PixelInstance.inImage]
  rw [if_neg hbox]
  simp [c1, c2, c3, c4, fadd, fsub]

/-- Inside the image, `averageRegionDepth` is NaN when the four-corner query of
the integrated validity is zero, and otherwise the four-corner query of the
integrated depth, divided by 1000 and by that count. -/
theorem averageRegionDepth_inside (s : PixelInstance) (offset : Offset) (region : Region)
    (x y w h : Int)
    (hw : w = max 1 region.x) (hh : h = max 1 region.y)
    (hx : x = (s.getX.val : Int) + offset.x) (hy : y = (s.getY.val : Int) + offset.y)
    (hin : 0 ≤ x - w ∧ x + w < s.image.width ∧ 0 ≤ y - h ∧ y + h < s.image.height) :
    s.averageRegionDepth offset region =
      if (s.image.getDepthValid (x + w) (y + h) - s.image.getDepthValid (x + w) (y - h))
          + (s.image.getDepthValid (x - w) (y - h) - s.image.getDepthValid (x - w) (y + h)) = 0
      then NaN
      else some ((((((s.image.getDepth (x + w) (y + h)).value
            - (s.image.getDepth (x + w) (y - h)).value)
          + ((s.image.getDepth (x - w) (y - h)).value
            - (s.image.getDepth (x - w) (y + h)).value) : Int) : ℚ) / 1000)
        / ((((s.image.getDepthValid (x + w) (y + h) - s.image.getDepthValid (x + w) (y - h))
          + (s.image.getDepthValid (x - w) (y - h)
            - s.image.getDepthValid (x - w) (y + h)) : Int)) : ℚ)) := by
  have hw1 : 1 ≤ w := by omega
  have hh1 : 1 ≤ h := by omega
  have c1 := inImage_of_bounds s.image (x + w) (y + h) (by omega)
  have c2 := inImage_of_bounds s.image (x + w) (y - h) (by omega)
  have c3 := inImage_of_bounds s.image (x - w) (y - h) (by omega)
  have c4 := inImage_of_bounds s.image (x - w) (y + h) (by omega)
  subst hw hh hx hy
  have hbox : ¬ ((s.getX.val : Int) + offset.x - max 1 region.x < 0 ∨
      (s.getX.val : Int) + offset.x + max 1 region.x ≥ s.image.width ∨
      (s.getY.val : Int) + offset.y - max 1 region.y < 0 ∨
      (s.getY.val : Int) + offset.y + max 1 region.y ≥ s.image.height) := by
    omega
  simp only [PixelInstance.averageRegionDepth, XY.getX, XY.getY, RGBDImage.getWidth,
    RGBDImage.getHeight, PixelInstance.numValid, PixelInstance.getDepthValid,
    PixelInstance.getDepthAt, PixelInstance.inImage, Depth.getIntValue]
  rw [if_neg hbox]
  simp [c1, c2, c3, c4]

/-! ### C3 -/

/-- C3: when the integrated depth is the summed-area table of a raw depth map
`r` and the integrated validity that of a 0/1 flag `v`, and the box (centre
`(x, y) = pixel + offset`, half-extents `w = max 1 region.x`,
`h = max 1 region.y`) lies inside the image and holds at least one valid
pixel, `averageRegionDepth` is the sum of the raw depths over the pixels
`x − w < i ≤ x + w`, `y − h < j ≤ y + h`, divided by 1000 and by the number of
valid pixels among them. -/
theorem averageRegionDepth_eq_mean_of_valid (s : PixelInstance) (offset : Offset)
    (region : Region) (r v : Int → Int → Int) (x y w h : Int)
    (hw : w = max 1 region.x) (hh : h = max 1 region.y)
    (hx : x = (s.getX.val : Int) + offset.x) (hy : y = (s.getY.val : Int) + offset.y)
    (hin : 0 ≤ x - w ∧ x + w < s.image.width ∧ 0 ≤ y - h ∧ y + h < s.image.height)
    (hD : IsIntegralDepth s.image r) (hV : IsIntegralValid s.image v)
    (hpos : 0 < boxValidCount v x y w h) :
    s.averageRegionDepth offset region =
      some (((boxSum r x y w h : Int) : ℚ) / 1000 / (boxValidCount v x y w h : ℚ)) := by
  have hw1 : 1 ≤ w := by omega
  have hh1 : 1 ≤ h := by omega
  have c1 := inImage_of_bounds s.image (x + w) (y + h) (by omega)
  have c2 := inImage_of_bounds s.image (x + w) (y - h) (by omega)
  have c3 := inImage_of_bounds s.image (x - w) (y - h) (by omega)
  have c4 := inImage_of_bounds s.image (x - w) (y + h) (by omega)
  rw [averageRegionDepth_inside s offset region x y w h hw hh hx hy hin,
    hV.2 _ _ c1, hV.2 _ _ c2, hV.2 _ _ c3, hV.2 _ _ c4,
    hD _ _ c1, hD _ _ c2, hD _ _ c3, hD _ _ c4]
  have hcount : _ = boxSum v x y w h := integral_four_corners v (x - w) (x + w) (y - h) (y + h)
    (by omega) (by omega) (by omega) (by omega)
  have hsum : _ = boxSum r x y w h := integral_four_corners r (x - w) (x + w) (y - h) (y + h)
    (by omega) (by omega) (by omega) (by omega)
  rw [hcount, hsum, boxSum_flag_eq_count v hV.1 x y w h]
  have hne : ¬ ((boxValidCount v x y w h : Int) = 0) := by omega
  rw [if_neg hne]
  simp

theorem demoImage_integralDepth : IsIntegralDepth demoImage demoRawDepth :=
  fun _ _ _ => rfl

theorem demoImage_integralValid : IsIntegralValid demoImage demoRawValid := by
  refine ⟨fun i j => ?_, fun _ _ _ => rfl⟩
  simp only [demoRawValid]
  split <;> simp

/-- C3, at a concrete input: at pixel (1, 1) of the 4 × 4 image, the box of
offset (1, 0) and region (1, 1) holds the pixels (2, 1), (3, 1), (2, 2),
(3, 2), two of them valid with raw depth 2000. -/
theorem averageRegionDepth_eq_mean_of_valid_witness :
    demoSample.averageRegionDepth ⟨1, 0⟩ ⟨1, 1⟩ =
      some (((boxSum demoRawDepth 2 1 1 1 : Int) : ℚ) / 1000
        / (boxValidCount demoRawValid 2 1 1 1 : ℚ)) :=
  averageRegionDepth_eq_mean_of_valid demoSample ⟨1, 0⟩ ⟨1, 1⟩ demoRawDepth demoRawValid
    2 1 1 1 (by decide) (by decide) (by decide) (by decide) (by decide)
    demoImage_integralDepth demoImage_integralValid (by decide)

/-! ### C8 -/

theorem Ioc_pred_self (a : Int) : Finset.Ioc (a - 1) a = {a} := by
  ext i
  simp only [Finset.mem_Ioc, Finset.mem_singleton]
  omega

/-- A raw value is recovered from the summed-area table by 2 × 2
inclusion–exclusion; the table is 0 at index -1. -/
theorem integral_cell (raw : Int → Int → Int) (x y : Int) (hx : 0 ≤ x) (hy : 0 ≤ y) :
    integral raw x y - (integral raw (x - 1) y + integral raw x (y - 1)
      - integral raw (x - 1) (y - 1)) = raw x y := by
  have h := integral_four_corners raw (x - 1) x (y - 1) y (by omega) (by omega) (by omega)
    (by omega)
  rw [Ioc_pred_self, Ioc_pred_self] at h
  simp only [Finset.sum_singleton] at h
  omega

/-- The neighbour reads of the four-argument constructor agree with the
summed-area table, also on the first row and the first column. -/
theorem neighbour_reads {α : Type} [AddCommMonoid α] (image : RGBDImage) (x y : uint16_t)
    (get : Int → Int → α) (raw : Int → Int → α) (zero : α) (hzero : zero = 0)
    (hin : image.inImage x.val y.val = true)
    (hget : ∀ i j, image.inImage i j = true → get i j = integral raw i j) :
    get x.val y.val = integral raw x.val y.val ∧
    (if y.val > 0 then get x.val ((y.val : Int) - 1) else zero)
      = integral raw x.val ((y.val : Int) - 1) ∧
    (if x.val > 0 then get ((x.val : Int) - 1) y.val else zero)
      = integral raw ((x.val : Int) - 1) y.val ∧
    (if x.val > 0 ∧ y.val > 0 then get ((x.val : Int) - 1) ((y.val : Int) - 1) else zero)
      = integral raw ((x.val : Int) - 1) ((y.val : Int) - 1) := by
  subst hzero
  simp only [RGBDImage.inImage, decide_eq_true_eq] at hin
  refine ⟨hget _ _ (inImage_of_bounds _ _ _ hin), ?_, ?_, ?_⟩
  · split
    · exact hget _ _ (inImage_of_bounds _ _ _ (by omega))
    · have h0 : ((y.val : Nat) : Int) - 1 = -1 := by omega
      rw [h0, integral_neg_one_right]
  · split
    · exact hget _ _ (inImage_of_bounds _ _ _ (by omega))
    · have h0 : ((x.val : Nat) : Int) - 1 = -1 := by omega
      rw [h0, integral_neg_one_left]
  · split
    · exact hget _ _ (inImage_of_bounds _ _ _ (by omega))
    · by_cases hx : x.val > 0
      · have h0 : ((y.val : Nat) : Int) - 1 = -1 := by omega
        rw [h0, integral_neg_one_right]
      · have h0 : ((x.val : Nat) : Int) - 1 = -1 := by omega
        rw [h0, integral_neg_one_left]

/-- C8: when the integrated depth and validity of the image are the
summed-area tables of a raw depth map `r` and of a 0/1 flag `v`, the
four-argument constructor, at any in-image pixel `(x, y)` (first row and first
column included), computes `valid = v(x, y)`, which is 0 or 1, succeeds, and
stores the depth `r(x, y)` when `v(x, y) = 1` and the invalid sentinel when
`v(x, y) = 0`. -/
theorem constructor_depth_eq_raw (image : RGBDImage) (label : LabelType) (x y : uint16_t)
    (r v : Int → Int → Int)
    (hint : image.hasIntegratedDepth = true)
    (hin : image.inImage x.val y.val = true)
    (hD : IsIntegralDepth image r) (hV : IsIntegralValid image v) :
    PixelInstance.validAt image x y = v x.val y.val ∧
    (v x.val y.val = 0 ∨ v x.val y.val = 1) ∧
    ∃ s, PixelInstance.PixelInstance image label x y = Except.ok s ∧
      s.point = ⟨x.val, y.val⟩ ∧
      (v x.val y.val = 1 → s.getDepth = ⟨r x.val y.val⟩) ∧
      (v x.val y.val = 0 → s.getDepth = Depth.INVALID) := by
  have hx0 : (0 : Int) ≤ x.val := by omega
  have hy0 : (0 : Int) ≤ y.val := by omega
  obtain ⟨v0, v1, v2, v3⟩ := neighbour_reads image x y image.getDepthValid v 0 rfl hin hV.2
  have hvalid : PixelInstance.validAt image x y = v x.val y.val := by
    simp only [PixelInstance.validAt]
    rw [v0, v1, v2, v3]
    exact integral_cell v x.val y.val hx0 hy0
  refine ⟨hvalid, hV.1 _ _, ?_⟩
  simp only [PixelInstance.PixelInstance, hint, hvalid, Bool.not_true, Bool.false_eq_true,
    if_false, beq_iff_eq]
  by_cases h1 : v x.val y.val = 1
  · rw [if_pos h1]
    refine ⟨_, rfl, rfl, fun _ => ?_, fun h0 => ?_⟩
    · obtain ⟨d0, d1, d2, d3⟩ := neighbour_reads image x y
        (fun i j => (image.getDepth i j).value) r 0 rfl hin
        (fun i j hij => by simp only [hD i j hij])
      simp only [PixelInstance.getDepth, Depth.sub, Depth.add, Depth.mk.injEq,
        apply_ite Depth.value]
      rw [d0, d1, d2, d3]
      exact integral_cell r x.val y.val hx0 hy0
    · omega
  · rw [if_neg h1]
    exact ⟨_, rfl, rfl, fun h => absurd h h1, fun _ => rfl⟩

/-- C8, at concrete inputs: pixel (0, 3) of the 4 × 4 image, on the first
column, is valid with raw depth 2000. -/
theorem constructor_depth_eq_raw_witness :
    PixelInstance.validAt demoImage 0 3 = demoRawValid 0 3 ∧
    (demoRawValid 0 3 = 0 ∨ demoRawValid 0 3 = 1) ∧
    ∃ s, PixelInstance.PixelInstance demoImage 7 0 3 = Except.ok s ∧
      s.point = ⟨0, 3⟩ ∧
      (demoRawValid 0 3 = 1 → s.getDepth = ⟨demoRawDepth 0 3⟩) ∧
      (demoRawValid 0 3 = 0 → s.getDepth = Depth.INVALID) :=
  constructor_depth_eq_raw demoImage 7 0 3 demoRawDepth demoRawValid rfl (by decide)
    demoImage_integralDepth demoImage_integralValid

/-! ### Evaluations on the concrete image -/

theorem demoImage_integralColor (c : uint8_t) : IsIntegralColor demoImage c demoRawColor :=
  fun _ _ _ => rfl

/-- The colour query of the concrete sample with offset (0, 0), region (1, 1). -/
theorem demoSample_color_centre :
    demoSample.averageRegionColor ⟨0, 0⟩ ⟨1, 1⟩ 0 = some 4 := by
  rw [averageRegionColor_inside demoSample ⟨0, 0⟩ ⟨1, 1⟩ 0 1 1 1 1 (by decide) (by decide)
    (by decide) (by decide) (by decide)]
  simp only [demoSample, PixelInstance.withDepth, demoImage, RGBDImage.getColor, integral,
    demoRawColor]
  norm_num [show Int.toNat 3 = 3 from rfl, show Int.toNat 2 = 2 from rfl]

/-- The colour query of the concrete sample with offset (1, 0), region (1, 1). -/
theorem demoSample_color_right :
    demoSample.averageRegionColor ⟨1, 0⟩ ⟨1, 1⟩ 0 = some 4 := by
  rw [averageRegionColor_inside demoSample ⟨1, 0⟩ ⟨1, 1⟩ 0 2 1 1 1 (by decide) (by decide)
    (by decide) (by decide) (by decide)]
  simp only [demoSample, PixelInstance.withDepth, demoImage, RGBDImage.getColor, integral,
    demoRawColor]
  norm_num [show Int.toNat 4 = 4 from rfl, show Int.toNat 3 = 3 from rfl,
    show Int.toNat 2 = 2 from rfl]

theorem truncToInt_intCast (n : Int) : truncToInt (n : ℚ) = n := by
  simp [truncToInt]

/-! ### The `float` arithmetic of `normalize` -/

/-- The nearest integer, ties to even, characterised. -/
theorem roundHalfEven_eq (q : ℚ) (m : Int)
    (h : |q - (m : ℚ)| < 1 / 2 ∨ (|q - (m : ℚ)| = 1 / 2 ∧ m % 2 = 0)) :
    roundHalfEven q = m := by
  simp only [roundHalfEven]
  rcases h with h | ⟨h, hev⟩
  · rw [abs_lt] at h
    by_cases hge : (m : ℚ) ≤ q
    · have hf : Int.floor q = m := Int.floor_eq_iff.mpr ⟨hge, by linarith⟩
      rw [hf, if_pos (by linarith)]
    · have hf : Int.floor q = m - 1 :=
        Int.floor_eq_iff.mpr ⟨by push_cast; linarith, by push_cast; linarith⟩
      rw [hf, if_neg (by push_cast; linarith), if_pos (by push_cast; linarith)]
      ring
  · by_cases hge : (m : ℚ) ≤ q
    · have hq : q = m + 1 / 2 := by
        rw [abs_of_nonneg (by linarith)] at h; linarith
      have hf : Int.floor q = m := Int.floor_eq_iff.mpr ⟨hge, by linarith⟩
      rw [hf, if_neg (by linarith), if_neg (by linarith), if_pos hev]
    · have hq : q = m - 1 / 2 := by
        rw [abs_of_neg (by linarith)] at h; linarith
      have hf : Int.floor q = m - 1 :=
        Int.floor_eq_iff.mpr ⟨by push_cast; linarith, by push_cast; linarith⟩
      have hodd : ¬ ((m - 1) % 2 = 0) := by omega
      rw [hf, if_neg (by push_cast; linarith), if_neg (by push_cast; linarith), if_neg hodd]
      ring

theorem log2_eq (q : ℚ) (e : Int) (hlo : (2 : ℚ) ^ e ≤ |q|) (hhi : |q| < (2 : ℚ) ^ (e + 1)) :
    Int.log 2 |q| = e := by
  have hpos : 0 < |q| := lt_of_lt_of_le (by positivity) hlo
  apply le_antisymm
  · have := (Int.lt_zpow_iff_log_lt (b := 2) (by norm_num) hpos (x := e + 1)).mp
      (by exact_mod_cast hhi)
    omega
  · exact (Int.zpow_le_iff_le_log (b := 2) (by norm_num) hpos).mp (by exact_mod_cast hlo)

theorem toFloat32_eq (q : ℚ) (e m : Int) (he : -126 ≤ e)
    (hlo : (2 : ℚ) ^ e ≤ |q|) (hhi : |q| < (2 : ℚ) ^ (e + 1))
    (hm : |q / (2 : ℚ) ^ (e - 23) - (m : ℚ)| < 1 / 2 ∨
      (|q / (2 : ℚ) ^ (e - 23) - (m : ℚ)| = 1 / 2 ∧ m % 2 = 0))
    (hfin : |(m : ℚ) * (2 : ℚ) ^ (e - 23)| < 2 ^ 128) :
    toFloat32 q = some ((m : ℚ) * (2 : ℚ) ^ (e - 23)) := by
  have hpos : 0 < |q| := lt_of_lt_of_le (by positivity) hlo
  have hq : q ≠ 0 := abs_pos.mp hpos
  simp only [toFloat32, if_neg hq, log2_eq q e hlo hhi, max_eq_left he,
    roundHalfEven_eq _ m hm, if_pos hfin]

theorem toFloat32_eq_pos (q : ℚ) (e m : Int) (he : -126 ≤ e)
    (hlo : (2 : ℚ) ^ e ≤ q) (hhi : q < (2 : ℚ) ^ (e + 1))
    (hm : |q / (2 : ℚ) ^ (e - 23) - (m : ℚ)| < 1 / 2 ∨
      (|q / (2 : ℚ) ^ (e - 23) - (m : ℚ)| = 1 / 2 ∧ m % 2 = 0))
    (hfin : (m : ℚ) * (2 : ℚ) ^ (e - 23) < 2 ^ 128) (hm0 : 0 ≤ m) :
    toFloat32 q = some ((m : ℚ) * (2 : ℚ) ^ (e - 23)) := by
  have hpos : 0 < q := lt_of_lt_of_le (by positivity) hlo
  have hr : (0 : ℚ) ≤ (m : ℚ) * (2 : ℚ) ^ (e - 23) :=
    mul_nonneg (by exact_mod_cast hm0) (by positivity)
  exact toFloat32_eq q e m he (by rwa [abs_of_pos hpos]) (by rwa [abs_of_pos hpos]) hm
    (by rw [abs_of_nonneg hr]; exact hfin)

theorem toFloat32_intCast (n : Int) (h : |n| ≤ 16777216) : toFloat32 (n : ℚ) = some (n : ℚ) := by
  by_cases hn : n = 0
  · simp [hn, toFloat32]
  have hq : (n : ℚ) ≠ 0 := by exact_mod_cast hn
  have hpos : (0 : ℚ) < |(n : ℚ)| := abs_pos.mpr hq
  have habs1 : (1 : ℚ) ≤ |(n : ℚ)| := by
    have : (1 : Int) ≤ |n| := Int.one_le_abs hn
    exact_mod_cast this
  have habs2 : |(n : ℚ)| ≤ 16777216 := by exact_mod_cast h
  obtain ⟨e, hlog⟩ : ∃ e : Int, Int.log 2 |(n : ℚ)| = e := ⟨_, rfl⟩
  have he0 : 0 ≤ e := by
    rw [← hlog]
    exact (Int.zpow_le_iff_le_log (b := 2) (by norm_num) hpos).mp (by simpa using habs1)
  have he24 : e < 25 := by
    rw [← hlog]
    exact (Int.lt_zpow_iff_log_lt (b := 2) (by norm_num) hpos).mp (by norm_num; linarith)
  have hlo : (2 : ℚ) ^ e ≤ |(n : ℚ)| := by
    have := Int.zpow_log_le_self (b := 2) (r := |(n : ℚ)|) (by norm_num) hpos
    rw [hlog] at this
    simpa using this
  have hk : ∃ k : Int, (n : ℚ) / (2 : ℚ) ^ (e - 23) = (k : ℚ) := by
    by_cases he : e ≤ 23
    · refine ⟨n * 2 ^ (23 - e).toNat, ?_⟩
      have hj : e - 23 = -(((23 - e).toNat : Nat) : Int) := by omega
      rw [hj, zpow_neg, zpow_natCast]
      push_cast
      field_simp
    · have he' : e = 24 := by omega
      subst he'
      have h1 : (16777216 : ℚ) ≤ |(n : ℚ)| := by
        have h0 : (2 : ℚ) ^ (24 : Int) = 16777216 := by norm_num
        rw [h0] at hlo
        exact hlo
      have h3 : (16777216 : Int) ≤ |n| := by exact_mod_cast h1
      rcases abs_cases n with ⟨h4, _⟩ | ⟨h4, _⟩
      · have h5 : n = 16777216 := by omega
        exact ⟨8388608, by rw [h5]; norm_num⟩
      · have h5 : n = -16777216 := by omega
        exact ⟨-8388608, by rw [h5]; norm_num⟩
  obtain ⟨k, hk⟩ := hk
  have hmax : max e (-126) = e := max_eq_left (by omega)
  have hquant : (2 : ℚ) ^ (e - 23) ≠ 0 := by positivity
  have hr : (k : ℚ) * (2 : ℚ) ^ (e - 23) = (n : ℚ) := by
    rw [← hk]; field_simp
  have hround : roundHalfEven ((n : ℚ) / (2 : ℚ) ^ (e - 23)) = k :=
    roundHalfEven_eq _ k (Or.inl (by rw [hk]; norm_num))
  have hfin : |(n : ℚ)| < 2 ^ 128 := lt_of_le_of_lt habs2 (by norm_num)
  simp only [toFloat32, if_neg hq, hlog, hmax, hround, hr, if_pos hfin]

theorem fdiv32_one (n : Int) (h : |n| ≤ 16777216) :
    fdiv32 (intToFloat n) (some 1) = some (n : ℚ) := by
  simp only [intToFloat, toFloat32_intCast n h, fdiv32]
  rw [if_neg (by norm_num), div_one]
  exact toFloat32_intCast n h

/-- The depth of integer value 1000 has the float value 1. -/
theorem getFloatValue_1000 : (⟨1000⟩ : Depth).getFloatValue = some 1 := by
  simp only [Depth.getFloatValue, intToFloat]
  rw [show ((1000 : Int) : ℚ) = ((1000 : Int) : ℚ) from rfl, toFloat32_intCast 1000 (by decide)]
  simp only [fdiv32]
  rw [if_neg (by norm_num)]
  have h := toFloat32_intCast 1 (by decide)
  norm_num at h ⊢
  exact h

/-- At a depth of float value 1, `normalize` changes no component of absolute
value at most `2 ^ 24`. -/
theorem normalize_of_unit (p : XY) (d : Depth) (hunit : d.getFloatValue = some 1)
    (hx : |p.x| ≤ 16777216) (hy : |p.y| ≤ 16777216) : p.normalize d = p := by
  simp only [XY.normalize, hunit, fdiv32_one p.x hx, fdiv32_one p.y hy, floatToInt,
    truncToInt_intCast]

/-- At the depth of integer value 1000 (float value 1) `normalize` changes
no component of absolute value at most `2 ^ 24`. -/
theorem normalize_depth_1000 (p : XY) (hx : |p.x| ≤ 16777216) (hy : |p.y| ≤ 16777216) :
    p.normalize ⟨1000⟩ = p :=
  normalize_of_unit p ⟨1000⟩ getFloatValue_1000 hx hy

/-! ### C2 -/

/-- C2, evaluated: on the 4 × 4 image, whose integrated colour channel 0 is the
summed-area table of the constant raw channel 1, the box of offset (0, 0) and
region (1, 1) around pixel (1, 1) lies inside the image and holds four pixels
of raw value 1; their mean is 1, and `averageRegionColor` returns 4, their
sum. -/
theorem averageRegionColor_returns_sum_not_mean :
    IsIntegralColor demoImage 0 demoRawColor ∧
    (0 ≤ (1 : Int) - 1 ∧ (1 : Int) + 1 < demoImage.width ∧
      0 ≤ (1 : Int) - 1 ∧ (1 : Int) + 1 < demoImage.height) ∧
    demoSample.averageRegionColor ⟨0, 0⟩ ⟨1, 1⟩ 0 = some 4 ∧
    boxMean demoRawColor 1 1 1 1 = 1 ∧
    boxSum demoRawColor 1 1 1 1 = 4 := by
  refine ⟨demoImage_integralColor 0, by decide, ?_, ?_, ?_⟩
  · exact demoSample_color_centre
  · simp only [boxMean, boxSum, boxPixels, demoRawColor]
    norm_num [show Int.toNat 3 = 3 from rfl, show Int.toNat 2 = 2 from rfl]
  · simp only [boxSum, demoRawColor]
    norm_num [show Int.toNat 3 = 3 from rfl, show Int.toNat 2 = 2 from rfl]

/-! ### C7, at a concrete input -/

/-- C7, at a concrete input: the COLOR descriptor with offsets (0, 0) and
(1, 0), regions (1, 1) and channel 0, on the sample at pixel (1, 1) of the
4 × 4 image (of valid depth 1000): both box queries give 4, the response is
their difference. -/
theorem calculateFeatureResponse_eq_witness :
    (⟨COLOR, ⟨0, 0⟩, ⟨1, 1⟩, 0, ⟨1, 0⟩, ⟨1, 1⟩, 0⟩ : ImageFeatureFunction).calculateFeatureResponse
      demoSample = some (4 - 4) :=
  ((calculateFeatureResponse_eq ⟨COLOR, ⟨0, 0⟩, ⟨1, 1⟩, 0, ⟨1, 0⟩, ⟨1, 1⟩, 0⟩ demoSample
    (Or.inr rfl)).2 (by decide)).2 4 4
    (by
      show boxAverage COLOR demoSample (XY.normalize ⟨0, 0⟩ ⟨1000⟩) (XY.normalize ⟨1, 1⟩ ⟨1000⟩) 0
        = some 4
      rw [normalize_depth_1000 _ (by decide) (by decide),
        normalize_depth_1000 _ (by decide) (by decide)]
      exact demoSample_color_centre)
    (by
      show boxAverage COLOR demoSample (XY.normalize ⟨1, 0⟩ ⟨1000⟩) (XY.normalize ⟨1, 1⟩ ⟨1000⟩) 0
        = some 4
      rw [normalize_depth_1000 _ (by decide) (by decide),
        normalize_depth_1000 _ (by decide) (by decide)]
      exact demoSample_color_right)

/-! ### C13 -/

/-- C13: `setFeatureFunction feat f` writes, into column `feat` of the
`11 × numFeatures` feature matrix, the rows 0 to 10 in the order type,
offset1.x, offset1.y, offset2.x, offset2.y, region1.x, region1.y, region2.x,
region2.y, channel1, channel2, each converted to a signed 8-bit cell; and
`getFeatureFunction feat` passes the same rows, in the same roles, to the
constructor. -/
theorem setFeatureFunction_row_layout {numFeatures numThresholds : Nat}
    (b : ImageFeaturesAndThresholds numFeatures numThresholds)
    (feat : Fin numFeatures) (f : ImageFeatureFunction) :
    ((b.setFeatureFunction feat f).m_features 0 feat = toInt8 f.getType.val ∧
      (b.setFeatureFunction feat f).m_features 1 feat = toInt8 f.getOffset1.getX ∧
      (b.setFeatureFunction feat f).m_features 2 feat = toInt8 f.getOffset1.getY ∧
      (b.setFeatureFunction feat f).m_features 3 feat = toInt8 f.getOffset2.getX ∧
      (b.setFeatureFunction feat f).m_features 4 feat = toInt8 f.getOffset2.getY ∧
      (b.setFeatureFunction feat f).m_features 5 feat = toInt8 f.getRegion1.getX ∧
      (b.setFeatureFunction feat f).m_features 6 feat = toInt8 f.getRegion1.getY ∧
      (b.setFeatureFunction feat f).m_features 7 feat = toInt8 f.getRegion2.getX ∧
      (b.setFeatureFunction feat f).m_features 8 feat = toInt8 f.getRegion2.getY ∧
      (b.setFeatureFunction feat f).m_features 9 feat = toInt8 f.getChannel1.val ∧
      (b.setFeatureFunction feat f).m_features 10 feat = toInt8 f.getChannel2.val) ∧
    b.getFeatureFunction feat =
      ImageFeatureFunction.ImageFeatureFunction ⟨(b.m_features 0 feat).val⟩
        ⟨(b.m_features 1 feat).val, (b.m_features 2 feat).val⟩
        ⟨(b.m_features 5 feat).val, (b.m_features 6 feat).val⟩
        (toUInt8 (b.m_features 9 feat).val)
        ⟨(b.m_features 3 feat).val, (b.m_features 4 feat).val⟩
        ⟨(b.m_features 7 feat).val, (b.m_features 8 feat).val⟩
        (toUInt8 (b.m_features 10 feat).val) := by
  refine ⟨?_, rfl⟩
  exact ImageFeaturesAndThresholds.setFeatureFunction_column b feat f

/-! ### C15 -/

/-- C15, as stated, fails: the public default constructor gives a descriptor
with `offset1 = offset2 = (0, 0)`, for which `isValid` is false. -/
theorem default_constructor_not_valid :
    ImageFeatureFunction.default.offset1 = ImageFeatureFunction.default.offset2 ∧
    ImageFeatureFunction.default.isValid = false := by
  decide

/-- C15, amended: every descriptor returned by the seven-argument constructor
satisfies `offset1 ≠ offset2`, that is, `isValid` is true for it. -/
theorem constructor_result_isValid (featureType : FeatureType)
    (offset1 : Offset) (region1 : Region) (channel1 : uint8_t)
    (offset2 : Offset) (region2 : Region) (channel2 : uint8_t) (f : ImageFeatureFunction)
    (hok : ImageFeatureFunction.ImageFeatureFunction featureType offset1 region1 channel1
      offset2 region2 channel2 = Except.ok f) :
    f.offset1 ≠ f.offset2 ∧ f.isValid = true := by
  simp only [ImageFeatureFunction.ImageFeatureFunction] at hok
  split at hok
  · exact absurd hok (by simp)
  · rename_i hne
    simp only [Except.ok.injEq] at hok
    subst hok
    have h : offset1 ≠ offset2 := by simpa using hne
    exact ⟨h, by simp [ImageFeatureFunction.isValid, h]⟩

/-- C15, amended, at a concrete input. -/
theorem constructor_result_isValid_witness :
    (⟨DEPTH, ⟨0, 1⟩, ⟨2, 2⟩, 0, ⟨0, 2⟩, ⟨2, 2⟩, 0⟩ : ImageFeatureFunction).offset1
      ≠ (⟨DEPTH, ⟨0, 1⟩, ⟨2, 2⟩, 0, ⟨0, 2⟩, ⟨2, 2⟩, 0⟩ : ImageFeatureFunction).offset2 ∧
    (⟨DEPTH, ⟨0, 1⟩, ⟨2, 2⟩, 0, ⟨0, 2⟩, ⟨2, 2⟩, 0⟩ : ImageFeatureFunction).isValid = true :=
  constructor_result_isValid DEPTH ⟨0, 1⟩ ⟨2, 2⟩ 0 ⟨0, 2⟩ ⟨2, 2⟩ 0 _ (by decide)

/-! ### C17 -/

/-- C17: for every valid descriptor `f` of kind DEPTH or COLOR whose eight
offset and region components lie in [-128, 127] (channels are any 8-bit
values, 128 and above included), `getFeatureFunction feat` after
`setFeatureFunction feat f` succeeds and returns a descriptor equal to `f` in
all seven fields. -/
theorem roundtrip_of_fitsInt8 {numFeatures numThresholds : Nat}
    (b : ImageFeaturesAndThresholds numFeatures numThresholds)
    (feat : Fin numFeatures) (f : ImageFeatureFunction)
    (hvalid : f.isValid = true)
    (hkind : f.featureType = DEPTH ∨ f.featureType = COLOR)
    (hfits : fitsInt8 f) :
    (b.setFeatureFunction feat f).getFeatureFunction feat = Except.ok f ∧
    ∀ g, (b.setFeatureFunction feat f).getFeatureFunction feat = Except.ok g →
      g.getType = f.getType ∧ g.getOffset1 = f.getOffset1 ∧ g.getRegion1 = f.getRegion1 ∧
      g.getChannel1 = f.getChannel1 ∧ g.getOffset2 = f.getOffset2 ∧
      g.getRegion2 = f.getRegion2 ∧ g.getChannel2 = f.getChannel2 := by
  have hok : (b.setFeatureFunction feat f).getFeatureFunction feat = Except.ok f := by
    rw [ImageFeaturesAndThresholds.getFeatureFunction_setFeatureFunction]
    obtain ⟨t, ⟨x1, y1⟩, ⟨rx1, ry1⟩, c1, ⟨x2, y2⟩, ⟨rx2, ry2⟩, c2⟩ := f
    have hne : ¬ (x1 = x2 ∧ y1 = y2) := by
      simpa [ImageFeatureFunction.isValid] using hvalid
    have ht : (toInt8 t.val).val = t.val := by
      rcases hkind with h | h <;> simp only at h <;> subst h <;> decide
    simp only [fitsInt8, ← toInt8_val_eq_iff] at hfits
    obtain ⟨h1, h2, h3, h4, h5, h6, h7, h8⟩ := hfits
    simp only [h1, h2, h3, h4, h5, h6, h7, h8, ht]
    simp [ImageFeatureFunction.ImageFeatureFunction, hne]
  refine ⟨hok, fun g hg => ?_⟩
  rw [hok] at hg
  simp only [Except.ok.injEq] at hg
  subst hg
  exact ⟨rfl, rfl, rfl, rfl, rfl, rfl, rfl⟩

/-- C17, at a concrete input: components at both ends of the range, channels
255 and 128. -/
theorem roundtrip_of_fitsInt8_witness :
    ((ImageFeaturesAndThresholds.create 3 2).setFeatureFunction 2
        ⟨DEPTH, ⟨-128, 127⟩, ⟨0, 127⟩, 255, ⟨127, -128⟩, ⟨-1, 5⟩, 128⟩).getFeatureFunction 2
      = Except.ok ⟨DEPTH, ⟨-128, 127⟩, ⟨0, 127⟩, 255, ⟨127, -128⟩, ⟨-1, 5⟩, 128⟩ :=
  (roundtrip_of_fitsInt8 (ImageFeaturesAndThresholds.create 3 2) 2
    ⟨DEPTH, ⟨-128, 127⟩, ⟨0, 127⟩, 255, ⟨127, -128⟩, ⟨-1, 5⟩, 128⟩ (by decide) (Or.inl rfl)
    (by decide)).1

/-! ### C20 -/

theorem toInt8_eq_iff_mod (a b : Int) : toInt8 a = toInt8 b ↔ a % 256 = b % 256 := by
  simp only [toInt8, Subtype.mk.injEq]
  omega

/-- C20: for every batch and column `feat`, `getFeatureFunction feat` raises
the illegal-feature error if and only if the stored cells satisfy
`offset1X(feat) = offset2X(feat)` and `offset1Y(feat) = offset2Y(feat)`;
consequently it raises for a valid descriptor whose two offsets are congruent
modulo 256 in both components, once this has been stored by
`setFeatureFunction`. -/
theorem getFeatureFunction_error_iff {numFeatures numThresholds : Nat}
    (b : ImageFeaturesAndThresholds numFeatures numThresholds) (feat : Fin numFeatures) :
    (b.getFeatureFunction feat = Except.error "illegal feature: offset1 equals offset2" ↔
      (b.offset1X feat = b.offset2X feat ∧ b.offset1Y feat = b.offset2Y feat)) ∧
    (∀ f : ImageFeatureFunction, f.isValid = true →
      f.offset1.x % 256 = f.offset2.x % 256 → f.offset1.y % 256 = f.offset2.y % 256 →
      (b.setFeatureFunction feat f).getFeatureFunction feat
        = Except.error "illegal feature: offset1 equals offset2") := by
  have hiff : ∀ c : ImageFeaturesAndThresholds numFeatures numThresholds,
      (c.getFeatureFunction feat = Except.error "illegal feature: offset1 equals offset2" ↔
        (c.offset1X feat = c.offset2X feat ∧ c.offset1Y feat = c.offset2Y feat)) := by
    intro c
    simp only [ImageFeaturesAndThresholds.getFeatureFunction,
      ImageFeatureFunction.ImageFeatureFunction]
    by_cases h : c.offset1X feat = c.offset2X feat ∧ c.offset1Y feat = c.offset2Y feat
    · simp [h]
    · have h2 : ¬ ((c.offset1X feat).val = (c.offset2X feat).val ∧
          (c.offset1Y feat).val = (c.offset2Y feat).val) := by
        intro hh
        exact h ⟨Subtype.ext hh.1, Subtype.ext hh.2⟩
      simp [h, h2]
  refine ⟨hiff b, fun f _ hx hy => ?_⟩
  rw [hiff]
  obtain ⟨_, h1, h2, h3, h4, _⟩ := ImageFeaturesAndThresholds.setFeatureFunction_column b feat f
  rw [h1, h2, h3, h4]
  exact ⟨(toInt8_eq_iff_mod _ _).mpr hx, (toInt8_eq_iff_mod _ _).mpr hy⟩

/-- C20, at a concrete input: the valid descriptor with offsets (0, 0) and
(256, 0) is stored with equal offset cells, and decoding raises. -/
theorem getFeatureFunction_error_iff_witness :
    ((ImageFeaturesAndThresholds.create 2 1).setFeatureFunction 0
        ⟨DEPTH, ⟨0, 0⟩, ⟨1, 1⟩, 0, ⟨256, 0⟩, ⟨1, 1⟩, 0⟩).getFeatureFunction 0
      = Except.error "illegal feature: offset1 equals offset2" :=
  (getFeatureFunction_error_iff (ImageFeaturesAndThresholds.create 2 1) 0).2
    ⟨DEPTH, ⟨0, 0⟩, ⟨1, 1⟩, 0, ⟨256, 0⟩, ⟨1, 1⟩, 0⟩ (by decide) (by decide) (by decide)

/-! ### C18 -/

theorem card_boxPixels (x y w h : Int) :
    (boxPixels x y w h).card = (2 * w).toNat * (2 * h).toNat := by
  simp only [boxPixels, Finset.card_product, Int.card_Ioc]
  congr 2 <;> ring

/-- C18: when the box (centre `(x, y) = pixel + offset`, half-extents
`w = max 1 region.x`, `h = max 1 region.y`) lies inside the image,
`averageRegionColor` returns
`(I(x+w, y+h) − I(x+w, y−h)) + (I(x−w, y−h) − I(x−w, y+h))` over the integrated
channel `I`; when `I` is the summed-area table of a raw channel this is the sum
of the raw values over the pixels `x − w < i ≤ x + w`, `y − h < j ≤ y + h`, of
which there are `2w × 2h`. -/
theorem averageRegionColor_four_corner_sum (s : PixelInstance) (offset : Offset)
    (region : Region) (channel : uint8_t) (x y w h : Int)
    (hw : w = max 1 region.x) (hh : h = max 1 region.y)
    (hx : x = (s.getX.val : Int) + offset.x) (hy : y = (s.getY.val : Int) + offset.y)
    (hin : 0 ≤ x - w ∧ x + w < s.image.width ∧ 0 ≤ y - h ∧ y + h < s.image.height) :
    s.averageRegionColor offset region channel =
      some ((s.image.getColor (x + w) (y + h) channel - s.image.getColor (x + w) (y - h) channel)
        + (s.image.getColor (x - w) (y - h) channel
          - s.image.getColor (x - w) (y + h) channel)) ∧
    (∀ raw : Int → Int → ℚ, IsIntegralColor s.image channel raw →
      s.averageRegionColor offset region channel = some (boxSum raw x y w h)) ∧
    (boxPixels x y w h).card = (2 * w).toNat * (2 * h).toNat := by
  have hcorner := averageRegionColor_inside s offset region channel x y w h hw hh hx hy hin
  refine ⟨hcorner, fun raw hI => ?_, card_boxPixels x y w h⟩
  have hw1 : 1 ≤ w := by omega
  have hh1 : 1 ≤ h := by omega
  have c1 := inImage_of_bounds s.image (x + w) (y + h) (by omega)
  have c2 := inImage_of_bounds s.image (x + w) (y - h) (by omega)
  have c3 := inImage_of_bounds s.image (x - w) (y - h) (by omega)
  have c4 := inImage_of_bounds s.image (x - w) (y + h) (by omega)
  rw [hcorner, hI _ _ c1, hI _ _ c2, hI _ _ c3, hI _ _ c4]
  have hsum : _ = boxSum raw x y w h :=
    integral_four_corners raw (x - w) (x + w) (y - h) (y + h)
      (by omega) (by omega) (by omega) (by omega)
  rw [hsum]

/-- C18, at a concrete input: the box of offset (1, 0) and region (0, 0)
(clamped to half-extents 1) around pixel (1, 1) of the 4 × 4 image. -/
theorem averageRegionColor_four_corner_sum_witness :
    demoSample.averageRegionColor ⟨1, 0⟩ ⟨0, 0⟩ 3 = some (boxSum demoRawColor 2 1 1 1) ∧
    (boxPixels 2 1 1 1).card = (2 * (1 : Int)).toNat * (2 * (1 : Int)).toNat :=
  ⟨(averageRegionColor_four_corner_sum demoSample ⟨1, 0⟩ ⟨0, 0⟩ 3 2 1 1 1 (by decide)
      (by decide) (by decide) (by decide) (by decide)).2.1 demoRawColor
      (demoImage_integralColor 3),
    (averageRegionColor_four_corner_sum demoSample ⟨1, 0⟩ ⟨0, 0⟩ 3 2 1 1 1 (by decide)
      (by decide) (by decide) (by decide) (by decide)).2.2⟩

/-! ### C16 -/

/-- The raw depth map is positive on valid pixels and 0 on invalid ones. -/
theorem boxSum_pos_of_valid (r v : Int → Int → Int)
    (hv : ∀ i j, v i j = 0 ∨ v i j = 1)
    (hpos : ∀ i j, v i j = 1 → 0 < r i j) (hzero : ∀ i j, v i j = 0 → r i j = 0)
    (x y w h : Int) (hcount : 0 < boxValidCount v x y w h) : 0 < boxSum r x y w h := by
  simp only [boxValidCount, Finset.card_pos, Finset.filter_nonempty_iff] at hcount
  obtain ⟨p, hp, hp1⟩ := hcount
  simp only [boxSum]
  rw [← Finset.sum_product']
  refine Finset.sum_pos' (fun q _ => ?_) ⟨p, hp, hpos _ _ hp1⟩
  rcases hv q.1 q.2 with h0 | h1
  · exact le_of_eq (hzero _ _ h0).symm
  · exact le_of_lt (hpos _ _ h1)

/-- On an image whose integrated depth and validity are summed-area tables of
a raw depth map that is positive on valid pixels and 0 on invalid ones, every
result of `averageRegionDepth` that is not NaN is positive. -/
theorem averageRegionDepth_pos (s : PixelInstance) (offset : Offset) (region : Region)
    (r v : Int → Int → Int)
    (hD : IsIntegralDepth s.image r) (hV : IsIntegralValid s.image v)
    (hpos : ∀ i j, v i j = 1 → 0 < r i j) (hzero : ∀ i j, v i j = 0 → r i j = 0)
    (a : ℚ) (ha : s.averageRegionDepth offset region = some a) : 0 < a := by
  by_cases hbox : (s.getX.val : Int) + offset.x - max 1 region.x < 0 ∨
      (s.getX.val : Int) + offset.x + max 1 region.x ≥ s.image.width ∨
      (s.getY.val : Int) + offset.y - max 1 region.y < 0 ∨
      (s.getY.val : Int) + offset.y + max 1 region.y ≥ s.image.height
  · exfalso
    simp only [PixelInstance.averageRegionDepth, XY.getX, XY.getY, RGBDImage.getWidth,
      RGBDImage.getHeight] at ha
    rw [if_pos hbox] at ha
    exact absurd ha (by simp [NaN])
  · have hin : 0 ≤ (s.getX.val : Int) + offset.x - max 1 region.x ∧
        (s.getX.val : Int) + offset.x + max 1 region.x < s.image.width ∧
        0 ≤ (s.getY.val : Int) + offset.y - max 1 region.y ∧
        (s.getY.val : Int) + offset.y + max 1 region.y < s.image.height := by omega
    have hw1 : 1 ≤ max 1 region.x := le_max_left _ _
    have hh1 : 1 ≤ max 1 region.y := le_max_left _ _
    have c1 := inImage_of_bounds s.image _ _
      (show 0 ≤ (s.getX.val : Int) + offset.x + max 1 region.x ∧ _ ∧
        0 ≤ (s.getY.val : Int) + offset.y + max 1 region.y ∧ _ from by omega)
    have c2 := inImage_of_bounds s.image _ _
      (show 0 ≤ (s.getX.val : Int) + offset.x + max 1 region.x ∧ _ ∧
        0 ≤ (s.getY.val : Int) + offset.y - max 1 region.y ∧ _ from by omega)
    have c3 := inImage_of_bounds s.image _ _
      (show 0 ≤ (s.getX.val : Int) + offset.x - max 1 region.x ∧ _ ∧
        0 ≤ (s.getY.val : Int) + offset.y - max 1 region.y ∧ _ from by omega)
    have c4 := inImage_of_bounds s.image _ _
      (show 0 ≤ (s.getX.val : Int) + offset.x - max 1 region.x ∧ _ ∧
        0 ≤ (s.getY.val : Int) + offset.y + max 1 region.y ∧ _ from by omega)
    rw [averageRegionDepth_inside s offset region _ _ _ _ rfl rfl rfl rfl hin,
      hV.2 _ _ c1, hV.2 _ _ c2, hV.2 _ _ c3, hV.2 _ _ c4,
      hD _ _ c1, hD _ _ c2, hD _ _ c3, hD _ _ c4] at ha
    have hcount : _ = boxSum v _ _ _ _ := integral_four_corners v
      ((s.getX.val : Int) + offset.x - max 1 region.x)
      ((s.getX.val : Int) + offset.x + max 1 region.x)
      ((s.getY.val : Int) + offset.y - max 1 region.y)
      ((s.getY.val : Int) + offset.y + max 1 region.y)
      (by omega) (by omega) (by omega) (by omega)
    have hsum : _ = boxSum r _ _ _ _ := integral_four_corners r
      ((s.getX.val : Int) + offset.x - max 1 region.x)
      ((s.getX.val : Int) + offset.x + max 1 region.x)
      ((s.getY.val : Int) + offset.y - max 1 region.y)
      ((s.getY.val : Int) + offset.y + max 1 region.y)
      (by omega) (by omega) (by omega) (by omega)
    rw [hcount, hsum, boxSum_flag_eq_count v hV.1] at ha
    split at ha
    · exact absurd ha (by simp [NaN])
    · rename_i hne
      have hc : 0 < boxValidCount v ((s.getX.val : Int) + offset.x)
          ((s.getY.val : Int) + offset.y) (max 1 region.x) (max 1 region.y) := by
        omega
      have hs := boxSum_pos_of_valid r v hV.1 hpos hzero _ _ _ _ hc
      simp only [Option.some.injEq] at ha
      rw [← ha]
      have hs' : (0 : ℚ) < ((boxSum r ((s.getX.val : Int) + offset.x)
          ((s.getY.val : Int) + offset.y) (max 1 region.x) (max 1 region.y) : Int) : ℚ) := by
        exact_mod_cast hs
      have hc' : (0 : ℚ) < (((boxValidCount v ((s.getX.val : Int) + offset.x)
          ((s.getY.val : Int) + offset.y) (max 1 region.x) (max 1 region.y) : Nat) : Int) : ℚ) := by
        exact_mod_cast hc
      exact div_pos (div_pos hs' (by norm_num)) hc'

/-- C16: on an image whose integrated depth and validity are the summed-area
tables of a raw depth map and of a 0/1 flag, with raw depth positive on valid
pixels and 0 on invalid ones, for every DEPTH descriptor and every sample of
valid depth, when both `averageRegionDepth` results `a` and `b` of
`calculateDepthFeature` are not NaN, they are positive (the two assertions
before the subtraction hold) and the response is `a − b`. -/
theorem calculateDepthFeature_averages_pos (f : ImageFeatureFunction) (s : PixelInstance)
    (r v : Int → Int → Int)
    (hkind : f.featureType = DEPTH) (hd : s.getDepth.isValid = true)
    (hD : IsIntegralDepth s.image r) (hV : IsIntegralValid s.image v)
    (hpos : ∀ i j, v i j = 1 → 0 < r i j) (hzero : ∀ i j, v i j = 0 → r i j = 0)
    (a b : ℚ)
    (ha : s.averageRegionDepth (f.offset1.normalize s.getDepth)
      (f.region1.normalize s.getDepth) = some a)
    (hb : s.averageRegionDepth (f.offset2.normalize s.getDepth)
      (f.region2.normalize s.getDepth) = some b) :
    0 < a ∧ 0 < b ∧ f.calculateFeatureResponse s = some (a - b) := by
  refine ⟨averageRegionDepth_pos s _ _ r v hD hV hpos hzero a ha,
    averageRegionDepth_pos s _ _ r v hD hV hpos hzero b hb, ?_⟩
  simp [ImageFeatureFunction.calculateFeatureResponse, hkind,
    ImageFeatureFunction.calculateDepthFeature, hd, ha, hb, isnan, fsub]

/-- The depth query of the concrete sample with offset (1, 0), region (1, 1):
two valid pixels of raw depth 2000. -/
theorem demoSample_depth_right :
    demoSample.averageRegionDepth ⟨1, 0⟩ ⟨1, 1⟩ = some 2 := by
  rw [averageRegionDepth_inside demoSample ⟨1, 0⟩ ⟨1, 1⟩ 2 1 1 1 (by decide) (by decide)
    (by decide) (by decide) (by decide)]
  have v1 : demoSample.image.getDepthValid (2 + 1) (1 + 1) = 8 := by decide
  have v2 : demoSample.image.getDepthValid (2 + 1) (1 - 1) = 4 := by decide
  have v3 : demoSample.image.getDepthValid (2 - 1) (1 - 1) = 2 := by decide
  have v4 : demoSample.image.getDepthValid (2 - 1) (1 + 1) = 4 := by decide
  have d1 : (demoSample.image.getDepth (2 + 1) (1 + 1)).value = 16000 := by decide
  have d2 : (demoSample.image.getDepth (2 + 1) (1 - 1)).value = 8000 := by decide
  have d3 : (demoSample.image.getDepth (2 - 1) (1 - 1)).value = 4000 := by decide
  have d4 : (demoSample.image.getDepth (2 - 1) (1 + 1)).value = 8000 := by decide
  rw [v1, v2, v3, v4, d1, d2, d3, d4]
  norm_num

/-- The depth query of the concrete sample with offset (0, 1), region (1, 1):
two valid pixels of raw depth 2000. -/
theorem demoSample_depth_below :
    demoSample.averageRegionDepth ⟨0, 1⟩ ⟨1, 1⟩ = some 2 := by
  rw [averageRegionDepth_inside demoSample ⟨0, 1⟩ ⟨1, 1⟩ 1 2 1 1 (by decide) (by decide)
    (by decide) (by decide) (by decide)]
  have v1 : demoSample.image.getDepthValid (1 + 1) (2 + 1) = 8 := by decide
  have v2 : demoSample.image.getDepthValid (1 + 1) (2 - 1) = 4 := by decide
  have v3 : demoSample.image.getDepthValid (1 - 1) (2 - 1) = 2 := by decide
  have v4 : demoSample.image.getDepthValid (1 - 1) (2 + 1) = 4 := by decide
  have d1 : (demoSample.image.getDepth (1 + 1) (2 + 1)).value = 16000 := by decide
  have d2 : (demoSample.image.getDepth (1 + 1) (2 - 1)).value = 8000 := by decide
  have d3 : (demoSample.image.getDepth (1 - 1) (2 - 1)).value = 4000 := by decide
  have d4 : (demoSample.image.getDepth (1 - 1) (2 + 1)).value = 8000 := by decide
  rw [v1, v2, v3, v4, d1, d2, d3, d4]
  norm_num

theorem demoRawDepth_pos : ∀ i j, demoRawValid i j = 1 → 0 < demoRawDepth i j := by
  intro i j h
  simp [demoRawDepth, h]

theorem demoRawDepth_zero : ∀ i j, demoRawValid i j = 0 → demoRawDepth i j = 0 := by
  intro i j h
  simp [demoRawDepth, h]

/-- C16, at a concrete input: the DEPTH descriptor with offsets (1, 0) and
(0, 1) and regions (1, 1) on the sample at pixel (1, 1) of the 4 × 4 image;
both box averages are 2. -/
theorem calculateDepthFeature_averages_pos_witness :
    (0 : ℚ) < 2 ∧ (0 : ℚ) < 2 ∧
    (⟨DEPTH, ⟨1, 0⟩, ⟨1, 1⟩, 0, ⟨0, 1⟩, ⟨1, 1⟩, 0⟩ :
      ImageFeatureFunction).calculateFeatureResponse demoSample = some (2 - 2) :=
  calculateDepthFeature_averages_pos ⟨DEPTH, ⟨1, 0⟩, ⟨1, 1⟩, 0, ⟨0, 1⟩, ⟨1, 1⟩, 0⟩ demoSample
    demoRawDepth demoRawValid rfl (by decide) demoImage_integralDepth demoImage_integralValid
    demoRawDepth_pos demoRawDepth_zero 2 2
    (by
      show demoSample.averageRegionDepth (XY.normalize ⟨1, 0⟩ ⟨1000⟩)
        (XY.normalize ⟨1, 1⟩ ⟨1000⟩) = some 2
      rw [normalize_depth_1000 _ (by decide) (by decide),
        normalize_depth_1000 _ (by decide) (by decide)]
      exact demoSample_depth_right)
    (by
      show demoSample.averageRegionDepth (XY.normalize ⟨0, 1⟩ ⟨1000⟩)
        (XY.normalize ⟨1, 1⟩ ⟨1000⟩) = some 2
      rw [normalize_depth_1000 _ (by decide) (by decide),
        normalize_depth_1000 _ (by decide) (by decide)]
      exact demoSample_depth_below)

/-! ### The build with assertions -/

theorem bind_ne_error {α β : Type} (x : Except String α) (g : α → Except String β)
    (m : String) (hx : x ≠ Except.error m) (hg : ∀ a, g a ≠ Except.error m) :
    (x >>= g) ≠ Except.error m := by
  cases x with
  | error e => exact fun h => hx (by simpa [bind, Except.bind] using h)
  | ok a => exact hg a

theorem assert_ne_error (expr m : String) (holds : Bool) (h : expr ≠ m) :
    assert expr holds ≠ Except.error m := by
  cases holds <;> simp [assert, h]

theorem pure_ne_error {α : Type} (a : α) (m : String) :
    (pure a : Except String α) ≠ Except.error m := by
  simp [pure, Except.pure]

theorem assert_true (expr : String) : assert expr true = Except.ok () := rfl

/-- With a valid depth, the assertion of `normalize` passes. -/
theorem normalizeChecked_of_valid (p : XY) (depth : Depth) (h : depth.isValid = true) :
    p.normalizeChecked depth = Except.ok (p.normalize depth) := by
  simp [XY.normalizeChecked, XY.normalize, h, assert_true, bind, Except.bind, pure,
    Except.pure]

theorem getColorChecked_ne_error (s : PixelInstance) (pos : Point) (channel : uint8_t) :
    s.getColorChecked pos channel ≠ Except.error "XY::normalize: depth.isValid()" := by
  simp only [PixelInstance.getColorChecked]
  split
  · exact pure_ne_error _ _
  · exact bind_ne_error _ _ _ (assert_ne_error _ _ _ (by decide)) (fun _ => pure_ne_error _ _)

theorem getDepthAtChecked_ne_error (s : PixelInstance) (pos : Point) :
    s.getDepthAtChecked pos ≠ Except.error "XY::normalize: depth.isValid()" := by
  simp only [PixelInstance.getDepthAtChecked]
  split
  · exact pure_ne_error _ _
  · exact bind_ne_error _ _ _ (assert_ne_error _ _ _ (by decide)) (fun _ =>
      bind_ne_error _ _ _ (assert_ne_error _ _ _ (by decide)) (fun _ => pure_ne_error _ _))

theorem averageRegionColorChecked_ne_error (s : PixelInstance) (offset : Offset)
    (region : Region) (channel : uint8_t) :
    s.averageRegionColorChecked offset region channel
      ≠ Except.error "XY::normalize: depth.isValid()" := by
  simp only [PixelInstance.averageRegionColorChecked]
  refine bind_ne_error _ _ _ (assert_ne_error _ _ _ (by decide)) (fun _ => ?_)
  refine bind_ne_error _ _ _ (assert_ne_error _ _ _ (by decide)) (fun _ => ?_)
  refine bind_ne_error _ _ _ (assert_ne_error _ _ _ (by decide)) (fun _ => ?_)
  split
  · exact pure_ne_error _ _
  · refine bind_ne_error _ _ _ (assert_ne_error _ _ _ (by decide)) (fun _ => ?_)
    refine bind_ne_error _ _ _ (getColorChecked_ne_error _ _ _) (fun _ => ?_)
    refine bind_ne_error _ _ _ (getColorChecked_ne_error _ _ _) (fun _ => ?_)
    refine bind_ne_error _ _ _ (getColorChecked_ne_error _ _ _) (fun _ => ?_)
    refine bind_ne_error _ _ _ (getColorChecked_ne_error _ _ _) (fun _ => ?_)
    exact pure_ne_error _ _

theorem averageRegionDepthChecked_ne_error (s : PixelInstance) (offset : Offset)
    (region : Region) :
    s.averageRegionDepthChecked offset region
      ≠ Except.error "XY::normalize: depth.isValid()" := by
  simp only [PixelInstance.averageRegionDepthChecked]
  refine bind_ne_error _ _ _ (assert_ne_error _ _ _ (by decide)) (fun _ => ?_)
  refine bind_ne_error _ _ _ (assert_ne_error _ _ _ (by decide)) (fun _ => ?_)
  refine bind_ne_error _ _ _ (assert_ne_error _ _ _ (by decide)) (fun _ => ?_)
  split
  · exact pure_ne_error _ _
  · refine bind_ne_error _ _ _ (assert_ne_error _ _ _ (by decide)) (fun _ => ?_)
    refine bind_ne_error _ _ _ (assert_ne_error _ _ _ (by decide)) (fun _ => ?_)
    split
    · exact pure_ne_error _ _
    · refine bind_ne_error _ _ _ (getDepthAtChecked_ne_error _ _) (fun _ => ?_)
      refine bind_ne_error _ _ _ (getDepthAtChecked_ne_error _ _) (fun _ => ?_)
      refine bind_ne_error _ _ _ (getDepthAtChecked_ne_error _ _) (fun _ => ?_)
      refine bind_ne_error _ _ _ (getDepthAtChecked_ne_error _ _) (fun _ => ?_)
      exact pure_ne_error _ _

/-! ### C11 -/

theorem intToFloat_16777217 : intToFloat 16777217 = some 16777216 := by
  simp only [intToFloat]
  rw [show ((16777217 : Int) : ℚ) = 16777217 from by norm_num,
    toFloat32_eq_pos 16777217 24 8388608 (by norm_num) (by norm_num) (by norm_num)
      (Or.inr (by norm_num)) (by norm_num) (by norm_num)]
  norm_num

/-- C11, as stated, fails: at the valid depth of integer value 1000, whose
float value is exactly 1, the component 16777217 = 2 ^ 24 + 1 is not a `float`;
its conversion gives 16777216, and `normalize` returns (16777216, 0) for
(16777217, 0). -/
theorem normalize_unit_depth_rounds :
    (⟨1000⟩ : Depth).isValid = true ∧ (⟨1000⟩ : Depth).getFloatValue = some 1 ∧
    XY.normalize ⟨16777217, 0⟩ ⟨1000⟩ = ⟨16777216, 0⟩ ∧
    XY.normalize ⟨16777217, 0⟩ ⟨1000⟩ ≠ ⟨16777217, 0⟩ := by
  have h : XY.normalize ⟨16777217, 0⟩ ⟨1000⟩ = ⟨16777216, 0⟩ := by
    simp only [XY.normalize, getFloatValue_1000, intToFloat_16777217,
      fdiv32_one 0 (by decide)]
    simp only [fdiv32]
    rw [if_neg (by norm_num), div_one]
    have h1 := toFloat32_intCast 16777216 (by decide)
    have h2 : ((16777216 : Int) : ℚ) = 16777216 := by norm_num
    rw [h2] at h1
    rw [h1]
    simp only [floatToInt]
    have h3 := truncToInt_intCast 16777216
    have h4 := truncToInt_intCast 0
    rw [h2] at h3
    rw [h3, h4]
  refine ⟨by decide, getFloatValue_1000, h, ?_⟩
  rw [h]
  decide

/-- C11, amended: for every `XY` value `p` whose components are at most
`2 ^ 24 = 16777216` in absolute value and every valid depth `d` whose float
value is exactly 1, `p.normalize d = p`; the assertion of `normalize`
passes. -/
theorem normalize_unit_depth (p : XY) (d : Depth) (hvalid : d.isValid = true)
    (hunit : d.getFloatValue = some 1)
    (hx : |p.x| ≤ 16777216) (hy : |p.y| ≤ 16777216) :
    p.normalize d = p ∧ p.normalizeChecked d = Except.ok p := by
  have h : p.normalize d = p := normalize_of_unit p d hunit hx hy
  exact ⟨h, by rw [normalizeChecked_of_valid p d hvalid, h]⟩

/-- C11, amended, at a concrete input: the depth of integer value 1000 is
valid and has float value 1; the components are at both ends of the range. -/
theorem normalize_unit_depth_witness :
    (⟨16777216, -16777216⟩ : XY).normalize ⟨1000⟩ = ⟨16777216, -16777216⟩ ∧
    (⟨16777216, -16777216⟩ : XY).normalizeChecked ⟨1000⟩
      = Except.ok ⟨16777216, -16777216⟩ :=
  normalize_unit_depth ⟨16777216, -16777216⟩ ⟨1000⟩ (by decide) getFloatValue_1000
    (by decide) (by decide)

/-! ### C12 -/

theorem normalizeChecked_ne_error_of_valid (p : XY) (depth : Depth)
    (h : depth.isValid = true) :
    p.normalizeChecked depth ≠ Except.error "XY::normalize: depth.isValid()" := by
  rw [normalizeChecked_of_valid p depth h]
  simp

/-- C12: in the build with assertions, for every descriptor and every sample
(of valid or invalid depth), `calculateColorFeature`, `calculateDepthFeature`
and `calculateFeatureResponse` never abort at the assertion
`depth.isValid()` of `XY::normalize`: every call of `normalize` on that path
(on offset1, region1, offset2, region2) receives a valid depth.  The assertion
itself does fail on every invalid depth. -/
theorem normalize_assertion_never_fails (f : ImageFeatureFunction) (s : PixelInstance) :
    f.calculateColorFeatureChecked s ≠ Except.error "XY::normalize: depth.isValid()" ∧
    f.calculateDepthFeatureChecked s ≠ Except.error "XY::normalize: depth.isValid()" ∧
    f.calculateFeatureResponseChecked s ≠ Except.error "XY::normalize: depth.isValid()" ∧
    ∀ (p : XY) (d : Depth), d.isValid = false →
      p.normalizeChecked d = Except.error "XY::normalize: depth.isValid()" := by
  have hcolor : f.calculateColorFeatureChecked s
      ≠ Except.error "XY::normalize: depth.isValid()" := by
    simp only [ImageFeatureFunction.calculateColorFeatureChecked]
    split
    · exact pure_ne_error _ _
    · rename_i hd
      have hd' : s.getDepth.isValid = true := by simpa using hd
      refine bind_ne_error _ _ _ (normalizeChecked_ne_error_of_valid _ _ hd') (fun _ => ?_)
      refine bind_ne_error _ _ _ (normalizeChecked_ne_error_of_valid _ _ hd') (fun _ => ?_)
      refine bind_ne_error _ _ _ (averageRegionColorChecked_ne_error _ _ _ _) (fun _ => ?_)
      split
      · exact pure_ne_error _ _
      · refine bind_ne_error _ _ _ (normalizeChecked_ne_error_of_valid _ _ hd') (fun _ => ?_)
        refine bind_ne_error _ _ _ (normalizeChecked_ne_error_of_valid _ _ hd') (fun _ => ?_)
        refine bind_ne_error _ _ _ (averageRegionColorChecked_ne_error _ _ _ _) (fun _ => ?_)
        split
        · exact pure_ne_error _ _
        · exact pure_ne_error _ _
  have hdepth : f.calculateDepthFeatureChecked s
      ≠ Except.error "XY::normalize: depth.isValid()" := by
    simp only [ImageFeatureFunction.calculateDepthFeatureChecked]
    split
    · exact pure_ne_error _ _
    · rename_i hd
      have hd' : s.getDepth.isValid = true := by simpa using hd
      refine bind_ne_error _ _ _ (normalizeChecked_ne_error_of_valid _ _ hd') (fun _ => ?_)
      refine bind_ne_error _ _ _ (normalizeChecked_ne_error_of_valid _ _ hd') (fun _ => ?_)
      refine bind_ne_error _ _ _ (averageRegionDepthChecked_ne_error _ _ _) (fun _ => ?_)
      split
      · exact pure_ne_error _ _
      · refine bind_ne_error _ _ _ (normalizeChecked_ne_error_of_valid _ _ hd') (fun _ => ?_)
        refine bind_ne_error _ _ _ (normalizeChecked_ne_error_of_valid _ _ hd') (fun _ => ?_)
        refine bind_ne_error _ _ _ (averageRegionDepthChecked_ne_error _ _ _) (fun _ => ?_)
        split
        · exact pure_ne_error _ _
        · refine bind_ne_error _ _ _ (assert_ne_error _ _ _ (by decide)) (fun _ => ?_)
          refine bind_ne_error _ _ _ (assert_ne_error _ _ _ (by decide)) (fun _ => ?_)
          exact pure_ne_error _ _
  refine ⟨hcolor, hdepth, ?_, ?_⟩
  · simp only [ImageFeatureFunction.calculateFeatureResponseChecked]
    refine bind_ne_error _ _ _ (assert_ne_error _ _ _ (by decide)) (fun _ => ?_)
    split
    · exact hdepth
    · split
      · exact hcolor
      · refine bind_ne_error _ _ _ (assert_ne_error _ _ _ (by decide)) (fun _ => ?_)
        exact pure_ne_error _ _
  · intro p d hd
    simp [XY.normalizeChecked, hd, assert, bind, Except.bind]

/-- C12, at a concrete input: a COLOR descriptor on the sample of the 4 × 4
image does not abort at the assertion of `normalize`, which fails on the
invalid sentinel. -/
theorem normalize_assertion_never_fails_witness :
    (⟨COLOR, ⟨0, 0⟩, ⟨1, 1⟩, 0, ⟨1, 0⟩, ⟨1, 1⟩, 0⟩ :
      ImageFeatureFunction).calculateFeatureResponseChecked demoSample
        ≠ Except.error "XY::normalize: depth.isValid()" ∧
    (⟨3, 4⟩ : XY).normalizeChecked Depth.INVALID
      = Except.error "XY::normalize: depth.isValid()" :=
  ⟨(normalize_assertion_never_fails ⟨COLOR, ⟨0, 0⟩, ⟨1, 1⟩, 0, ⟨1, 0⟩, ⟨1, 1⟩, 0⟩
      demoSample).2.2.1,
    (normalize_assertion_never_fails ⟨COLOR, ⟨0, 0⟩, ⟨1, 1⟩, 0, ⟨1, 0⟩, ⟨1, 1⟩, 0⟩
      demoSample).2.2.2 ⟨3, 4⟩ Depth.INVALID (by decide)⟩

/-! ### C14 -/

theorem max_one_max_one (a : Int) : max 1 (max 1 a) = max 1 a := by
  omega

/-- In the build without assertions the two region queries depend on the
region through `max 1 region.x` and `max 1 region.y` only. -/
theorem averageRegion_clamp (s : PixelInstance) (offset : Offset) (rx ry : Int)
    (channel : uint8_t) :
    s.averageRegionColor offset ⟨rx, ry⟩ channel
      = s.averageRegionColor offset ⟨max 1 rx, max 1 ry⟩ channel ∧
    s.averageRegionDepth offset ⟨rx, ry⟩ = s.averageRegionDepth offset ⟨max 1 rx, max 1 ry⟩ := by
  constructor
  · simp only [PixelInstance.averageRegionColor, XY.getX, XY.getY, max_one_max_one]
  · simp only [PixelInstance.averageRegionDepth, XY.getX, XY.getY, max_one_max_one]

/-- In the build with assertions, a region without negative component gives
the same run as the clamped region. -/
theorem averageRegionChecked_clamp (s : PixelInstance) (offset : Offset) (rx ry : Int)
    (channel : uint8_t) (hx : 0 ≤ rx) (hy : 0 ≤ ry) :
    s.averageRegionColorChecked offset ⟨rx, ry⟩ channel
      = s.averageRegionColorChecked offset ⟨max 1 rx, max 1 ry⟩ channel ∧
    s.averageRegionDepthChecked offset ⟨rx, ry⟩
      = s.averageRegionDepthChecked offset ⟨max 1 rx, max 1 ry⟩ := by
  have e1 : decide (rx ≥ 0) = true := by simpa using hx
  have e2 : decide (ry ≥ 0) = true := by simpa using hy
  have e3 : decide (max 1 rx ≥ 0) = true := by
    simp only [ge_iff_le, decide_eq_true_eq]; omega
  have e4 : decide (max 1 ry ≥ 0) = true := by
    simp only [ge_iff_le, decide_eq_true_eq]; omega
  constructor
  · simp only [PixelInstance.averageRegionColorChecked, XY.getX, XY.getY, max_one_max_one,
      e1, e2, e3, e4]
  · simp only [PixelInstance.averageRegionDepthChecked, XY.getX, XY.getY, max_one_max_one,
      e1, e2, e3, e4]

/-- When its three leading assertions hold, `averageRegionColor` runs without
abort in the build with assertions and returns the value of the build
without. -/
theorem averageRegionColorChecked_ok (s : PixelInstance) (offset : Offset) (region : Region)
    (channel : uint8_t) (hx : 0 ≤ region.x) (hy : 0 ≤ region.y)
    (hcolor : s.image.hasIntegratedColor = true) :
    s.averageRegionColorChecked offset region channel
      = Except.ok (s.averageRegionColor offset region channel) := by
  have e1 : decide (region.x ≥ 0) = true := by simpa using hx
  have e2 : decide (region.y ≥ 0) = true := by simpa using hy
  simp only [PixelInstance.averageRegionColorChecked, PixelInstance.averageRegionColor,
    XY.getX, XY.getY, e1, e2, hcolor, assert_true, RGBDImage.getWidth, RGBDImage.getHeight,
    PixelInstance.getColorChecked, PixelInstance.getColor]
  by_cases hbox : (s.getX.val : Int) + offset.x - max 1 region.x < 0 ∨
      (s.getX.val : Int) + offset.x + max 1 region.x ≥ s.image.width ∨
      (s.getY.val : Int) + offset.y - max 1 region.y < 0 ∨
      (s.getY.val : Int) + offset.y + max 1 region.y ≥ s.image.height
  · simp only [if_pos hbox]
    rfl
  · simp only [if_neg hbox]
    have hw1 : 1 ≤ max 1 region.x := le_max_left _ _
    have hh1 : 1 ≤ max 1 region.y := le_max_left _ _
    have c0 : s.inImage ((s.getX.val : Int) + offset.x) ((s.getY.val : Int) + offset.y)
        = true := inImage_of_bounds s.image _ _ (by omega)
    have c1 : s.inImage ((s.getX.val : Int) + offset.x + max 1 region.x)
        ((s.getY.val : Int) + offset.y + max 1 region.y) = true :=
      inImage_of_bounds s.image _ _ (by omega)
    have c2 : s.inImage ((s.getX.val : Int) + offset.x + max 1 region.x)
        ((s.getY.val : Int) + offset.y - max 1 region.y) = true :=
      inImage_of_bounds s.image _ _ (by omega)
    have c3 : s.inImage ((s.getX.val : Int) + offset.x - max 1 region.x)
        ((s.getY.val : Int) + offset.y - max 1 region.y) = true :=
      inImage_of_bounds s.image _ _ (by omega)
    have c4 : s.inImage ((s.getX.val : Int) + offset.x - max 1 region.x)
        ((s.getY.val : Int) + offset.y + max 1 region.y) = true :=
      inImage_of_bounds s.image _ _ (by omega)
    simp only [c0, c1, c2, c3, c4, assert_true, hcolor]
    rfl

/-- C14, as stated, fails: in the build with assertions, on the sample at
pixel (1, 1) of the 4 × 4 image, `averageRegionColor` and
`averageRegionDepth` with the region (-1, 1) abort at
`assert(region.getX() >= 0)`, while `averageRegionColor` with the clamped
region `(max 1 (-1), max 1 1) = (1, 1)` returns 4. -/
theorem negative_region_fails_assertion :
    demoSample.averageRegionColorChecked ⟨0, 0⟩ ⟨-1, 1⟩ 0
      = Except.error "PixelInstance::averageRegionColor: region.getX() >= 0" ∧
    demoSample.averageRegionDepthChecked ⟨0, 0⟩ ⟨-1, 1⟩
      = Except.error "PixelInstance::averageRegionDepth: region.getX() >= 0" ∧
    demoSample.averageRegionColorChecked ⟨0, 0⟩ ⟨max 1 (-1), max 1 1⟩ 0
      = Except.ok (some 4) ∧
    demoSample.averageRegionColorChecked ⟨0, 0⟩ ⟨-1, 1⟩ 0
      ≠ demoSample.averageRegionColorChecked ⟨0, 0⟩ ⟨max 1 (-1), max 1 1⟩ 0 := by
  have h1 : demoSample.averageRegionColorChecked ⟨0, 0⟩ ⟨-1, 1⟩ 0
      = Except.error "PixelInstance::averageRegionColor: region.getX() >= 0" := by
    simp [PixelInstance.averageRegionColorChecked, XY.getX, assert, bind, Except.bind]
  have h2 : demoSample.averageRegionDepthChecked ⟨0, 0⟩ ⟨-1, 1⟩
      = Except.error "PixelInstance::averageRegionDepth: region.getX() >= 0" := by
    simp [PixelInstance.averageRegionDepthChecked, XY.getX, assert, bind, Except.bind]
  have h3 : demoSample.averageRegionColorChecked ⟨0, 0⟩ ⟨max 1 (-1), max 1 1⟩ 0
      = Except.ok (some 4) := by
    rw [averageRegionColorChecked_ok demoSample ⟨0, 0⟩ ⟨max 1 (-1), max 1 1⟩ 0 (by decide)
      (by decide) rfl]
    rw [show (⟨max 1 (-1), max 1 1⟩ : Region) = ⟨1, 1⟩ from by decide]
    rw [demoSample_color_centre]
  refine ⟨h1, h2, h3, ?_⟩
  rw [h1, h3]
  simp

/-- C14, amended: for every sample, offset and channel and every region
`(rx, ry)` with `rx ≥ 0` and `ry ≥ 0`, `averageRegionColor` and
`averageRegionDepth` behave as with the region `(max 1 rx, max 1 ry)`, in the
build with assertions (same abort or same result) and in the build without
(same result); in particular a region size 0 is silently treated as 1. -/
theorem averageRegion_clamped_of_nonneg (s : PixelInstance) (offset : Offset) (rx ry : Int)
    (channel : uint8_t) (hx : 0 ≤ rx) (hy : 0 ≤ ry) :
    s.averageRegionColorChecked offset ⟨rx, ry⟩ channel
      = s.averageRegionColorChecked offset ⟨max 1 rx, max 1 ry⟩ channel ∧
    s.averageRegionDepthChecked offset ⟨rx, ry⟩
      = s.averageRegionDepthChecked offset ⟨max 1 rx, max 1 ry⟩ ∧
    s.averageRegionColor offset ⟨rx, ry⟩ channel
      = s.averageRegionColor offset ⟨max 1 rx, max 1 ry⟩ channel ∧
    s.averageRegionDepth offset ⟨rx, ry⟩
      = s.averageRegionDepth offset ⟨max 1 rx, max 1 ry⟩ :=
  ⟨(averageRegionChecked_clamp s offset rx ry channel hx hy).1,
    (averageRegionChecked_clamp s offset rx ry channel hx hy).2,
    (averageRegion_clamp s offset rx ry channel).1,
    (averageRegion_clamp s offset rx ry channel).2⟩

/-- C14, amended, at a concrete input: the region (0, 0) on the sample at
pixel (1, 1) of the 4 × 4 image. -/
theorem averageRegion_clamped_of_nonneg_witness :
    demoSample.averageRegionColorChecked ⟨0, 0⟩ ⟨0, 0⟩ 0
      = demoSample.averageRegionColorChecked ⟨0, 0⟩ ⟨max 1 0, max 1 0⟩ 0 ∧
    demoSample.averageRegionDepthChecked ⟨0, 0⟩ ⟨0, 0⟩
      = demoSample.averageRegionDepthChecked ⟨0, 0⟩ ⟨max 1 0, max 1 0⟩ ∧
    demoSample.averageRegionColor ⟨0, 0⟩ ⟨0, 0⟩ 0
      = demoSample.averageRegionColor ⟨0, 0⟩ ⟨max 1 0, max 1 0⟩ 0 ∧
    demoSample.averageRegionDepth ⟨0, 0⟩ ⟨0, 0⟩
      = demoSample.averageRegionDepth ⟨0, 0⟩ ⟨max 1 0, max 1 0⟩ :=
  averageRegion_clamped_of_nonneg demoSample ⟨0, 0⟩ 0 0 0 (by decide) (by decide)

/-! ### C21 -/

/-- A cell assignment in column `feat` leaves every other column unchanged. -/
theorem setCell_other_column {numFeatures numThresholds : Nat}
    (b : ImageFeaturesAndThresholds numFeatures numThresholds)
    (row r : Fin 11) (feat other : Fin numFeatures) (v : int8_t) (h : feat ≠ other) :
    (b.setCell row feat v).m_features r other = b.m_features r other ∧
    (b.setCell row feat v).m_thresholds = b.m_thresholds := by
  have h2 : ¬ (r = row ∧ other = feat) := fun hh => h hh.2.symm
  simp [ImageFeaturesAndThresholds.setCell, h2]

/-- C21: for every batch, descriptor `f` and columns `feat ≠ other`,
`setFeatureFunction feat f` leaves the 11 feature cells of column `other`
unchanged, so `getFeatureFunction other` gives the same result before and
after, and it leaves the thresholds matrix unchanged. -/
theorem setFeatureFunction_other_column {numFeatures numThresholds : Nat}
    (b : ImageFeaturesAndThresholds numFeatures numThresholds)
    (feat other : Fin numFeatures) (f : ImageFeatureFunction) (h : feat ≠ other) :
    (∀ row : Fin 11, (b.setFeatureFunction feat f).m_features row other
      = b.m_features row other) ∧
    (b.setFeatureFunction feat f).getFeatureFunction other = b.getFeatureFunction other ∧
    (b.setFeatureFunction feat f).m_thresholds = b.m_thresholds := by
  have hcells : ∀ row : Fin 11, (b.setFeatureFunction feat f).m_features row other
      = b.m_features row other := by
    intro row
    simp only [ImageFeaturesAndThresholds.setFeatureFunction]
    simp only [(setCell_other_column _ _ row feat other _ h).1]
  refine ⟨hcells, ?_, ?_⟩
  · simp only [ImageFeaturesAndThresholds.getFeatureFunction,
      ImageFeaturesAndThresholds.types, ImageFeaturesAndThresholds.offset1X,
      ImageFeaturesAndThresholds.offset1Y, ImageFeaturesAndThresholds.offset2X,
      ImageFeaturesAndThresholds.offset2Y, ImageFeaturesAndThresholds.region1X,
      ImageFeaturesAndThresholds.region1Y, ImageFeaturesAndThresholds.region2X,
      ImageFeaturesAndThresholds.region2Y, ImageFeaturesAndThresholds.channel1,
      ImageFeaturesAndThresholds.channel2, hcells]
  · simp only [ImageFeaturesAndThresholds.setFeatureFunction]
    simp only [(setCell_other_column _ _ 0 feat other _ h).2]

/-- C21, at a concrete input: column 1 holds a descriptor; writing column 0
leaves it readable unchanged. -/
theorem setFeatureFunction_other_column_witness :
    ((((ImageFeaturesAndThresholds.create 2 1).setFeatureFunction 1
        ⟨COLOR, ⟨3, 4⟩, ⟨1, 2⟩, 1, ⟨5, 6⟩, ⟨2, 1⟩, 2⟩).setFeatureFunction 0
        ⟨DEPTH, ⟨7, 8⟩, ⟨1, 1⟩, 0, ⟨9, 9⟩, ⟨1, 1⟩, 0⟩).getFeatureFunction 1
      = ((ImageFeaturesAndThresholds.create 2 1).setFeatureFunction 1
        ⟨COLOR, ⟨3, 4⟩, ⟨1, 2⟩, 1, ⟨5, 6⟩, ⟨2, 1⟩, 2⟩).getFeatureFunction 1) :=
  (setFeatureFunction_other_column
    ((ImageFeaturesAndThresholds.create 2 1).setFeatureFunction 1
      ⟨COLOR, ⟨3, 4⟩, ⟨1, 2⟩, 1, ⟨5, 6⟩, ⟨2, 1⟩, 2⟩) 0 1
    ⟨DEPTH, ⟨7, 8⟩, ⟨1, 1⟩, 0, ⟨9, 9⟩, ⟨1, 1⟩, 0⟩ (by decide)).2.1

/-! ### The build with assertions refines the build without -/

theorem bind_eq_ok {α β : Type} {x : Except String α} {g : α → Except String β} {b : β}
    (h : (x >>= g) = Except.ok b) : ∃ a, x = Except.ok a ∧ g a = Except.ok b := by
  cases x with
  | error e => simp [bind, Except.bind] at h
  | ok a => exact ⟨a, rfl, h⟩

theorem assert_eq_ok {expr : String} {holds : Bool} {u : Unit}
    (h : assert expr holds = Except.ok u) : holds = true := by
  cases holds
  · simp [assert] at h
  · rfl

theorem pure_eq_ok {α : Type} {a b : α} (h : (pure a : Except String α) = Except.ok b) :
    a = b := by
  simpa [pure, Except.pure] using h

theorem normalizeChecked_refines (p : XY) (depth : Depth) (q : XY)
    (h : p.normalizeChecked depth = Except.ok q) : p.normalize depth = q := by
  simp only [XY.normalizeChecked] at h
  obtain ⟨_, _, h⟩ := bind_eq_ok h
  exact pure_eq_ok h

theorem getColorChecked_refines (s : PixelInstance) (pos : Point) (channel : uint8_t)
    (v : FeatureResponseType) (h : s.getColorChecked pos channel = Except.ok v) :
    s.getColor pos channel = v := by
  simp only [PixelInstance.getColorChecked] at h
  simp only [PixelInstance.getColor]
  split at h
  · rename_i hc
    rw [if_pos hc]
    exact pure_eq_ok h
  · rename_i hc
    rw [if_neg hc]
    obtain ⟨_, _, h⟩ := bind_eq_ok h
    exact pure_eq_ok h

theorem getDepthAtChecked_refines (s : PixelInstance) (pos : Point) (d : Depth)
    (h : s.getDepthAtChecked pos = Except.ok d) : s.getDepthAt pos = d := by
  simp only [PixelInstance.getDepthAtChecked] at h
  simp only [PixelInstance.getDepthAt]
  split at h
  · rename_i hc
    rw [if_pos hc]
    exact pure_eq_ok h
  · rename_i hc
    rw [if_neg hc]
    obtain ⟨_, _, h⟩ := bind_eq_ok h
    obtain ⟨_, _, h⟩ := bind_eq_ok h
    exact pure_eq_ok h

theorem averageRegionColorChecked_refines (s : PixelInstance) (offset : Offset)
    (region : Region) (channel : uint8_t) (v : FeatureResponseType)
    (h : s.averageRegionColorChecked offset region channel = Except.ok v) :
    s.averageRegionColor offset region channel = v := by
  simp only [PixelInstance.averageRegionColorChecked] at h
  simp only [PixelInstance.averageRegionColor]
  obtain ⟨_, _, h⟩ := bind_eq_ok h
  obtain ⟨_, _, h⟩ := bind_eq_ok h
  obtain ⟨_, _, h⟩ := bind_eq_ok h
  split at h
  · rename_i hc
    rw [if_pos hc]
    exact pure_eq_ok h
  · rename_i hc
    rw [if_neg hc]
    obtain ⟨_, _, h⟩ := bind_eq_ok h
    obtain ⟨p1, h1, h⟩ := bind_eq_ok h
    obtain ⟨p2, h2, h⟩ := bind_eq_ok h
    obtain ⟨p3, h3, h⟩ := bind_eq_ok h
    obtain ⟨p4, h4, h⟩ := bind_eq_ok h
    rw [getColorChecked_refines _ _ _ _ h1, getColorChecked_refines _ _ _ _ h2,
      getColorChecked_refines _ _ _ _ h3, getColorChecked_refines _ _ _ _ h4]
    exact pure_eq_ok h

theorem averageRegionDepthChecked_refines (s : PixelInstance) (offset : Offset)
    (region : Region) (v : FeatureResponseType)
    (h : s.averageRegionDepthChecked offset region = Except.ok v) :
    s.averageRegionDepth offset region = v := by
  simp only [PixelInstance.averageRegionDepthChecked] at h
  simp only [PixelInstance.averageRegionDepth]
  obtain ⟨_, _, h⟩ := bind_eq_ok h
  obtain ⟨_, _, h⟩ := bind_eq_ok h
  obtain ⟨_, _, h⟩ := bind_eq_ok h
  split at h
  · rename_i hc
    rw [if_pos hc]
    exact pure_eq_ok h
  · rename_i hc
    rw [if_neg hc]
    obtain ⟨_, _, h⟩ := bind_eq_ok h
    obtain ⟨_, _, h⟩ := bind_eq_ok h
    split at h
    · rename_i hz
      rw [if_pos hz]
      exact pure_eq_ok h
    · rename_i hz
      rw [if_neg hz]
      obtain ⟨d1, h1, h⟩ := bind_eq_ok h
      obtain ⟨d2, h2, h⟩ := bind_eq_ok h
      obtain ⟨d3, h3, h⟩ := bind_eq_ok h
      obtain ⟨d4, h4, h⟩ := bind_eq_ok h
      rw [getDepthAtChecked_refines _ _ _ h1, getDepthAtChecked_refines _ _ _ h2,
        getDepthAtChecked_refines _ _ _ h3, getDepthAtChecked_refines _ _ _ h4]
      exact pure_eq_ok h

theorem calculateColorFeatureChecked_refines (f : ImageFeatureFunction) (s : PixelInstance)
    (v : FeatureResponseType) (h : f.calculateColorFeatureChecked s = Except.ok v) :
    f.calculateColorFeature s = v := by
  simp only [ImageFeatureFunction.calculateColorFeatureChecked] at h
  simp only [ImageFeatureFunction.calculateColorFeature]
  split at h
  · rename_i hd
    rw [if_pos hd]
    exact pure_eq_ok h
  · rename_i hd
    rw [if_neg hd]
    obtain ⟨o1, ho1, h⟩ := bind_eq_ok h
    obtain ⟨r1, hr1, h⟩ := bind_eq_ok h
    obtain ⟨a, ha, h⟩ := bind_eq_ok h
    rw [normalizeChecked_refines _ _ _ ho1, normalizeChecked_refines _ _ _ hr1,
      averageRegionColorChecked_refines _ _ _ _ _ ha]
    split at h
    · rename_i hn
      rw [if_pos hn]
      exact pure_eq_ok h
    · rename_i hn
      rw [if_neg hn]
      obtain ⟨o2, ho2, h⟩ := bind_eq_ok h
      obtain ⟨r2, hr2, h⟩ := bind_eq_ok h
      obtain ⟨b, hb, h⟩ := bind_eq_ok h
      rw [normalizeChecked_refines _ _ _ ho2, normalizeChecked_refines _ _ _ hr2,
        averageRegionColorChecked_refines _ _ _ _ _ hb]
      split at h
      · rename_i hm
        rw [if_pos hm]
        exact pure_eq_ok h
      · rename_i hm
        rw [if_neg hm]
        exact pure_eq_ok h

theorem calculateDepthFeatureChecked_refines (f : ImageFeatureFunction) (s : PixelInstance)
    (v : FeatureResponseType) (h : f.calculateDepthFeatureChecked s = Except.ok v) :
    f.calculateDepthFeature s = v := by
  simp only [ImageFeatureFunction.calculateDepthFeatureChecked] at h
  simp only [ImageFeatureFunction.calculateDepthFeature]
  split at h
  · rename_i hd
    rw [if_pos hd]
    exact pure_eq_ok h
  · rename_i hd
    rw [if_neg hd]
    obtain ⟨o1, ho1, h⟩ := bind_eq_ok h
    obtain ⟨r1, hr1, h⟩ := bind_eq_ok h
    obtain ⟨a, ha, h⟩ := bind_eq_ok h
    rw [normalizeChecked_refines _ _ _ ho1, normalizeChecked_refines _ _ _ hr1,
      averageRegionDepthChecked_refines _ _ _ _ ha]
    split at h
    · rename_i hn
      rw [if_pos hn]
      exact pure_eq_ok h
    · rename_i hn
      rw [if_neg hn]
      obtain ⟨o2, ho2, h⟩ := bind_eq_ok h
      obtain ⟨r2, hr2, h⟩ := bind_eq_ok h
      obtain ⟨b, hb, h⟩ := bind_eq_ok h
      rw [normalizeChecked_refines _ _ _ ho2, normalizeChecked_refines _ _ _ hr2,
        averageRegionDepthChecked_refines _ _ _ _ hb]
      split at h
      · rename_i hm
        rw [if_pos hm]
        exact pure_eq_ok h
      · rename_i hm
        rw [if_neg hm]
        obtain ⟨_, _, h⟩ := bind_eq_ok h
        obtain ⟨_, _, h⟩ := bind_eq_ok h
        exact pure_eq_ok h

/-- A run of `calculateFeatureResponse` that does not abort in the build with
assertions returns the value of the build without. -/
theorem calculateFeatureResponseChecked_refines (f : ImageFeatureFunction)
    (s : PixelInstance) (v : FeatureResponseType)
    (h : f.calculateFeatureResponseChecked s = Except.ok v) :
    f.calculateFeatureResponse s = v := by
  simp only [ImageFeatureFunction.calculateFeatureResponseChecked] at h
  simp only [ImageFeatureFunction.calculateFeatureResponse]
  obtain ⟨_, _, h⟩ := bind_eq_ok h
  split at h
  · rename_i hk
    rw [if_pos hk]
    exact calculateDepthFeatureChecked_refines f s v h
  · rename_i hk
    rw [if_neg hk]
    split at h
    · rename_i hc
      rw [if_pos hc]
      exact calculateColorFeatureChecked_refines f s v h
    · rename_i hc
      rw [if_neg hc]
      obtain ⟨_, hfalse, _⟩ := bind_eq_ok h
      exact absurd (assert_eq_ok hfalse) (by simp)

/-! ### C22 -/

theorem swap_response_rel (a b : FeatureResponseType) :
    (if isnan b then b else if isnan a then a else fsub b a)
      = fneg (if isnan a then a else if isnan b then b else fsub a b) := by
  cases a <;> cases b <;> simp [isnan, fsub, fneg]

/-- In the build without assertions the response of the swapped descriptor is
the negated response. -/
theorem calculateFeatureResponse_swapTriples (f : ImageFeatureFunction) (s : PixelInstance) :
    (swapTriples f).calculateFeatureResponse s = fneg (f.calculateFeatureResponse s) := by
  simp only [ImageFeatureFunction.calculateFeatureResponse, swapTriples]
  split
  · simp only [ImageFeatureFunction.calculateDepthFeature]
    split
    · rfl
    · exact swap_response_rel _ _
  · split
    · simp only [ImageFeatureFunction.calculateColorFeature]
      split
      · rfl
      · exact swap_response_rel _ _
    · simp [fneg]

theorem rampSample_color_centre :
    rampSample.averageRegionColor ⟨0, 0⟩ ⟨1, 1⟩ 0 = some 10 := by
  rw [averageRegionColor_inside rampSample ⟨0, 0⟩ ⟨1, 1⟩ 0 1 1 1 1 (by decide) (by decide)
    (by decide) (by decide) (by decide)]
  simp only [rampSample, PixelInstance.withDepth, rampImage, RGBDImage.getColor]
  norm_num

theorem rampSample_color_right :
    rampSample.averageRegionColor ⟨1, 0⟩ ⟨1, 1⟩ 0 = some 14 := by
  rw [averageRegionColor_inside rampSample ⟨1, 0⟩ ⟨1, 1⟩ 0 2 1 1 1 (by decide) (by decide)
    (by decide) (by decide) (by decide)]
  simp only [rampSample, PixelInstance.withDepth, rampImage, RGBDImage.getColor]
  norm_num

/-- The response of the COLOR descriptor with offsets (0, 0) and (1, 0) on the
sample of the second image. -/
theorem rampSample_color_response :
    (⟨COLOR, ⟨0, 0⟩, ⟨1, 1⟩, 0, ⟨1, 0⟩, ⟨1, 1⟩, 0⟩ :
      ImageFeatureFunction).calculateFeatureResponse rampSample = some (10 - 14) := by
  have hd : rampSample.getDepth = ⟨1000⟩ := rfl
  have hk : COLOR ≠ DEPTH := by decide
  simp only [ImageFeatureFunction.calculateFeatureResponse, if_neg hk, if_true,
    ImageFeatureFunction.calculateColorFeature, hd,
    normalize_depth_1000 ⟨0, 0⟩ (by decide) (by decide),
    normalize_depth_1000 ⟨1, 0⟩ (by decide) (by decide),
    normalize_depth_1000 ⟨1, 1⟩ (by decide) (by decide),
    rampSample_color_centre, rampSample_color_right]
  simp [Depth.isValid, isnan, fsub]

/-- C22: for every valid descriptor `f`, its swap
`g = (kind, offset2, region2, channel2, offset1, region1, channel1)` (which is
valid too) and every sample `s`, the response of `g` on `s` is NaN exactly when
that of `f` is, and otherwise it is the negation of that of `f`; the same holds
in the build with assertions for two runs that both return. -/
theorem swapTriples_negates_response (f : ImageFeatureFunction) (s : PixelInstance)
    (hvalid : f.isValid = true) :
    (swapTriples f).isValid = true ∧
    isnan ((swapTriples f).calculateFeatureResponse s) = isnan (f.calculateFeatureResponse s) ∧
    (∀ r : ℚ, f.calculateFeatureResponse s = some r →
      (swapTriples f).calculateFeatureResponse s = some (-r)) ∧
    (∀ v w : FeatureResponseType, f.calculateFeatureResponseChecked s = Except.ok v →
      (swapTriples f).calculateFeatureResponseChecked s = Except.ok w →
      isnan w = isnan v ∧ ∀ r : ℚ, v = some r → w = some (-r)) := by
  have hswap := calculateFeatureResponse_swapTriples f s
  have hrel : ∀ v w : FeatureResponseType, w = fneg v →
      isnan w = isnan v ∧ ∀ r : ℚ, v = some r → w = some (-r) := by
    intro v w hw
    subst hw
    cases v <;> simp [isnan, fneg]
  refine ⟨?_, (hrel _ _ hswap).1, (hrel _ _ hswap).2, ?_⟩
  · simp only [ImageFeatureFunction.isValid, swapTriples, bne_iff_ne, ne_eq] at hvalid ⊢
    exact fun h => hvalid h.symm
  · intro v w hv hw
    have hv' := calculateFeatureResponseChecked_refines f s v hv
    have hw' := calculateFeatureResponseChecked_refines (swapTriples f) s w hw
    rw [← hv', ← hw']
    exact hrel _ _ hswap

/-- C22, at a concrete input: on the sample of the second image the COLOR
descriptor with offsets (0, 0) and (1, 0) has the response 10 − 14, its swap
the response −(10 − 14). -/
theorem swapTriples_negates_response_witness :
    (swapTriples ⟨COLOR, ⟨0, 0⟩, ⟨1, 1⟩, 0, ⟨1, 0⟩, ⟨1, 1⟩, 0⟩).calculateFeatureResponse rampSample
      = some (-(10 - 14)) :=
  (swapTriples_negates_response ⟨COLOR, ⟨0, 0⟩, ⟨1, 1⟩, 0, ⟨1, 0⟩, ⟨1, 1⟩, 0⟩ rampSample
    (by decide)).2.2.1 (10 - 14) rampSample_color_response

/-! ### C23 -/

/-- The conversion to `int` truncates toward zero: the result is not larger in
absolute value than the argument and differs from it by less than 1. -/
theorem truncToInt_toward_zero (q : ℚ) :
    |(truncToInt q : ℚ)| ≤ |q| ∧ |q - (truncToInt q : ℚ)| < 1 := by
  simp only [truncToInt]
  split
  · rename_i h0
    have h1 : (Int.floor q : ℚ) ≤ q := Int.floor_le q
    have h2 : q < (Int.floor q : ℚ) + 1 := Int.lt_floor_add_one q
    have h3 : (0 : ℚ) ≤ (Int.floor q : ℚ) := by exact_mod_cast Int.floor_nonneg.mpr h0
    rw [abs_of_nonneg h3, abs_of_nonneg h0, abs_of_nonneg (by linarith)]
    exact ⟨h1, by linarith⟩
  · rename_i h0
    have hneg : q < 0 := not_le.mp h0
    have h1 : q ≤ (Int.ceil q : ℚ) := Int.le_ceil q
    have h2 : (Int.ceil q : ℚ) < q + 1 := Int.ceil_lt_add_one q
    have h3 : (Int.ceil q : ℚ) ≤ 0 := by
      have : Int.ceil q ≤ 0 := Int.ceil_le.mpr (by exact_mod_cast hneg.le)
      exact_mod_cast this
    rw [abs_of_nonpos h3, abs_of_neg hneg, abs_of_nonpos (by linarith)]
    exact ⟨by linarith, by linarith⟩

theorem fdiv32_some (x y : ℚ) (hy : y ≠ 0) :
    fdiv32 (some x) (some y) = toFloat32 (x / y) := by
  simp only [fdiv32, if_neg hy]

theorem intToFloat_small (n : Int) (m : ℚ) (h : |n| ≤ 16777216) (hm : (n : ℚ) = m) :
    intToFloat n = some m := by
  rw [← hm]
  exact toFloat32_intCast n h

theorem truncToInt_eq (q : ℚ) (k : Int) (hk : 0 ≤ k) (h1 : (k : ℚ) ≤ q) (h2 : q < (k : ℚ) + 1) :
    truncToInt q = k := by
  have h0 : (0 : ℚ) ≤ q := le_trans (by exact_mod_cast hk) h1
  simp only [truncToInt, if_pos h0]
  exact Int.floor_eq_iff.mpr ⟨h1, h2⟩

/-- The depth of integer value 3000 has the float value 3. -/
theorem getFloatValue_3000 : (⟨3000⟩ : Depth).getFloatValue = some 3 := by
  simp only [Depth.getFloatValue]
  rw [intToFloat_small 3000 3000 (by decide) (by norm_num),
    fdiv32_some 3000 1000 (by norm_num)]
  have h := toFloat32_intCast 3 (by decide)
  norm_num at h ⊢
  exact h

/-- The depth of integer value 1200 has the float value nearest to 1.2, which
is 5033165 / 4194304, a little above 1.2. -/
theorem getFloatValue_1200 : (⟨1200⟩ : Depth).getFloatValue = some (5033165 / 4194304) := by
  simp only [Depth.getFloatValue]
  rw [intToFloat_small 1200 1200 (by decide) (by norm_num),
    fdiv32_some 1200 1000 (by norm_num),
    toFloat32_eq_pos (1200 / 1000) 0 10066330 (by norm_num) (by norm_num) (by norm_num)
      (Or.inl (by norm_num [abs_lt])) (by norm_num) (by norm_num)]
  norm_num

theorem float_zero_div (y : ℚ) (hy : y ≠ 0) :
    floatToInt (fdiv32 (intToFloat 0) (some y)) = 0 := by
  rw [intToFloat_small 0 0 (by decide) (by norm_num), fdiv32_some 0 y hy, zero_div]
  simp [toFloat32, floatToInt, truncToInt]

theorem float_1_div_3 : floatToInt (fdiv32 (intToFloat 1) (some 3)) = 0 := by
  rw [intToFloat_small 1 1 (by decide) (by norm_num), fdiv32_some 1 3 (by norm_num),
    toFloat32_eq_pos (1 / 3) (-2) 11184811 (by norm_num) (by norm_num) (by norm_num)
      (Or.inl (by norm_num [abs_lt])) (by norm_num) (by norm_num)]
  exact truncToInt_eq _ 0 (by decide) (by norm_num) (by norm_num)

theorem float_2_div_3 : floatToInt (fdiv32 (intToFloat 2) (some 3)) = 0 := by
  rw [intToFloat_small 2 2 (by decide) (by norm_num), fdiv32_some 2 3 (by norm_num),
    toFloat32_eq_pos (2 / 3) (-1) 11184811 (by norm_num) (by norm_num) (by norm_num)
      (Or.inl (by norm_num [abs_lt])) (by norm_num) (by norm_num)]
  exact truncToInt_eq _ 0 (by decide) (by norm_num) (by norm_num)

theorem normalize_1_0_at_3000 : XY.normalize ⟨1, 0⟩ ⟨3000⟩ = ⟨0, 0⟩ := by
  simp only [XY.normalize, getFloatValue_3000, float_1_div_3,
    float_zero_div 3 (by norm_num)]

theorem normalize_2_0_at_3000 : XY.normalize ⟨2, 0⟩ ⟨3000⟩ = ⟨0, 0⟩ := by
  simp only [XY.normalize, getFloatValue_3000, float_2_div_3,
    float_zero_div 3 (by norm_num)]

theorem float_18_div_1200 :
    floatToInt (fdiv32 (intToFloat 18) (some (5033165 / 4194304))) = 14 := by
  rw [intToFloat_small 18 18 (by decide) (by norm_num),
    fdiv32_some 18 (5033165 / 4194304) (by norm_num),
    toFloat32_eq_pos (18 / (5033165 / 4194304)) 3 15728639 (by norm_num) (by norm_num)
      (by norm_num) (Or.inl (by norm_num [abs_lt])) (by norm_num) (by norm_num)]
  exact truncToInt_eq _ 14 (by decide) (by norm_num) (by norm_num)

theorem float_30_div_1200 :
    floatToInt (fdiv32 (intToFloat 30) (some (5033165 / 4194304))) = 24 := by
  rw [intToFloat_small 30 30 (by decide) (by norm_num),
    fdiv32_some 30 (5033165 / 4194304) (by norm_num),
    toFloat32_eq_pos (30 / (5033165 / 4194304)) 4 13107199 (by norm_num) (by norm_num)
      (by norm_num) (Or.inl (by norm_num [abs_lt])) (by norm_num) (by norm_num)]
  exact truncToInt_eq _ 24 (by decide) (by norm_num) (by norm_num)

/-- The `float` quotient is not the exact one: at the depth of integer value
1200 the exact quotients of 18 and 30 are 15 and 25; the `float` value of the
depth lies above 1.2, the quotients round below 15 and 25, and `normalize`
gives (14, 24). -/
theorem normalize_18_30_at_1200 : XY.normalize ⟨18, 30⟩ ⟨1200⟩ = ⟨14, 24⟩ := by
  simp only [XY.normalize, getFloatValue_1200, float_18_div_1200, float_30_div_1200]

theorem float_17_div_1200 :
    floatToInt (fdiv32 (intToFloat 17) (some (5033165 / 4194304))) = 14 := by
  rw [intToFloat_small 17 17 (by decide) (by norm_num),
    fdiv32_some 17 (5033165 / 4194304) (by norm_num),
    toFloat32_eq_pos (17 / (5033165 / 4194304)) 3 14854826 (by norm_num) (by norm_num)
      (by norm_num) (Or.inl (by norm_num [abs_lt])) (by norm_num) (by norm_num)]
  exact truncToInt_eq _ 14 (by decide) (by norm_num) (by norm_num)

/-- At the depth of integer value 1200 the offsets (18, 0) and (17, 0) both
become (14, 0), although the exact quotients are 15 and 14.17. -/
theorem normalize_18_17_at_1200 :
    XY.normalize ⟨18, 0⟩ ⟨1200⟩ = ⟨14, 0⟩ ∧ XY.normalize ⟨17, 0⟩ ⟨1200⟩ = ⟨14, 0⟩ := by
  constructor <;>
    simp only [XY.normalize, getFloatValue_1200, float_18_div_1200, float_17_div_1200,
      float_zero_div (5033165 / 4194304) (by norm_num)]

/-- With equal regions, equal channels and equal normalized offsets the two
box averages of a descriptor are one and the same value. -/
theorem calculateFeatureResponse_of_equal_triples (f : ImageFeatureFunction)
    (s : PixelInstance) (hregion : f.region1 = f.region2) (hchannel : f.channel1 = f.channel2)
    (hoff : f.offset1.normalize s.getDepth = f.offset2.normalize s.getDepth) :
    f.calculateFeatureResponse s = NaN ∨ f.calculateFeatureResponse s = some 0 := by
  simp only [ImageFeatureFunction.calculateFeatureResponse]
  split
  · simp only [ImageFeatureFunction.calculateDepthFeature, hregion, hoff]
    split
    · exact Or.inl rfl
    · cases s.averageRegionDepth (f.offset2.normalize s.getDepth)
          (f.region2.normalize s.getDepth) <;> simp [isnan, fsub, NaN]
  · split
    · simp only [ImageFeatureFunction.calculateColorFeature, hregion, hchannel, hoff]
      split
      · exact Or.inl rfl
      · cases s.averageRegionColor (f.offset2.normalize s.getDepth)
            (f.region2.normalize s.getDepth) f.channel2 <;> simp [isnan, fsub, NaN]
    · exact Or.inr rfl

/-- C23: `normalize d` maps `(x, y)` to `(trunc(x / d), trunc(y / d))`, where
`x / d` is the `float` quotient of the component converted to `float` by the
float value of the depth and `trunc` is truncation toward zero; it does not
preserve `offset1 ≠ offset2`: the offsets (1, 0) and (2, 0) both become (0, 0)
at the valid depth of float value 3.  For every valid descriptor with
`region1 = region2` and `channel1 = channel2` and every sample whose valid
depth gives equal normalized offsets, the assertion of `normalize` passes and
`calculateFeatureResponse` returns NaN or exactly 0 (also in the build with
assertions, when the run returns). -/
theorem normalized_offsets_equal_response (f : ImageFeatureFunction) (s : PixelInstance)
    (hvalid : f.isValid = true)
    (hregion : f.region1 = f.region2) (hchannel : f.channel1 = f.channel2)
    (hd : s.getDepth.isValid = true)
    (hoff : f.offset1.normalize s.getDepth = f.offset2.normalize s.getDepth) :
    f.offset1 ≠ f.offset2 ∧
    f.offset1.normalizeChecked s.getDepth
      = Except.ok (f.offset2.normalize s.getDepth) ∧
    (f.calculateFeatureResponse s = NaN ∨ f.calculateFeatureResponse s = some 0) ∧
    (∀ v : FeatureResponseType, f.calculateFeatureResponseChecked s = Except.ok v →
      v = NaN ∨ v = some 0) ∧
    (∀ d : Depth, f.offset1.normalize d
      = ⟨floatToInt (fdiv32 (intToFloat f.offset1.x) d.getFloatValue),
          floatToInt (fdiv32 (intToFloat f.offset1.y) d.getFloatValue)⟩) ∧
    (∀ q : ℚ, floatToInt (some q) = truncToInt q ∧
      |(truncToInt q : ℚ)| ≤ |q| ∧ |q - (truncToInt q : ℚ)| < 1) ∧
    ((⟨1, 0⟩ : XY) ≠ ⟨2, 0⟩ ∧ (⟨3000⟩ : Depth).isValid = true ∧
      (⟨3000⟩ : Depth).getFloatValue = some 3 ∧
      XY.normalize ⟨1, 0⟩ ⟨3000⟩ = ⟨0, 0⟩ ∧ XY.normalize ⟨2, 0⟩ ⟨3000⟩ = ⟨0, 0⟩) := by
  have hresp := calculateFeatureResponse_of_equal_triples f s hregion hchannel hoff
  refine ⟨?_, ?_, hresp, ?_, fun d => rfl, fun q => ⟨rfl, truncToInt_toward_zero q⟩, ?_⟩
  · simpa [ImageFeatureFunction.isValid] using hvalid
  · rw [normalizeChecked_of_valid _ _ hd, hoff]
  · intro v hv
    rw [← calculateFeatureResponseChecked_refines f s v hv]
    exact hresp
  · exact ⟨by decide, by decide, getFloatValue_3000,
      normalize_1_0_at_3000, normalize_2_0_at_3000⟩

/-- C23, at concrete inputs: the valid COLOR descriptor with offsets (1, 0)
and (2, 0), equal regions and channels, on the sample of depth 3000 (float
value 3) at pixel (1, 1) of the 4 × 4 image; and the one with offsets (18, 0)
and (17, 0) on the sample of depth 1200, where the `float` quotients both
truncate to 14. -/
theorem normalized_offsets_equal_response_witness :
    (⟨1, 0⟩ : XY) ≠ ⟨2, 0⟩ ∧
    ((⟨COLOR, ⟨1, 0⟩, ⟨1, 1⟩, 0, ⟨2, 0⟩, ⟨1, 1⟩, 0⟩ :
        ImageFeatureFunction).calculateFeatureResponse demoSampleFar = NaN ∨
      (⟨COLOR, ⟨1, 0⟩, ⟨1, 1⟩, 0, ⟨2, 0⟩, ⟨1, 1⟩, 0⟩ :
        ImageFeatureFunction).calculateFeatureResponse demoSampleFar = some 0) ∧
    ((⟨COLOR, ⟨18, 0⟩, ⟨1, 1⟩, 0, ⟨17, 0⟩, ⟨1, 1⟩, 0⟩ :
        ImageFeatureFunction).calculateFeatureResponse
          (PixelInstance.withDepth demoImage 0 ⟨1200⟩ 1 1) = NaN ∨
      (⟨COLOR, ⟨18, 0⟩, ⟨1, 1⟩, 0, ⟨17, 0⟩, ⟨1, 1⟩, 0⟩ :
        ImageFeatureFunction).calculateFeatureResponse
          (PixelInstance.withDepth demoImage 0 ⟨1200⟩ 1 1) = some 0) :=
  ⟨(normalized_offsets_equal_response ⟨COLOR, ⟨1, 0⟩, ⟨1, 1⟩, 0, ⟨2, 0⟩, ⟨1, 1⟩, 0⟩
      demoSampleFar (by decide) rfl rfl (by decide)
      (normalize_1_0_at_3000.trans normalize_2_0_at_3000.symm)).1,
    (normalized_offsets_equal_response ⟨COLOR, ⟨1, 0⟩, ⟨1, 1⟩, 0, ⟨2, 0⟩, ⟨1, 1⟩, 0⟩
      demoSampleFar (by decide) rfl rfl (by decide)
      (normalize_1_0_at_3000.trans normalize_2_0_at_3000.symm)).2.2.1,
    (normalized_offsets_equal_response ⟨COLOR, ⟨18, 0⟩, ⟨1, 1⟩, 0, ⟨17, 0⟩, ⟨1, 1⟩, 0⟩
      (PixelInstance.withDepth demoImage 0 ⟨1200⟩ 1 1) (by decide) rfl rfl (by decide)
      (normalize_18_17_at_1200.1.trans normalize_18_17_at_1200.2.symm)).2.2.1⟩

/-! ### C19 -/

theorem getColorChecked_ne_error_of (s : PixelInstance) (pos : Point) (channel : uint8_t)
    (m : String) (hm : "PixelInstance::getColor: image->hasIntegratedColor()" ≠ m) :
    s.getColorChecked pos channel ≠ Except.error m := by
  simp only [PixelInstance.getColorChecked]
  split
  · exact pure_ne_error _ _
  · exact bind_ne_error _ _ _ (assert_ne_error _ _ _ hm) (fun _ => pure_ne_error _ _)

theorem getDepthAtChecked_ne_error_of (s : PixelInstance) (pos : Point) (m : String)
    (hm1 : "PixelInstance::getDepth: image->hasIntegratedDepth()" ≠ m)
    (hm2 : "PixelInstance::getDepth: depth.getIntValue() >= 0" ≠ m) :
    s.getDepthAtChecked pos ≠ Except.error m := by
  simp only [PixelInstance.getDepthAtChecked]
  split
  · exact pure_ne_error _ _
  · exact bind_ne_error _ _ _ (assert_ne_error _ _ _ hm1) (fun _ =>
      bind_ne_error _ _ _ (assert_ne_error _ _ _ hm2) (fun _ => pure_ne_error _ _))

theorem getColorStrict_eq (s : PixelInstance) (x y : Int) (channel : uint8_t)
    (h : s.inImage x y = true) :
    s.getColorStrict ⟨x, y⟩ channel = s.getColorChecked ⟨x, y⟩ channel := by
  simp [PixelInstance.getColorStrict, PixelInstance.getColorChecked, XY.getX, XY.getY, h]

theorem getDepthAtStrict_eq (s : PixelInstance) (x y : Int) (h : s.inImage x y = true) :
    s.getDepthAtStrict ⟨x, y⟩ = s.getDepthAtChecked ⟨x, y⟩ := by
  simp [PixelInstance.getDepthAtStrict, PixelInstance.getDepthAtChecked, XY.getX, XY.getY, h]

/-- The bounds test of the two region queries, when passed, puts the centre
and the four corners inside the image. -/
theorem box_inImage (s : PixelInstance) (offset : Offset) (region : Region)
    (hbox : ¬ ((s.getX.val : Int) + offset.x - max 1 region.x < 0 ∨
      (s.getX.val : Int) + offset.x + max 1 region.x ≥ s.image.width ∨
      (s.getY.val : Int) + offset.y - max 1 region.y < 0 ∨
      (s.getY.val : Int) + offset.y + max 1 region.y ≥ s.image.height)) :
    s.inImage ((s.getX.val : Int) + offset.x) ((s.getY.val : Int) + offset.y) = true ∧
    s.inImage ((s.getX.val : Int) + offset.x + max 1 region.x)
      ((s.getY.val : Int) + offset.y + max 1 region.y) = true ∧
    s.inImage ((s.getX.val : Int) + offset.x - max 1 region.x)
      ((s.getY.val : Int) + offset.y + max 1 region.y) = true ∧
    s.inImage ((s.getX.val : Int) + offset.x + max 1 region.x)
      ((s.getY.val : Int) + offset.y - max 1 region.y) = true ∧
    s.inImage ((s.getX.val : Int) + offset.x - max 1 region.x)
      ((s.getY.val : Int) + offset.y - max 1 region.y) = true := by
  have hw1 : 1 ≤ max 1 region.x := le_max_left _ _
  have hh1 : 1 ≤ max 1 region.y := le_max_left _ _
  refine ⟨?_, ?_, ?_, ?_, ?_⟩ <;>
    exact inImage_of_bounds s.image _ _ (by omega)

theorem averageRegionColorChecked_inImage_assert (s : PixelInstance) (offset : Offset)
    (region : Region) (channel : uint8_t) :
    s.averageRegionColorChecked offset region channel
      ≠ Except.error "PixelInstance::averageRegionColor: inImage(x, y)" := by
  simp only [PixelInstance.averageRegionColorChecked, XY.getX, XY.getY, RGBDImage.getWidth,
    RGBDImage.getHeight]
  refine bind_ne_error _ _ _ (assert_ne_error _ _ _ (by decide)) (fun _ => ?_)
  refine bind_ne_error _ _ _ (assert_ne_error _ _ _ (by decide)) (fun _ => ?_)
  refine bind_ne_error _ _ _ (assert_ne_error _ _ _ (by decide)) (fun _ => ?_)
  split
  · exact pure_ne_error _ _
  · rename_i hbox
    rw [(box_inImage s offset region hbox).1, assert_true]
    refine bind_ne_error _ _ _ (by simp) (fun _ => ?_)
    refine bind_ne_error _ _ _ (getColorChecked_ne_error_of _ _ _ _ (by decide)) (fun _ => ?_)
    refine bind_ne_error _ _ _ (getColorChecked_ne_error_of _ _ _ _ (by decide)) (fun _ => ?_)
    refine bind_ne_error _ _ _ (getColorChecked_ne_error_of _ _ _ _ (by decide)) (fun _ => ?_)
    refine bind_ne_error _ _ _ (getColorChecked_ne_error_of _ _ _ _ (by decide)) (fun _ => ?_)
    exact pure_ne_error _ _

theorem averageRegionDepthChecked_inImage_assert (s : PixelInstance) (offset : Offset)
    (region : Region) :
    s.averageRegionDepthChecked offset region
      ≠ Except.error "PixelInstance::averageRegionDepth: inImage(x, y)" := by
  simp only [PixelInstance.averageRegionDepthChecked, XY.getX, XY.getY, RGBDImage.getWidth,
    RGBDImage.getHeight]
  refine bind_ne_error _ _ _ (assert_ne_error _ _ _ (by decide)) (fun _ => ?_)
  refine bind_ne_error _ _ _ (assert_ne_error _ _ _ (by decide)) (fun _ => ?_)
  refine bind_ne_error _ _ _ (assert_ne_error _ _ _ (by decide)) (fun _ => ?_)
  split
  · exact pure_ne_error _ _
  · rename_i hbox
    rw [(box_inImage s offset region hbox).1, assert_true]
    refine bind_ne_error _ _ _ (by simp) (fun _ => ?_)
    refine bind_ne_error _ _ _ (assert_ne_error _ _ _ (by decide)) (fun _ => ?_)
    split
    · exact pure_ne_error _ _
    · refine bind_ne_error _ _ _
        (getDepthAtChecked_ne_error_of _ _ _ (by decide) (by decide)) (fun _ => ?_)
      refine bind_ne_error _ _ _
        (getDepthAtChecked_ne_error_of _ _ _ (by decide) (by decide)) (fun _ => ?_)
      refine bind_ne_error _ _ _
        (getDepthAtChecked_ne_error_of _ _ _ (by decide) (by decide)) (fun _ => ?_)
      refine bind_ne_error _ _ _
        (getDepthAtChecked_ne_error_of _ _ _ (by decide) (by decide)) (fun _ => ?_)
      exact pure_ne_error _ _

theorem averageRegionColorWith_strict (s : PixelInstance) (offset : Offset)
    (region : Region) (channel : uint8_t) :
    averageRegionColorWith s.getColorStrict s offset region channel
      = s.averageRegionColorChecked offset region channel := by
  simp only [averageRegionColorWith, PixelInstance.averageRegionColorChecked, XY.getX,
    XY.getY, RGBDImage.getWidth, RGBDImage.getHeight]
  by_cases hbox : (s.getX.val : Int) + offset.x - max 1 region.x < 0 ∨
      (s.getX.val : Int) + offset.x + max 1 region.x ≥ s.image.width ∨
      (s.getY.val : Int) + offset.y - max 1 region.y < 0 ∨
      (s.getY.val : Int) + offset.y + max 1 region.y ≥ s.image.height
  · simp only [if_pos hbox]
  · obtain ⟨_, c1, c2, c3, c4⟩ := box_inImage s offset region hbox
    simp only [if_neg hbox, getColorStrict_eq s _ _ channel c1,
      getColorStrict_eq s _ _ channel c2, getColorStrict_eq s _ _ channel c3,
      getColorStrict_eq s _ _ channel c4]

theorem averageRegionDepthWith_strict (s : PixelInstance) (offset : Offset)
    (region : Region) :
    averageRegionDepthWith s.getDepthAtStrict s offset region
      = s.averageRegionDepthChecked offset region := by
  simp only [averageRegionDepthWith, PixelInstance.averageRegionDepthChecked, XY.getX,
    XY.getY, RGBDImage.getWidth, RGBDImage.getHeight]
  by_cases hbox : (s.getX.val : Int) + offset.x - max 1 region.x < 0 ∨
      (s.getX.val : Int) + offset.x + max 1 region.x ≥ s.image.width ∨
      (s.getY.val : Int) + offset.y - max 1 region.y < 0 ∨
      (s.getY.val : Int) + offset.y + max 1 region.y ≥ s.image.height
  · simp only [if_pos hbox]
  · obtain ⟨_, c1, c2, c3, c4⟩ := box_inImage s offset region hbox
    simp only [if_neg hbox, getDepthAtStrict_eq s _ _ c1, getDepthAtStrict_eq s _ _ c2,
      getDepthAtStrict_eq s _ _ c3, getDepthAtStrict_eq s _ _ c4]

/-- C19: for every sample, offset, region and channel, in the build with
assertions `averageRegionColor` and `averageRegionDepth` never abort at
`assert(inImage(x, y))`, and they run the same (same abort or same result) when
the out-of-image branches of the private lookups `getColor` and `getDepth` are
turned into aborts: these branches (NaN, invalid depth) are never taken from
the two functions.  Whenever the bounds check is passed (`x − w ≥ 0`,
`x + w < width`, `y − h ≥ 0`, `y + h < height`, with `w = max 1 region.x`,
`h = max 1 region.y`, `(x, y) = pixel + offset`), the centre and the four
corners `(x ± w, y ± h)` are inside the image. -/
theorem corner_reads_inImage (s : PixelInstance) (offset : Offset) (region : Region)
    (channel : uint8_t) :
    (s.averageRegionColorChecked offset region channel
        ≠ Except.error "PixelInstance::averageRegionColor: inImage(x, y)" ∧
      s.averageRegionDepthChecked offset region
        ≠ Except.error "PixelInstance::averageRegionDepth: inImage(x, y)") ∧
    (s.averageRegionColorChecked offset region channel
        = averageRegionColorWith s.getColorChecked s offset region channel ∧
      averageRegionColorWith s.getColorStrict s offset region channel
        = s.averageRegionColorChecked offset region channel) ∧
    (s.averageRegionDepthChecked offset region
        = averageRegionDepthWith s.getDepthAtChecked s offset region ∧
      averageRegionDepthWith s.getDepthAtStrict s offset region
        = s.averageRegionDepthChecked offset region) ∧
    (∀ pos : Point, s.inImage pos.getX pos.getY = false →
      s.getColorStrict pos channel
        = Except.error "PixelInstance::getColor: out-of-image branch" ∧
      s.getDepthAtStrict pos = Except.error "PixelInstance::getDepth: out-of-image branch" ∧
      s.getColor pos channel = NaN ∧ s.getDepthAt pos = Depth.INVALID) ∧
    (¬ ((s.getX.val : Int) + offset.x - max 1 region.x < 0 ∨
        (s.getX.val : Int) + offset.x + max 1 region.x ≥ s.image.width ∨
        (s.getY.val : Int) + offset.y - max 1 region.y < 0 ∨
        (s.getY.val : Int) + offset.y + max 1 region.y ≥ s.image.height) →
      s.inImage ((s.getX.val : Int) + offset.x) ((s.getY.val : Int) + offset.y) = true ∧
      s.inImage ((s.getX.val : Int) + offset.x + max 1 region.x)
        ((s.getY.val : Int) + offset.y + max 1 region.y) = true ∧
      s.inImage ((s.getX.val : Int) + offset.x - max 1 region.x)
        ((s.getY.val : Int) + offset.y + max 1 region.y) = true ∧
      s.inImage ((s.getX.val : Int) + offset.x + max 1 region.x)
        ((s.getY.val : Int) + offset.y - max 1 region.y) = true ∧
      s.inImage ((s.getX.val : Int) + offset.x - max 1 region.x)
        ((s.getY.val : Int) + offset.y - max 1 region.y) = true) := by
  refine ⟨⟨averageRegionColorChecked_inImage_assert s offset region channel,
      averageRegionDepthChecked_inImage_assert s offset region⟩,
    ⟨rfl, averageRegionColorWith_strict s offset region channel⟩,
    ⟨rfl, averageRegionDepthWith_strict s offset region⟩, ?_,
    box_inImage s offset region⟩
  intro pos hpos
  simp [PixelInstance.getColorStrict, PixelInstance.getDepthAtStrict, PixelInstance.getColor,
    PixelInstance.getDepthAt, hpos]

/-- C19, at a concrete input: the box of offset (1, 0) and region (1, 1) around
pixel (1, 1) of the 4 × 4 image passes the bounds check, its centre (2, 1) and
corners are inside the image, and the strict lookup aborts at the position
(4, 0) outside the image. -/
theorem corner_reads_inImage_witness :
    (demoSample.inImage ((demoSample.getX.val : Int) + 1) ((demoSample.getY.val : Int) + 0)
        = true ∧
      demoSample.inImage ((demoSample.getX.val : Int) + 1 + max 1 1)
        ((demoSample.getY.val : Int) + 0 + max 1 1) = true ∧
      demoSample.inImage ((demoSample.getX.val : Int) + 1 - max 1 1)
        ((demoSample.getY.val : Int) + 0 + max 1 1) = true ∧
      demoSample.inImage ((demoSample.getX.val : Int) + 1 + max 1 1)
        ((demoSample.getY.val : Int) + 0 - max 1 1) = true ∧
      demoSample.inImage ((demoSample.getX.val : Int) + 1 - max 1 1)
        ((demoSample.getY.val : Int) + 0 - max 1 1) = true) ∧
    demoSample.getColorStrict ⟨4, 0⟩ 0
      = Except.error "PixelInstance::getColor: out-of-image branch" :=
  ⟨(corner_reads_inImage demoSample ⟨1, 0⟩ ⟨1, 1⟩ 0).2.2.2.2 (by decide),
    ((corner_reads_inImage demoSample ⟨1, 0⟩ ⟨1, 1⟩ 0).2.2.2.1 ⟨4, 0⟩ (by decide)).1⟩

end curfil
